import Mathlib

/-!
# The in-memory event store (`src/server/data/storage.js`)

A shallow embedding of the `DataStorage` class: the bounded event log, the
session table, the daily statistics and the set of connected dashboards.

Modelling conventions.

* A timestamp is stored by the program as a date string and is only ever
  looked at through `new Date(ts)`; it is modelled by the number of
  milliseconds that this parse yields (`Time`, an integer). The HTTP layer
  rejects strings that do not parse, so there is no invalid date here.
* The clock is explicit: every operation that reads `new Date()` or
  `Date.now()` takes the current time `now` as an argument. One call of
  `addEvent` reads the clock once in the model.
* `toDateString` (the local calendar day of an instant) is a parameter
  `toDateString : Time → Day` of the operations that use it.
* A JavaScript `Map` is an association list in insertion order: `get` finds
  the first entry of a key, `set` replaces it in place or appends. A `Set`
  is a list without repeats in insertion order.
* Objects are mutated by reference in the program; here every operation
  returns the new store next to its result.
* The plain object `pagesVisited` is an association list of its own properties.
  A read of a key that is not an own property finds the members that a plain
  object inherits from `Object.prototype` (`constructor`, `toString`, ...);
  the value stored for such a page is a string, not a count. The order of the
  list is the order of creation of the keys, not the order of enumeration.
* `Array.prototype.sort` is stable; with the comparator
  `new Date(b.t) - new Date(a.t)` it yields the one stable arrangement in
  descending order of time, which is what `sortDesc` computes.
-/

namespace DataStorage

/-- Milliseconds since the epoch, as obtained by `new Date(ts).getTime()`. -/
abbrev Time := Int

/-- The marker of a calendar day, as obtained by `toDateString()`. -/
abbrev Day := Int

/-- An event object as handed to `addEvent`: the timestamp may be missing. -/
structure EventInput where
  type : String
  sessionId : String
  page : String
  country : Option String
  timestamp : Option Time
  deriving DecidableEq, Repr

/-- An event of the log: it carries a timestamp. -/
structure Event where
  type : String
  sessionId : String
  page : String
  country : Option String
  timestamp : Time
  deriving DecidableEq, Repr

/-- A value of the session table. -/
structure Session where
  sessionId : String
  journey : List String
  currentPage : String
  startTime : Time
  lastActivity : Time
  country : Option String
  isActive : Bool
  deriving DecidableEq, Repr

/-- An element of the result of `getActiveSessions`: `{...session, duration}`. -/
structure ActiveSession extends Session where
  duration : Int
  deriving DecidableEq, Repr

/-- A value stored under a key of `pagesVisited`: a number, or the string that `+ 1` makes of
a value that is not a number. -/
inductive PageValue where
  | count (n : Nat)
  | text (s : String)
  deriving DecidableEq, Repr

/-- The `stats` object. -/
structure Stats where
  totalToday : Nat
  totalActive : Nat
  pagesVisited : List (String × PageValue)
  lastReset : Day
  deriving DecidableEq, Repr

/-- The fields of a `DataStorage` instance. -/
structure Store where
  events : List Event
  sessions : List (String × Session)
  connectedDashboards : List String
  stats : Stats
  deriving DecidableEq, Repr

/-- The `filter` argument of `getEvents`; each key may be missing. -/
structure Filter where
  country : Option String
  page : Option String
  type : Option String
  deriving DecidableEq, Repr

/-- The object returned by `getSummary`: `{...this.stats, recentEvents}`. -/
structure Summary extends Stats where
  recentEvents : List Event
  deriving DecidableEq, Repr

/-! ## JavaScript containers -/

/-- Truthiness of a string: the empty string is falsy. -/
def truthyStr (s : String) : Bool :=
  decide (s ≠ "")

/-- Truthiness of an optional string: `undefined` and `""` are falsy. -/
def truthy : Option String → Bool
  | none => false
  | some s => truthyStr s

/-- The method `Map.prototype.get`. -/
def mapGet {β : Type} (m : List (String × β)) (k : String) : Option β :=
  match m with
  | [] => none
  | (k1, v) :: rest => if k1 = k then some v else mapGet rest k

/-- The method `Map.prototype.has`. -/
def mapHas {β : Type} (m : List (String × β)) (k : String) : Bool :=
  (mapGet m k).isSome

/-- The method `Map.prototype.set`: an existing key keeps its position. -/
def mapSet {β : Type} (m : List (String × β)) (k : String) (v : β) : List (String × β) :=
  match m with
  | [] => [(k, v)]
  | (k1, v1) :: rest => if k1 = k then (k, v) :: rest else (k1, v1) :: mapSet rest k v

/-- The method `Set.prototype.add`. -/
def setAdd (st : List String) (x : String) : List String :=
  if x ∈ st then st else st ++ [x]

/-- The method `Set.prototype.delete`. -/
def setDelete (st : List String) (x : String) : List String :=
  st.filter (fun y => decide (y ≠ x))

/-- Stable sort in descending order of a time key: `arr.sort((a, b) => key(b) - key(a))`. -/
def sortDesc {α : Type} (key : α → Time) (l : List α) : List α :=
  l.insertionSort (fun a b => key b ≤ key a)

/-! ## Operations of `DataStorage` -/

/-- The constructor: an empty store whose `lastReset` is the day of creation. -/
def newDataStorage (toDateString : Time → Day) (now : Time) : Store :=
  { events := []
    sessions := []
    connectedDashboards := []
    stats := { totalToday := 0, totalActive := 0, pagesVisited := [], lastReset := toDateString now } }

/-- The function `getActiveSessions`: the active sessions with their duration in whole seconds,
most recent activity first. It does not read the clock. -/
def getActiveSessions (s : Store) : List ActiveSession :=
  let activeSessions := s.sessions.filterMap (fun kv =>
    if kv.2.isActive then
      some { toSession := kv.2, duration := (kv.2.lastActivity - kv.2.startTime) / 1000 }
    else none)
  sortDesc (fun a => a.lastActivity) activeSessions

/-- The function `getSession`. -/
def getSession (s : Store) (sessionId : String) : Option Session :=
  mapGet s.sessions sessionId

/-- The function `getEvents`. The array `filteredEvents` starts as an alias of `this.events`;
each filter that applies replaces it by a fresh array, and the final `sort` works in place on
whatever array it is given, so it reorders the log itself when no filter applied. -/
def getEvents (s : Store) (filter : Filter) : List Event × Store :=
  let filtered0 := s.events
  let filtered1 :=
    if truthy filter.country then filtered0.filter (fun e => decide (e.country = filter.country))
    else filtered0
  let filtered2 :=
    if truthy filter.page then filtered1.filter (fun e => decide (some e.page = filter.page))
    else filtered1
  let filtered3 :=
    if truthy filter.type then filtered2.filter (fun e => decide (some e.type = filter.type))
    else filtered2
  let sorted := sortDesc (fun e => e.timestamp) filtered3
  let aliased := !truthy filter.country && !truthy filter.page && !truthy filter.type
  (sorted, if aliased then { s with events := sorted } else s)

/-- The session object that `updateSession` creates for an unknown `sessionId`. -/
def freshSession (event : Event) : Session :=
  { sessionId := event.sessionId
    journey := []
    currentPage := event.page
    startTime := event.timestamp
    lastActivity := event.timestamp
    country := event.country
    isActive := true }

/-- The mutations that `updateSession` applies to the session object it fetched. -/
def touchSession (now : Time) (event : Event) (session : Session) : Session :=
  let session :=
    if truthyStr event.page && !session.journey.contains event.page then
      { session with journey := session.journey ++ [event.page] }
    else session
  let session := { session with currentPage := event.page, lastActivity := event.timestamp }
  let session :=
    if event.type = "session_end" then { session with isActive := false } else session
  let thirtyMinutesAgo := now - 30 * 60 * 1000
  if session.lastActivity < thirtyMinutesAgo then { session with isActive := false } else session

/-- The function `updateSession`. -/
def updateSession (s : Store) (now : Time) (event : Event) : Store :=
  let sessions :=
    if !mapHas s.sessions event.sessionId then mapSet s.sessions event.sessionId (freshSession event)
    else s.sessions
  match mapGet sessions event.sessionId with
  | none => { s with sessions := sessions }
  | some session =>
    { s with sessions := mapSet sessions event.sessionId (touchSession now event session) }

/-- The set `uniqueSessions` that `updateStats` builds by scanning the log. -/
def uniqueSessions (toDateString : Time → Day) (today : Day) (events : List Event) : List String :=
  events.foldl (fun acc e => if toDateString e.timestamp = today then setAdd acc e.sessionId else acc) []

/-- The names of the members of `Object.prototype`, which a plain object `{}` inherits. -/
def objectPrototypeKeys : List String :=
  ["constructor", "__defineGetter__", "__defineSetter__", "hasOwnProperty", "__lookupGetter__",
   "__lookupSetter__", "isPrototypeOf", "propertyIsEnumerable", "toString", "valueOf",
   "__proto__", "toLocaleString"]

/-- The string that the operator `+` makes of the member `name` of `Object.prototype`: the
source text of a native function, or `[object Object]` for the prototype object that
`__proto__` yields. -/
def inheritedText (name : String) : String :=
  if name = "constructor" then "function Object() \x7b [native code] \x7d"
  else if name = "__proto__" then "[object Object]"
  else "function " ++ name ++ "() \x7b [native code] \x7d"

/-- The statement `pagesVisited[page] = (pagesVisited[page] || 0) + 1` on a plain object. An
own number grows by one and an own string gets the character `1` appended. A key that is not
an own property reads `undefined`, and the count 1 is stored, unless the key names a member of
`Object.prototype`: that member is truthy, `+ 1` makes a string of it, and the string is
stored as an own property, except for `__proto__`, whose setter ignores a string. -/
def bumpPage (pagesVisited : List (String × PageValue)) (page : String) :
    List (String × PageValue) :=
  match mapGet pagesVisited page with
  | some (.count n) => mapSet pagesVisited page (.count (n + 1))
  | some (.text s) =>
    if s = "" then mapSet pagesVisited page (.count 1)
    else mapSet pagesVisited page (.text (s ++ "1"))
  | none =>
    if page = "__proto__" then pagesVisited
    else if objectPrototypeKeys.contains page then
      mapSet pagesVisited page (.text (inheritedText page ++ "1"))
    else mapSet pagesVisited page (.count 1)

/-- The function `updateStats`. -/
def updateStats (toDateString : Time → Day) (s : Store) (now : Time) (event : Event) : Store :=
  let today := toDateString now
  let stats :=
    if s.stats.lastReset ≠ today then
      { s.stats with totalToday := 0, pagesVisited := [], lastReset := today }
    else s.stats
  let stats :=
    if truthyStr event.page then
      { stats with pagesVisited := bumpPage stats.pagesVisited event.page }
    else stats
  let stats := { stats with totalToday := (uniqueSessions toDateString today s.events).length }
  let stats := { stats with totalActive := (getActiveSessions s).length }
  { s with stats := stats }

/-- The timestamp step of `addEvent`: a missing timestamp becomes the current time. -/
def stamp (now : Time) (event : EventInput) : Event :=
  { type := event.type
    sessionId := event.sessionId
    page := event.page
    country := event.country
    timestamp := event.timestamp.getD now }

/-- The function `addEvent`: push, `updateStats`, `updateSession`, then trim to 1000. -/
def addEvent (toDateString : Time → Day) (s : Store) (now : Time) (event : EventInput) :
    Event × Store :=
  let event := stamp now event
  let s := { s with events := s.events ++ [event] }
  let s := updateStats toDateString s now event
  let s := updateSession s now event
  let s := if s.events.length > 1000 then { s with events := s.events.drop 1 } else s
  (event, s)

/-- The function `getSummary`: it stores the recomputed `totalActive` and calls `getEvents()`
without a filter. -/
def getSummary (s : Store) : Summary × Store :=
  let s := { s with stats := { s.stats with totalActive := (getActiveSessions s).length } }
  let stats := s.stats
  let r := getEvents s { country := none, page := none, type := none }
  ({ toStats := stats, recentEvents := r.1.take 10 }, r.2)

/-- The function `addDashboard`. -/
def addDashboard (s : Store) (dashboardId : String) : Nat × Store :=
  let s := { s with connectedDashboards := setAdd s.connectedDashboards dashboardId }
  (s.connectedDashboards.length, s)

/-- The function `removeDashboard`. -/
def removeDashboard (s : Store) (dashboardId : String) : Nat × Store :=
  let s := { s with connectedDashboards := setDelete s.connectedDashboards dashboardId }
  (s.connectedDashboards.length, s)

/-- The function `getDashboardCount`. -/
def getDashboardCount (s : Store) : Nat :=
  s.connectedDashboards.length

/-- The function `clearStats`. -/
def clearStats (toDateString : Time → Day) (s : Store) (now : Time) : Store :=
  { s with
    events := []
    sessions := []
    stats := { totalToday := 0, totalActive := 0, pagesVisited := [], lastReset := toDateString now } }

/-! ## Sequences of calls -/

/-- A call of one of the operations that change the store. -/
inductive Op where
  | addEvent (now : Time) (event : EventInput)
  | getEvents (filter : Filter)
  | getSummary
  | clearStats (now : Time)
  | addDashboard (dashboardId : String)
  | removeDashboard (dashboardId : String)
  deriving DecidableEq, Repr

/-- The store after one call. -/
def step (toDateString : Time → Day) (s : Store) : Op → Store
  | .addEvent now event => (addEvent toDateString s now event).2
  | .getEvents filter => (getEvents s filter).2
  | .getSummary => (getSummary s).2
  | .clearStats now => clearStats toDateString s now
  | .addDashboard dashboardId => (addDashboard s dashboardId).2
  | .removeDashboard dashboardId => (removeDashboard s dashboardId).2

/-- The store after a sequence of calls, first call first. -/
def run (toDateString : Time → Day) (s : Store) (ops : List Op) : Store :=
  ops.foldl (step toDateString) s

/-- A store is reachable when some sequence of calls leads to it from a new store. -/
def Reachable (toDateString : Time → Day) (s : Store) : Prop :=
  ∃ (now : Time) (ops : List Op), s = run toDateString (newDataStorage toDateString now) ops

/-- The calendar day in UTC, the instance of `toDateString` used in the examples. -/
def utcDay (t : Time) : Day :=
  t / 86400000

/-! ## Notions used to state the properties -/

/-- The entries of a list in order of first occurrence, every later repeat removed. -/
def firstOccurrences : List String → List String
  | [] => []
  | p :: rest => p :: (firstOccurrences rest).filter (fun q => decide (q ≠ p))

/-- Whether a call is `clearStats`. -/
def Op.isClear : Op → Bool
  | .clearStats _ => true
  | _ => false

/-- The events ingested for one `sessionId` by a sequence of calls, in ingestion order, each
with the time of its `addEvent` call. -/
def ingests (sid : String) (ops : List Op) : List (Time × Event) :=
  ops.filterMap (fun op =>
    match op with
    | .addEvent now event => if event.sessionId = sid then some (now, stamp now event) else none
    | _ => none)

/-- The session obtained by applying ingested events one after the other to a table entry. -/
def replay (start : Option Session) (l : List (Time × Event)) : Option Session :=
  l.foldl (fun o ne => some (touchSession ne.1 ne.2 (o.getD (freshSession ne.2)))) start

/-- The keys of the session table are pairwise distinct and each session is stored under its own
`sessionId`. -/
def SessionsWF (s : Store) : Prop :=
  (s.sessions.map Prod.fst).Nodup ∧ ∀ kv ∈ s.sessions, kv.2.sessionId = kv.1

/-- An event passes a filter: it equals the filter on every key that holds a non-empty string. -/
def passes (filter : Filter) (e : Event) : Bool :=
  (!truthy filter.country || decide (e.country = filter.country)) &&
  (!truthy filter.page || decide (some e.page = filter.page)) &&
  (!truthy filter.type || decide (some e.type = filter.type))

/-- An event equals a filter on every key that the filter holds, whatever the value. -/
def passesEveryKey (filter : Filter) (e : Event) : Bool :=
  (filter.country.isNone || decide (e.country = filter.country)) &&
  (filter.page.isNone || decide (some e.page = filter.page)) &&
  (filter.type.isNone || decide (some e.type = filter.type))

/-- The number of distinct `sessionId`s among the events of a list whose timestamp falls on the
day `today`. -/
def distinctSessionsOn (toDateString : Time → Day) (today : Day) (events : List Event) : Nat :=
  ((events.filter (fun e => decide (toDateString e.timestamp = today))).map
    (fun e => e.sessionId)).toFinset.card

/-- The number of sessions of the table whose `isActive` is true. -/
def activeCount (s : Store) : Nat :=
  (s.sessions.filter (fun kv => kv.2.isActive)).length

/-! ## Example inputs -/

/-- A pageview event from the US with a given session, page and timestamp. -/
def pageview (sessionId page : String) (t : Time) : EventInput :=
  { type := "pageview", sessionId := sessionId, page := page, country := some "US",
    timestamp := some t }

/-- A `session_end` event. -/
def sessionEnd (sessionId page : String) (t : Time) : EventInput :=
  { type := "session_end", sessionId := sessionId, page := page, country := some "US",
    timestamp := some t }

/-- The filter `{}`. -/
def noFilter : Filter :=
  { country := none, page := none, type := none }

/-- A new store, created at time 0. -/
def store0 : Store :=
  newDataStorage utcDay 0

/-- The store after two pageviews of session `s1`, stamped 1000 and 2000. -/
def storeTwoEvents : Store :=
  run utcDay store0 [.addEvent 1000 (pageview "s1" "/a" 1000), .addEvent 2000 (pageview "s1" "/b" 2000)]

/-- The store after one pageview of session `s1` at time 0. -/
def storeOneEvent : Store :=
  run utcDay store0 [.addEvent 0 (pageview "s1" "/a" 0)]

/-- The store after a pageview of `s1` at time 0 and a pageview of `s2` two hours later. -/
def storeIdleSession : Store :=
  run utcDay store0 [.addEvent 0 (pageview "s1" "/a" 0), .addEvent 7200000 (pageview "s2" "/b" 7200000)]

/-- The pageviews of session `s1` on page `/a` stamped `0, 1, ..., n - 1` milliseconds. -/
def risingEvents (n : Nat) : List EventInput :=
  (List.range n).map (fun (i : Nat) => pageview "s1" "/a" (Int.ofNat i))

/-- The store after 1000 pageviews stamped `0, ..., 999` were ingested in that order. -/
def storeFull : Store :=
  run utcDay store0 ((risingEvents 1000).map (Op.addEvent 0))

/-- The store after one pageview of session `b` and then 999 pageviews of session `a`, all at
time 0. -/
def storeFullTwoSessions : Store :=
  run utcDay store0
    ((pageview "b" "/a" 0 :: List.replicate 999 (pageview "a" "/a" 0)).map (Op.addEvent 0))

/-- Three pageviews of session `s1` on the pages `/a`, `/b`, `/a`, with a pageview of another
session and a summary query in between. -/
def opsABA : List Op :=
  [.addEvent 1000 (pageview "s1" "/a" 1000), .addEvent 2000 (pageview "s2" "/x" 2000),
   .addEvent 3000 (pageview "s1" "/b" 3000), .getSummary,
   .addEvent 4000 (pageview "s1" "/a" 4000)]

/-- A filter whose `country` key holds the empty string. -/
def emptyCountryFilter : Filter :=
  { country := some "", page := none, type := none }

/-! ## Time series -/

/-- An element of the result of `getVisitorsOverTime` and of `getEventsOverTime`. -/
structure VisitorSlot where
  time : Time
  visitors : Nat
  events : Nat
  deriving DecidableEq, Repr

/-- An element of the result of `getPageviewsOverTime`. -/
structure PageviewSlot where
  time : Time
  pageviews : Nat
  visitors : Nat
  deriving DecidableEq, Repr

/-- An element of the result of `getSessionsOverTime`. -/
structure SessionSlot where
  time : Time
  sessions : Nat
  deriving DecidableEq, Repr

/-- The values taken by `i` in `for (let i = minutes; i >= 0; i--)`, in the order of the loop. -/
def countdown (minutes : Nat) : List Nat :=
  (List.range (minutes + 1)).reverse

/-- The start of the slot of index `i`: `now.getTime() - i * 60 * 1000`. -/
def slotStart (now : Time) (i : Nat) : Time :=
  now - Int.ofNat i * 60 * 1000

/-- The number `new Set(arr).size` of distinct entries of an array of strings. -/
def setSize (l : List String) : Nat :=
  (l.foldl setAdd []).length

/-- The array `slotEvents` of `getVisitorsOverTime` and `getEventsOverTime`: the log entries
stamped in `[slotTime, slotTime + 60 s)`, then the `country` and `page` filters. -/
def slotEvents (s : Store) (slotTime : Time) (filters : Filter) : List Event :=
  let slotEvents := s.events.filter (fun e =>
    decide (slotTime ≤ e.timestamp) && decide (e.timestamp < slotTime + 60 * 1000))
  let slotEvents :=
    if truthy filters.country then slotEvents.filter (fun e => decide (e.country = filters.country))
    else slotEvents
  if truthy filters.page then slotEvents.filter (fun e => decide (some e.page = filters.page))
  else slotEvents

/-- The array `slotEvents` of `getPageviewsOverTime`: as `slotEvents`, for pageviews only. -/
def slotPageviews (s : Store) (slotTime : Time) (filters : Filter) : List Event :=
  let slotEvents := s.events.filter (fun e =>
    decide (slotTime ≤ e.timestamp) && decide (e.timestamp < slotTime + 60 * 1000) &&
      decide (e.type = "pageview"))
  let slotEvents :=
    if truthy filters.country then slotEvents.filter (fun e => decide (e.country = filters.country))
    else slotEvents
  if truthy filters.page then slotEvents.filter (fun e => decide (some e.page = filters.page))
  else slotEvents

/-- The function `getVisitorsOverTime`. -/
def getVisitorsOverTime (s : Store) (now : Time) (minutes : Nat) (filters : Filter) :
    List VisitorSlot :=
  (countdown minutes).map (fun i =>
    let slotTime := slotStart now i
    let slotEvents := slotEvents s slotTime filters
    { time := slotTime
      visitors := setSize (slotEvents.map (fun e => e.sessionId))
      events := slotEvents.length })

/-- The function `getEventsOverTime`. -/
def getEventsOverTime (s : Store) (now : Time) (minutes : Nat) (filters : Filter) :
    List VisitorSlot :=
  (countdown minutes).map (fun i =>
    let slotTime := slotStart now i
    let slotEvents := slotEvents s slotTime filters
    { time := slotTime
      events := slotEvents.length
      visitors := setSize (slotEvents.map (fun e => e.sessionId)) })

/-- The function `getPageviewsOverTime`. -/
def getPageviewsOverTime (s : Store) (now : Time) (minutes : Nat) (filters : Filter) :
    List PageviewSlot :=
  (countdown minutes).map (fun i =>
    let slotTime := slotStart now i
    let slotEvents := slotPageviews s slotTime filters
    { time := slotTime
      pageviews := slotEvents.length
      visitors := setSize (slotEvents.map (fun e => e.sessionId)) })

/-- The function `getSessionsOverTime`: per slot, the sessions that started in it, except
those of another country when the `country` filter is set. -/
def getSessionsOverTime (s : Store) (now : Time) (minutes : Nat) (filters : Filter) :
    List SessionSlot :=
  (countdown minutes).map (fun i =>
    let slotTime := slotStart now i
    let slotEndTime := slotTime + 60 * 1000
    let newSessions := s.sessions.foldl (fun n kv =>
      if decide (slotTime ≤ kv.2.startTime) && decide (kv.2.startTime < slotEndTime) then
        if truthy filters.country && decide (kv.2.country ≠ filters.country) then n else n + 1
      else n) 0
    { time := slotTime, sessions := newSessions })

/-! ## Notions used to state the time series and daily reset properties -/

/-- The number held by an own property of `pagesVisited`, 0 when the property is missing or
holds a string. -/
def countOf : Option PageValue → Nat
  | some (.count n) => n
  | _ => 0

/-- The count `pagesVisited[p]` of a store, 0 when the key is missing. -/
def pageCount (s : Store) (p : String) : Nat :=
  countOf (mapGet s.stats.pagesVisited p)

/-- A call that is made on the day `d` and is not `clearStats`: an `addEvent` at a time of the
day `d`, or any of the other calls. -/
def Op.onDay (toDateString : Time → Day) (d : Day) : Op → Bool
  | .addEvent now _ => decide (toDateString now = d)
  | .clearStats _ => false
  | _ => true

/-- The number of events with the page `p` that a sequence of calls ingests. -/
def pageIngests (p : String) (ops : List Op) : Nat :=
  ops.countP (fun op =>
    match op with
    | .addEvent _ event => decide (event.page = p)
    | _ => false)

/-- An event passes the filters of a chart query: it equals the filter on `country` and on
`page` when that key holds a non-empty string. -/
def passesChart (filters : Filter) (e : Event) : Bool :=
  (!truthy filters.country || decide (e.country = filters.country)) &&
  (!truthy filters.page || decide (some e.page = filters.page))

/-- The values of the events metric, oldest slot first. -/
def eventCounts (s : Store) (now : Time) (minutes : Nat) (filters : Filter) : List Nat :=
  (getEventsOverTime s now minutes filters).map (fun slot => slot.events)

/-- A pageview whose page is the empty string, as the HTTP layer produces from a page made of
blanks. -/
def blankPageview : EventInput :=
  { type := "pageview", sessionId := "s1", page := "", country := some "US", timestamp := some 0 }

/-- The store after one pageview stamped one second after the time of its ingestion. -/
def storeFutureEvent : Store :=
  run utcDay store0 [.addEvent 0 (pageview "s1" "/a" 1000)]

/-- The calls of a day: two pageviews of `/a` and one of `/b`, with queries in between. -/
def opsSameDay : List Op :=
  [.addEvent 2000 (pageview "s1" "/a" 2000), .getSummary,
   .addEvent 3000 (pageview "s2" "/b" 3000), .getEvents noFilter,
   .addEvent 4000 (pageview "s2" "/a" 4000)]


/-- The start times that C12 states for a window of `m` minutes: from `now` minus `m` minutes,
rising by 60 seconds, up to `now`. -/
def expectedTimes (now : Time) (m : Nat) : List Time :=
  (List.range (m + 1)).map (fun (k : Nat) => now - Int.ofNat m * 60000 + Int.ofNat k * 60000)

/-- The timestamp of an event lies in the window `[now - m minutes, now]` that C13 names. -/
def inWindowAsWorded (now : Time) (m : Nat) (e : Event) : Bool :=
  decide (now - Int.ofNat m * 60000 ≤ e.timestamp) && decide (e.timestamp ≤ now)

/-- The timestamp of an event lies in `[now - m minutes, now + 1 minute)`, the union of the
slots. -/
def inSlots (now : Time) (m : Nat) (e : Event) : Bool :=
  decide (now - Int.ofNat m * 60000 ≤ e.timestamp) && decide (e.timestamp < now + 60000)


/-! ## The chart query -/

/-- The result of `getChartData`: the array of one of the time series. -/
inductive ChartData where
  | visitors (slots : List VisitorSlot)
  | pageviews (slots : List PageviewSlot)
  | sessions (slots : List SessionSlot)
  deriving DecidableEq, Repr

/-- The function `getChartData`; `hours`, when given and not 0, replaces `minutes`. A type
that is not known falls back to the visitors series. -/
def getChartData (s : Store) (now : Time) (type : String) (minutes : Nat) (hours : Option Nat)
    (filters : Filter) : ChartData :=
  let timeRange :=
    match hours with
    | some h => if h ≠ 0 then h * 60 else minutes
    | none => minutes
  if type = "visitors" then .visitors (getVisitorsOverTime s now timeRange filters)
  else if type = "events" then .visitors (getEventsOverTime s now timeRange filters)
  else if type = "pageviews" then .pageviews (getPageviewsOverTime s now timeRange filters)
  else if type = "sessions" then .sessions (getSessionsOverTime s now timeRange filters)
  else if type = "hourly" then .visitors (getVisitorsOverTime s now timeRange filters)
  else .visitors (getVisitorsOverTime s now timeRange filters)

end DataStorage

/-!
# The socket handler (`src/server/websocket/websocketHandler.js`)

The registry of dashboard connections, the subscription rule, the milestone check and the
periodic cleanup of the `WebSocketHandler` class. A socket is seen through what the handler
asks of it: whether `readyState` is `OPEN` and whether `send` throws. What an operation sends
is returned next to the new state.
-/

namespace WebSocketHandler

open DataStorage

/-- A socket `ws` as the handler sees it. -/
structure Socket where
  /-- Whether `ws.readyState === ws.OPEN`. -/
  isOpen : Bool
  /-- Whether `ws.send` throws. -/
  sendThrows : Bool
  deriving DecidableEq, Repr

/-- The `filters` object of a subscription; only these two keys are ever read. -/
structure SubscriptionFilters where
  country : Option String
  page : Option String
  deriving DecidableEq, Repr

/-- The `subscriptions` object that `handleEventSubscription` stores on a connection. -/
structure Subscriptions where
  eventTypes : List String
  filters : SubscriptionFilters
  subscribedAt : Time
  deriving DecidableEq, Repr

/-- A value of the `connections` map. -/
structure Connection where
  ws : Socket
  connectedAt : Time
  lastActivity : Time
  focused : Option Bool
  subscriptions : Option Subscriptions
  deriving DecidableEq, Repr

/-- The argument `data` of `shouldReceiveUpdate` as far as it is read: an event, a session or
a bulk notice, of which the keys `country` and `page` may be missing. -/
structure UpdatePayload where
  country : Option String
  page : Option String
  deriving DecidableEq, Repr

/-- The payload that `broadcastNewEvent` and `broadcastVisitorUpdate` pass for an event. -/
def payloadOfEvent (e : Event) : UpdatePayload :=
  { country := e.country, page := some e.page }

/-- The method `Map.prototype.delete`. -/
def mapDelete {β : Type} (m : List (String × β)) (k : String) : List (String × β) :=
  match m with
  | [] => []
  | (k1, v) :: rest => if k1 = k then rest else (k1, v) :: mapDelete rest k

/-- The method `String.prototype.includes`: `needle` occurs in `hay` as a substring. -/
def includes (hay needle : String) : Bool :=
  hay.data.tails.any (fun t => needle.data.isPrefixOf t)

/-- The number `Object.keys(filters).length` of keys of a `filters` object, counting the keys
that the handler reads. -/
def filterKeys (filters : SubscriptionFilters) : Nat :=
  (if filters.country.isSome then 1 else 0) + (if filters.page.isSome then 1 else 0)

/-- The function `shouldReceiveUpdate`. -/
def shouldReceiveUpdate (connection : Connection) (updateType : String)
    (data : Option UpdatePayload) : Bool :=
  match connection.subscriptions with
  | none => true
  | some subscriptions =>
    let eventTypes := subscriptions.eventTypes
    let filters := subscriptions.filters
    if decide (eventTypes.length > 0) && !eventTypes.contains "all" &&
        !eventTypes.contains updateType then false
    else
      match data with
      | none => true
      | some data =>
        if decide (filterKeys filters > 0) then
          if truthy filters.country && truthy data.country &&
              decide (data.country ≠ filters.country) then false
          else if truthy filters.page && truthy data.page &&
              !includes (data.page.getD "") (filters.page.getD "") then false
          else true
        else true

/-- The outcome of one `broadcastToAll`: the counters `sent` and `failed` and the deliveries
made, each with the id of the receiving connection. -/
structure BroadcastResult (μ : Type) where
  sent : Nat
  failed : Nat
  delivered : List (String × μ)

/-- The function `broadcastToAll`. -/
def broadcastToAll {μ : Type} (connections : List (String × Connection)) (data : μ) :
    BroadcastResult μ :=
  connections.foldl (fun r kv =>
    if kv.2.ws.isOpen then
      if kv.2.ws.sendThrows then { r with failed := r.failed + 1 }
      else { r with sent := r.sent + 1, delivered := r.delivered ++ [(kv.1, data)] }
    else { r with failed := r.failed + 1 })
    { sent := 0, failed := 0, delivered := [] }

/-- An entry of the array `milestones`. -/
structure Milestone where
  type : String
  message : String
  value : Nat
  deriving DecidableEq, Repr

/-- The `data` of an `alert` message. -/
structure Alert where
  level : String
  message : String
  details : Milestone
  timestamp : Time
  deriving DecidableEq, Repr

/-- The function `broadcastAlert`. -/
def broadcastAlert (connections : List (String × Connection)) (now : Time) (level : String)
    (message : String) (details : Milestone) : Alert × BroadcastResult Alert :=
  let alert : Alert := { level := level, message := message, details := details, timestamp := now }
  (alert, broadcastToAll connections alert)

/-- Reading the property `events` of the value that `getEvents` returns. That value is an
array, and an array has no property `events`: the result is `undefined`. -/
def eventsProperty (_recentEvents : List Event) : Option (List Event) :=
  none

/-- The filter `{ limit: 10 }`: it holds none of the keys that `getEvents` reads. -/
def limitFilter : Filter :=
  { country := none, page := none, type := none }

/-- What `checkAndBroadcastMilestones` does: the alerts it broadcasts, in order, the deliveries
made, and the store after its call of `getEvents`. -/
structure MilestoneOutcome where
  alerts : List Alert
  delivered : List (String × Alert)
  store : Store

/-- The function `checkAndBroadcastMilestones`. -/
def checkAndBroadcastMilestones (connections : List (String × Connection)) (s : Store)
    (now : Time) (stats : Summary) : MilestoneOutcome :=
  let milestones : List Milestone := []
  let milestones :=
    if decide (stats.totalToday ≠ 0) && decide (stats.totalToday % 100 = 0) then
      milestones ++ [{ type := "visitor_milestone"
                       message := "🎉 " ++ toString stats.totalToday ++ " visitors today!"
                       value := stats.totalToday }]
    else milestones
  let milestones :=
    if decide (stats.totalActive ≠ 0) && decide (stats.totalActive ≥ 50) then
      milestones ++ [{ type := "concurrent_milestone"
                       message := "🔥 " ++ toString stats.totalActive ++ " concurrent visitors!"
                       value := stats.totalActive }]
    else milestones
  let recentEvents := getEvents s limitFilter
  let spike : List Milestone :=
    match eventsProperty recentEvents.1 with
    | some events =>
      if decide (events.length ≥ 5) then
        let lastMinute := now - 60000
        let recentCount :=
          (events.filter (fun (e : Event) => decide (e.timestamp > lastMinute))).length
        if decide (recentCount ≥ 5) then
          [{ type := "traffic_spike"
             message := "📈 Traffic spike detected: " ++ toString recentCount ++
               " events in the last minute"
             value := recentCount }]
        else []
      else []
    | none => []
  let milestones := milestones ++ spike
  let broadcasts : List (Alert × BroadcastResult Alert) :=
    milestones.map (fun (milestone : Milestone) =>
      broadcastAlert connections now "milestone" milestone.message milestone)
  { alerts := broadcasts.map (fun b => b.1)
    delivered := (broadcasts.map (fun b => b.2.delivered)).flatten
    store := recentEvents.2 }

/-- The `data` of a `connections_updated` message. -/
structure ConnectionsUpdated where
  totalDashboards : Nat
  cleanedUp : Nat
  timestamp : Time
  deriving DecidableEq, Repr

/-- What `cleanupInactiveConnections` leaves: the registry, the store and, when it removed a
connection, the outcome of its broadcast. -/
structure CleanupOutcome where
  connections : List (String × Connection)
  store : Store
  cleaned : Nat
  broadcast : Option (BroadcastResult ConnectionsUpdated)

/-- The callback that `cleanupInactiveConnections` passes to `forEach`, applied to one entry:
`acc` holds the registry, the store and the counter `cleaned`. -/
def sweepEntry (now : Time) (acc : List (String × Connection) × Store × Nat)
    (kv : String × Connection) : List (String × Connection) × Store × Nat :=
  let timeout : Int := 5 * 60 * 1000
  let lastActivity := kv.2.lastActivity
  let isInactive := decide (now - lastActivity > timeout)
  let isClosed := !kv.2.ws.isOpen
  if isInactive || isClosed then
    (mapDelete acc.1 kv.1, (removeDashboard acc.2.1 kv.1).2, acc.2.2 + 1)
  else acc

/-- The function `cleanupInactiveConnections`. The `forEach` visits every entry that the map
held at the start: a callback deletes no entry but the one it is visiting. -/
def cleanupInactiveConnections (connections : List (String × Connection)) (s : Store)
    (now : Time) : CleanupOutcome :=
  let swept := connections.foldl (sweepEntry now) (connections, s, 0)
  let cleaned := swept.2.2
  { connections := swept.1
    store := swept.2.1
    cleaned := cleaned
    broadcast :=
      if cleaned > 0 then
        some (broadcastToAll swept.1
          { totalDashboards := swept.1.length, cleanedUp := cleaned, timestamp := now })
      else none }

/-! ## Notions used to state the properties of the handler -/

/-- The rule of C16 as it is worded: no subscription, or a listed type (or `all`) together
with a `country` filter that is unset or equal to the payload's country and a `page` filter
that is unset or contained in the payload's page. -/
def acceptsAsWorded (connection : Connection) (updateType : String)
    (data : Option UpdatePayload) : Bool :=
  match connection.subscriptions with
  | none => true
  | some subscriptions =>
    (subscriptions.eventTypes.contains "all" || subscriptions.eventTypes.contains updateType) &&
    (!truthy subscriptions.filters.country ||
      decide ((data.bind (fun d => d.country)) = subscriptions.filters.country)) &&
    (!truthy subscriptions.filters.page ||
      includes ((data.bind (fun d => d.page)).getD "") (subscriptions.filters.page.getD ""))

/-- Whether `cleanupInactiveConnections` keeps a connection: its socket is open and its last
activity is not more than 5 minutes before `now`. -/
def keptByCleanup (now : Time) (connection : Connection) : Bool :=
  connection.ws.isOpen && decide (now - connection.lastActivity ≤ 300000)

/-! ## Example inputs -/

/-- An open socket whose `send` works. -/
def openSocket : Socket :=
  { isOpen := true, sendThrows := false }

/-- A connection, last active at `t`, subscribed to some event types with a `country` filter. -/
def subscriber (eventTypes : List String) (country : Option String) (t : Time) : Connection :=
  { ws := openSocket, connectedAt := 0, lastActivity := t, focused := none
    subscriptions := some
      { eventTypes := eventTypes, filters := { country := country, page := none },
        subscribedAt := 0 } }

/-- A pageview whose country is the empty string, as the HTTP layer produces from a country made
of blanks. -/
def blankCountryPageview : EventInput :=
  { type := "pageview", sessionId := "s1", page := "/a", country := some "", timestamp := some 0 }

/-- The ids of the connections of a registry that `cleanupInactiveConnections` does not keep. -/
def sweptIds (now : Time) (connections : List (String × Connection)) : List String :=
  (connections.filter (fun kv => !keptByCleanup now kv.2)).map Prod.fst

/-- The `data` of the `alert` message that announces `n` visitors today, sent at `now`. -/
def visitorMilestoneAlert (now : Time) (n : Nat) : Alert :=
  { level := "milestone"
    message := "🎉 " ++ toString n ++ " visitors today!"
    details :=
      { type := "visitor_milestone", message := "🎉 " ++ toString n ++ " visitors today!",
        value := n }
    timestamp := now }

/-- The `data` of the `alert` message that announces `n` concurrent visitors, sent at `now`. -/
def concurrentMilestoneAlert (now : Time) (n : Nat) : Alert :=
  { level := "milestone"
    message := "🔥 " ++ toString n ++ " concurrent visitors!"
    details :=
      { type := "concurrent_milestone", message := "🔥 " ++ toString n ++ " concurrent visitors!",
        value := n }
    timestamp := now }

/-- The connections that a `broadcastToAll` reaches: the socket is open and `send` does not
throw. -/
def reached (connections : List (String × Connection)) : List (String × Connection) :=
  connections.filter (fun kv => kv.2.ws.isOpen && !kv.2.ws.sendThrows)

/-- The number of broadcast alerts whose milestone has a given type. -/
def alertsOfType (type : String) (outcome : MilestoneOutcome) : Nat :=
  (outcome.alerts.filter (fun a => decide (a.details.type = type))).length

/-- The payload `{ type: 'bulk_update', count }` of the bulk route: no country, no page. -/
def bulkPayload : UpdatePayload :=
  { country := none, page := none }

/-- A registry of three dashboards at time 600000: one active, one silent for ten minutes, one
whose socket is closed. -/
def registry3 : List (String × Connection) :=
  [("d1", subscriber ["all"] none 500000),
   ("d2", subscriber ["all"] none 0),
   ("d3", { subscriber ["all"] none 590000 with ws := { isOpen := false, sendThrows := false } })]

/-- A store whose dashboard set holds the three dashboards of `registry3`. -/
def storeThreeDashboards : Store :=
  run utcDay store0 [.addDashboard "d1", .addDashboard "d2", .addDashboard "d3"]

/-- The store after five pageviews stamped at the times `1000, ..., 5000`. -/
def storeFiveEvents : Store :=
  run utcDay store0
    [.addEvent 1000 (pageview "s1" "/a" 1000), .addEvent 2000 (pageview "s2" "/a" 2000),
     .addEvent 3000 (pageview "s3" "/a" 3000), .addEvent 4000 (pageview "s4" "/a" 4000),
     .addEvent 5000 (pageview "s5" "/a" 5000)]


/-! ## Messages to the client -/

/-- A JSON value, as `JSON.stringify` writes it. -/
inductive Json where
  | null
  | bool (b : Bool)
  | num (n : Int)
  | str (s : String)
  | arr (items : List Json)
  | obj (fields : List (String × Json))

/-- The keys of a JSON object, in order; no key for another value. -/
def Json.keys : Json → List String
  | .obj fields => fields.map Prod.fst
  | _ => []

/-- The value of a key of a JSON object. -/
def Json.get (j : Json) (k : String) : Option Json :=
  match j with
  | .obj fields => mapGet fields k
  | _ => none

/-- An object literal as `JSON.stringify` writes it: a key whose value is `undefined` is left
out. -/
def objOf (fields : List (String × Option Json)) : Json :=
  .obj (fields.filterMap (fun kv => kv.2.map (fun v => (kv.1, v))))

/-- An optional string as a JSON value. -/
def optStr (s : Option String) : Option Json :=
  s.map Json.str

/-- An event as a JSON value. -/
def eventJson (e : Event) : Json :=
  objOf [("type", some (.str e.type)), ("sessionId", some (.str e.sessionId)),
    ("page", some (.str e.page)), ("country", optStr e.country),
    ("timestamp", some (.num e.timestamp))]

/-- The fields of a session as JSON fields. -/
def sessionFields (x : Session) : List (String × Option Json) :=
  [("sessionId", some (.str x.sessionId)), ("journey", some (.arr (x.journey.map Json.str))),
   ("currentPage", some (.str x.currentPage)), ("startTime", some (.num x.startTime)),
   ("lastActivity", some (.num x.lastActivity)), ("country", optStr x.country),
   ("isActive", some (.bool x.isActive))]

/-- A session as a JSON value. -/
def sessionJson (x : Session) : Json :=
  objOf (sessionFields x)

/-- An element of `getActiveSessions` as a JSON value. -/
def activeSessionJson (a : ActiveSession) : Json :=
  objOf (sessionFields a.toSession ++ [("duration", some (.num a.duration))])

/-- A value of `pagesVisited` as a JSON value. -/
def pageValueJson : PageValue → Json
  | .count n => .num (Int.ofNat n)
  | .text s => .str s

/-- The result of `getSummary` as a JSON value. -/
def summaryJson (x : Summary) : Json :=
  objOf [("totalToday", some (.num (Int.ofNat x.totalToday))),
    ("totalActive", some (.num (Int.ofNat x.totalActive))),
    ("pagesVisited", some (.obj (x.pagesVisited.map (fun kv => (kv.1, pageValueJson kv.2))))),
    ("lastReset", some (.num x.lastReset)),
    ("recentEvents", some (.arr (x.recentEvents.map eventJson)))]

/-- A filter object as a JSON value. -/
def filterJson (f : Filter) : Json :=
  objOf [("country", optStr f.country), ("page", optStr f.page), ("type", optStr f.type)]

/-- The result of `getChartData` as a JSON value. -/
def chartJson : ChartData → Json
  | .visitors slots => .arr (slots.map (fun b =>
      objOf [("time", some (.num b.time)), ("visitors", some (.num (Int.ofNat b.visitors))),
        ("events", some (.num (Int.ofNat b.events)))]))
  | .pageviews slots => .arr (slots.map (fun b =>
      objOf [("time", some (.num b.time)), ("pageviews", some (.num (Int.ofNat b.pageviews))),
        ("visitors", some (.num (Int.ofNat b.visitors)))]))
  | .sessions slots => .arr (slots.map (fun b =>
      objOf [("time", some (.num b.time)), ("sessions", some (.num (Int.ofNat b.sessions)))]))

/-- The first argument of `broadcastVisitorUpdate`: a stored event, or the notice
`{ type: 'bulk_update', count }` of the bulk route. -/
inductive Subject where
  | event (e : Event)
  | bulk (count : Nat)
  deriving DecidableEq, Repr

/-- The subject as `shouldReceiveUpdate` reads it. -/
def Subject.payload : Subject → UpdatePayload
  | .event e => payloadOfEvent e
  | .bulk _ => { country := none, page := none }

/-- The subject as a JSON value. -/
def Subject.json : Subject → Json
  | .event e => eventJson e
  | .bulk count =>
    objOf [("type", some (.str "bulk_update")), ("count", some (.num (Int.ofNat count)))]

/-- A message parsed from a client, with the fields that the handlers read. Each field may be
missing; a field that is present has the type that its handler expects. -/
structure ClientMessage where
  type : Option String
  filter : Option Filter
  filters : Option Filter
  requestId : Option String
  chartType : Option String
  timeRange : Option Nat
  sessionId : Option String
  action : Option String
  details : Option String
  eventTypes : Option (List String)
  focused : Option Bool
  deriving DecidableEq, Repr

/-- The parsed message as a JSON value, for the echo `originalMessage: data`. -/
def ClientMessage.json (m : ClientMessage) : Json :=
  objOf [("type", optStr m.type), ("filter", m.filter.map filterJson),
    ("filters", m.filters.map filterJson), ("requestId", optStr m.requestId),
    ("chartType", optStr m.chartType),
    ("timeRange", m.timeRange.map (fun n => Json.num (Int.ofNat n))),
    ("sessionId", optStr m.sessionId), ("action", optStr m.action),
    ("details", optStr m.details),
    ("eventTypes", m.eventTypes.map (fun l => Json.arr (l.map Json.str))),
    ("focused", m.focused.map Json.bool)]

/-- The object literals that the handler hands to `ws.send`, one constructor for each literal
of the source, with the values of its `data`. -/
inductive ServerMessage where
  | connectionEstablished (connectionId : String) (totalDashboards : Nat) (connectedAt : Time)
      (initialData : Summary)
  | userConnected (totalDashboards : Nat) (connectedAt : Time)
  | detailedStatsResponse (filter : Filter) (events : List Event)
      (sessions : List ActiveSession) (requestedAt : Time)
  | dashboardActionBroadcast (fromDashboard : String) (action details : Option String)
      (timestamp : Time)
  | filteredDataResponse (requestId : Option String) (filters : Option Filter)
      (events : List Event) (sessions : List Session) (summary : Summary) (generatedAt : Time)
  | unknownTypeError (message : String) (originalMessage : Json)
  | formatError (message : String) (error : String)
  | requestError (message : String) (error : String) (requestId : Option String)
  | chartDataResponse (requestId chartType : Option String) (timeRange : Option Nat)
      (chartData : ChartData) (generatedAt : Time)
  | sessionDetailsResponse (requestId sessionId : Option String)
      (sessionDetails : Option Session) (generatedAt : Time)
  | heartbeatResponse (timestamp : Time) (connectionId : String)
  | subscriptionConfirmed (eventTypes : Option (List String)) (filters : Option Filter)
      (subscribedAt : Time)
  | userDisconnected (totalDashboards : Nat) (disconnectedAt : Time)
  | visitorUpdate (event : Subject) (stats : Summary) (activeSessions : List ActiveSession)
      (timestamp : Time)
  | sessionActivity (sessionData : Session) (timestamp : Time)
  | alert (data : Alert)
  | statsUpdate (stats : Summary) (timestamp : Time)
  | newEvent (event : Event) (timestamp : Time)
  | connectionsUpdated (data : ConnectionsUpdated)

/-- The value of the key `type` of a message. -/
def ServerMessage.type : ServerMessage → String
  | .connectionEstablished .. => "connection_established"
  | .userConnected .. => "user_connected"
  | .detailedStatsResponse .. => "detailed_stats_response"
  | .dashboardActionBroadcast .. => "dashboard_action_broadcast"
  | .filteredDataResponse .. => "filtered_data_response"
  | .unknownTypeError .. => "error"
  | .formatError .. => "error"
  | .requestError .. => "error"
  | .chartDataResponse .. => "chart_data_response"
  | .sessionDetailsResponse .. => "session_details_response"
  | .heartbeatResponse .. => "heartbeat_response"
  | .subscriptionConfirmed .. => "subscription_confirmed"
  | .userDisconnected .. => "user_disconnected"
  | .visitorUpdate .. => "visitor_update"
  | .sessionActivity .. => "session_activity"
  | .alert .. => "alert"
  | .statsUpdate .. => "stats_update"
  | .newEvent .. => "new_event"
  | .connectionsUpdated .. => "connections_updated"

/-- The value of the key `data` of a message. -/
def ServerMessage.data : ServerMessage → Json
  | .connectionEstablished connectionId totalDashboards connectedAt initialData =>
    objOf [("connectionId", some (.str connectionId)),
      ("totalDashboards", some (.num (Int.ofNat totalDashboards))),
      ("connectedAt", some (.num connectedAt)), ("initialData", some (summaryJson initialData))]
  | .userConnected totalDashboards connectedAt =>
    objOf [("totalDashboards", some (.num (Int.ofNat totalDashboards))),
      ("connectedAt", some (.num connectedAt))]
  | .detailedStatsResponse filter events sessions requestedAt =>
    objOf [("filter", some (filterJson filter)), ("events", some (.arr (events.map eventJson))),
      ("sessions", some (.arr (sessions.map activeSessionJson))),
      ("requestedAt", some (.num requestedAt))]
  | .dashboardActionBroadcast fromDashboard action details timestamp =>
    objOf [("fromDashboard", some (.str fromDashboard)), ("action", optStr action),
      ("details", optStr details), ("timestamp", some (.num timestamp))]
  | .filteredDataResponse requestId filters events sessions summary generatedAt =>
    objOf [("requestId", optStr requestId), ("filters", filters.map filterJson),
      ("events", some (.arr (events.map eventJson))),
      ("sessions", some (.arr (sessions.map sessionJson))),
      ("summary", some (summaryJson summary)), ("generatedAt", some (.num generatedAt))]
  | .unknownTypeError message originalMessage =>
    objOf [("message", some (.str message)), ("originalMessage", some originalMessage)]
  | .formatError message error =>
    objOf [("message", some (.str message)), ("error", some (.str error))]
  | .requestError message error requestId =>
    objOf [("message", some (.str message)), ("error", some (.str error)),
      ("requestId", optStr requestId)]
  | .chartDataResponse requestId chartType timeRange chartData generatedAt =>
    objOf [("requestId", optStr requestId), ("chartType", optStr chartType),
      ("timeRange", timeRange.map (fun n => Json.num (Int.ofNat n))),
      ("chartData", some (chartJson chartData)), ("generatedAt", some (.num generatedAt))]
  | .sessionDetailsResponse requestId sessionId sessionDetails generatedAt =>
    objOf [("requestId", optStr requestId), ("sessionId", optStr sessionId),
      ("sessionDetails", sessionDetails.map sessionJson),
      ("generatedAt", some (.num generatedAt))]
  | .heartbeatResponse timestamp connectionId =>
    objOf [("timestamp", some (.num timestamp)), ("connectionId", some (.str connectionId))]
  | .subscriptionConfirmed eventTypes filters subscribedAt =>
    objOf [("eventTypes", eventTypes.map (fun l => Json.arr (l.map Json.str))),
      ("filters", filters.map filterJson), ("subscribedAt", some (.num subscribedAt))]
  | .userDisconnected totalDashboards disconnectedAt =>
    objOf [("totalDashboards", some (.num (Int.ofNat totalDashboards))),
      ("disconnectedAt", some (.num disconnectedAt))]
  | .visitorUpdate event stats activeSessions timestamp =>
    objOf [("event", some event.json), ("stats", some (summaryJson stats)),
      ("activeSessions", some (.arr (activeSessions.map activeSessionJson))),
      ("timestamp", some (.num timestamp))]
  | .sessionActivity sessionData timestamp =>
    objOf (sessionFields sessionData ++ [("timestamp", some (.num timestamp))])
  | .alert data =>
    objOf [("level", some (.str data.level)), ("message", some (.str data.message)),
      ("details", some (objOf [("type", some (.str data.details.type)),
        ("message", some (.str data.details.message)),
        ("value", some (.num (Int.ofNat data.details.value)))])),
      ("timestamp", some (.num data.timestamp))]
  | .statsUpdate stats timestamp =>
    objOf [("stats", some (summaryJson stats)), ("timestamp", some (.num timestamp))]
  | .newEvent event timestamp =>
    objOf [("event", some (eventJson event)), ("timestamp", some (.num timestamp))]
  | .connectionsUpdated data =>
    objOf [("totalDashboards", some (.num (Int.ofNat data.totalDashboards))),
      ("cleanedUp", some (.num (Int.ofNat data.cleanedUp))),
      ("timestamp", some (.num data.timestamp))]

/-- The object that `ws.send(JSON.stringify(...))` puts on the wire: every literal of the
source is of the form `{ type: ..., data: { ... } }`. -/
def ServerMessage.json (m : ServerMessage) : Json :=
  objOf [("type", some (.str m.type)), ("data", some m.data)]


/-! ## The handlers of connections and of client messages -/

/-- What a handler leaves: the registry, the store, and the calls of `ws.send` that it made,
in order, each with the id of the connection that owns the socket. A call that throws is in
the list too; the exception is caught. -/
structure Outcome where
  connections : List (String × Connection)
  store : Store
  sent : List (String × ServerMessage)

/-- The function `sendToClient`, for the socket of the connection `connectionId`: one call of
`ws.send` when the socket is open, none otherwise. -/
def sendToClient (connectionId : String) (ws : Socket) (data : ServerMessage) :
    List (String × ServerMessage) :=
  if ws.isOpen then [(connectionId, data)] else []

/-- The function `broadcastToOthers`. -/
def broadcastToOthers (connections : List (String × Connection)) (excludeConnectionId : String)
    (data : ServerMessage) : List (String × ServerMessage) :=
  (connections.map (fun kv =>
    if kv.1 ≠ excludeConnectionId then sendToClient kv.1 kv.2.ws data else [])).flatten

/-- The calls of `ws.send` that `broadcastToAll` makes: one for each connection whose socket is
open. -/
def broadcastCalls (connections : List (String × Connection)) (data : ServerMessage) :
    List (String × ServerMessage) :=
  (connections.filter (fun kv => kv.2.ws.isOpen)).map (fun kv => (kv.1, data))

/-- The callback of `wss.on('connection', ...)` for a new socket `ws` and the id that
`generateConnectionId` returned. -/
def onConnection (connections : List (String × Connection)) (s : Store) (now : Time)
    (connectionId : String) (ws : Socket) : Outcome :=
  let connections := mapSet connections connectionId
    { ws := ws, connectedAt := now, lastActivity := now, focused := none, subscriptions := none }
  let added := addDashboard s connectionId
  let totalDashboards := added.1
  let summary := getSummary added.2
  let welcome := sendToClient connectionId ws
    (.connectionEstablished connectionId totalDashboards now summary.1)
  let others := broadcastToOthers connections connectionId (.userConnected totalDashboards now)
  { connections := connections, store := summary.2, sent := welcome ++ others }

/-- The function `handleDisconnect`. -/
def handleDisconnect (connections : List (String × Connection)) (s : Store) (now : Time)
    (connectionId : String) : Outcome :=
  let connections := mapDelete connections connectionId
  let removed := removeDashboard s connectionId
  { connections := connections
    store := removed.2
    sent := broadcastCalls connections (.userDisconnected removed.1 now) }

/-- A call of `dataStorage.getSessions`. The class `DataStorage` has no method of that name:
the call throws a `TypeError`. -/
def getSessions (_s : Store) (_filters : Option Filter) : Except String (List Session) :=
  .error "dataStorage.getSessions is not a function"

/-- A call of `dataStorage.getSessionById`. The class `DataStorage` has no method of that name
(its lookup is called `getSession`): the call throws a `TypeError`. -/
def getSessionById (_s : Store) (_sessionId : Option String) : Except String (Option Session) :=
  .error "dataStorage.getSessionById is not a function"

/-- The filter `{}`. -/
def emptyFilter : Filter :=
  { country := none, page := none, type := none }

/-- The function `handleDetailedStatsRequest`. -/
def handleDetailedStatsRequest (connections : List (String × Connection)) (s : Store)
    (now : Time) (connectionId : String) (data : ClientMessage) : Outcome :=
  let filter := data.filter.getD emptyFilter
  let events := getEvents s filter
  let sessions := getActiveSessions events.2
  let sent :=
    match mapGet connections connectionId with
    | some connection =>
      sendToClient connectionId connection.ws
        (.detailedStatsResponse filter (events.1.take 50) sessions now)
    | none => []
  { connections := connections, store := events.2, sent := sent }

/-- The function `handleDashboardAction`. -/
def handleDashboardAction (connections : List (String × Connection)) (s : Store) (now : Time)
    (connectionId : String) (data : ClientMessage) : Outcome :=
  { connections := connections
    store := s
    sent := broadcastToOthers connections connectionId
      (.dashboardActionBroadcast connectionId data.action data.details now) }

/-- The `catch` block shared by the request handlers: an `error` message to the connection,
when it is registered. -/
def replyRequestError (connections : List (String × Connection)) (connectionId : String)
    (message error : String) (requestId : Option String) : List (String × ServerMessage) :=
  match mapGet connections connectionId with
  | some connection =>
    sendToClient connectionId connection.ws (.requestError message error requestId)
  | none => []

/-- The function `handleFilteredDataRequest`. -/
def handleFilteredDataRequest (connections : List (String × Connection)) (s : Store)
    (now : Time) (connectionId : String) (data : ClientMessage) : Outcome :=
  let events := getEvents s (data.filters.getD emptyFilter)
  match getSessions events.2 data.filters with
  | .error error =>
    { connections := connections, store := events.2
      sent := replyRequestError connections connectionId "Failed to fetch filtered data" error
        data.requestId }
  | .ok sessions =>
    let summary := getSummary events.2
    match mapGet connections connectionId with
    | some connection =>
      match eventsProperty events.1 with
      | some list =>
        { connections := connections, store := summary.2
          sent := sendToClient connectionId connection.ws
            (.filteredDataResponse data.requestId data.filters (list.take 100)
              (sessions.take 50) summary.1 now) }
      | none =>
        { connections := connections, store := summary.2
          sent := replyRequestError connections connectionId "Failed to fetch filtered data"
            "Cannot read properties of undefined (reading 'slice')" data.requestId }
    | none => { connections := connections, store := summary.2, sent := [] }

/-- The function `handleChartDataRequest`. -/
def handleChartDataRequest (connections : List (String × Connection)) (s : Store) (now : Time)
    (connectionId : String) (data : ClientMessage) : Outcome :=
  let type := if truthy data.chartType then data.chartType.getD "" else "visitors"
  let minutes :=
    match data.timeRange with
    | some n => if n ≠ 0 then n else 10
    | none => 10
  let chartData := getChartData s now type minutes none (data.filters.getD emptyFilter)
  let sent :=
    match mapGet connections connectionId with
    | some connection =>
      sendToClient connectionId connection.ws
        (.chartDataResponse data.requestId data.chartType data.timeRange chartData now)
    | none => []
  { connections := connections, store := s, sent := sent }

/-- The function `handleSessionDetailsRequest`. -/
def handleSessionDetailsRequest (connections : List (String × Connection)) (s : Store)
    (now : Time) (connectionId : String) (data : ClientMessage) : Outcome :=
  match getSessionById s data.sessionId with
  | .error error =>
    { connections := connections, store := s
      sent := replyRequestError connections connectionId "Failed to fetch session details" error
        data.requestId }
  | .ok sessionDetails =>
    let sent :=
      match mapGet connections connectionId with
      | some connection =>
        sendToClient connectionId connection.ws
          (.sessionDetailsResponse data.requestId data.sessionId sessionDetails now)
      | none => []
    { connections := connections, store := s, sent := sent }

/-- The function `handleHeartbeat`. -/
def handleHeartbeat (connections : List (String × Connection)) (s : Store) (now : Time)
    (connectionId : String) : Outcome :=
  match mapGet connections connectionId with
  | some connection =>
    { connections := mapSet connections connectionId { connection with lastActivity := now }
      store := s
      sent := sendToClient connectionId connection.ws (.heartbeatResponse now connectionId) }
  | none => { connections := connections, store := s, sent := [] }

/-- The function `handleEventSubscription`. -/
def handleEventSubscription (connections : List (String × Connection)) (s : Store) (now : Time)
    (connectionId : String) (data : ClientMessage) : Outcome :=
  match mapGet connections connectionId with
  | some connection =>
    let filters := data.filters.getD emptyFilter
    let subscriptions : Subscriptions :=
      { eventTypes := data.eventTypes.getD ["all"]
        filters := { country := filters.country, page := filters.page }
        subscribedAt := now }
    { connections := mapSet connections connectionId
        { connection with subscriptions := some subscriptions }
      store := s
      sent := sendToClient connectionId connection.ws
        (.subscriptionConfirmed data.eventTypes data.filters now) }
  | none => { connections := connections, store := s, sent := [] }

/-- The function `handleDashboardFocusChange`. -/
def handleDashboardFocusChange (connections : List (String × Connection)) (s : Store)
    (connectionId : String) (data : ClientMessage) : Outcome :=
  match mapGet connections connectionId with
  | some connection =>
    { connections := mapSet connections connectionId { connection with focused := data.focused }
      store := s, sent := [] }
  | none => { connections := connections, store := s, sent := [] }

/-- The text that a client sent, as `JSON.parse` sees it: text that does not parse, the value
`null`, or an object. A text that parses to a number, a string, a boolean or an array, and an
object whose `type` is not a string, are not represented. -/
inductive Inbound where
  | unparseable (error : String)
  | null
  | message (data : ClientMessage)

/-- The eight values of `type` that the `switch` of `handleClientMessage` handles. -/
def handledTypes : List String :=
  ["request_detailed_stats", "track_dashboard_action", "request_filtered_data",
   "request_chart_data", "request_session_details", "heartbeat", "subscribe_to_events",
   "dashboard_focus_change"]

/-- The step `connection.lastActivity = new Date().toISOString()` of `handleClientMessage`. -/
def recordActivity (connections : List (String × Connection)) (now : Time)
    (connectionId : String) : List (String × Connection) :=
  match mapGet connections connectionId with
  | some connection => mapSet connections connectionId { connection with lastActivity := now }
  | none => connections

/-- The `catch` block of `handleClientMessage`. -/
def replyFormatError (connections : List (String × Connection)) (connectionId : String)
    (error : String) : List (String × ServerMessage) :=
  match mapGet connections connectionId with
  | some connection =>
    sendToClient connectionId connection.ws (.formatError "Invalid message format" error)
  | none => []

/-- The function `handleClientMessage`. -/
def handleClientMessage (connections : List (String × Connection)) (s : Store) (now : Time)
    (connectionId : String) (message : Inbound) : Outcome :=
  match message with
  | .unparseable error =>
    { connections := connections, store := s
      sent := replyFormatError connections connectionId error }
  | .null =>
    let connections := recordActivity connections now connectionId
    { connections := connections, store := s
      sent := replyFormatError connections connectionId
        "Cannot read properties of null (reading 'type')" }
  | .message data =>
    let connections := recordActivity connections now connectionId
    if data.type = some "request_detailed_stats" then
      handleDetailedStatsRequest connections s now connectionId data
    else if data.type = some "track_dashboard_action" then
      handleDashboardAction connections s now connectionId data
    else if data.type = some "request_filtered_data" then
      handleFilteredDataRequest connections s now connectionId data
    else if data.type = some "request_chart_data" then
      handleChartDataRequest connections s now connectionId data
    else if data.type = some "request_session_details" then
      handleSessionDetailsRequest connections s now connectionId data
    else if data.type = some "heartbeat" then
      handleHeartbeat connections s now connectionId
    else if data.type = some "subscribe_to_events" then
      handleEventSubscription connections s now connectionId data
    else if data.type = some "dashboard_focus_change" then
      handleDashboardFocusChange connections s connectionId data
    else
      match mapGet connections connectionId with
      | some connection =>
        { connections := connections, store := s
          sent := sendToClient connectionId connection.ws
            (.unknownTypeError ("Unknown message type: " ++ data.type.getD "undefined")
              data.json) }
      | none => { connections := connections, store := s, sent := [] }

/-- The loop shared by `broadcastVisitorUpdate`, `broadcastSessionActivity` and
`broadcastNewEvent`: a send to each connection that `shouldReceiveUpdate` accepts. -/
def sendToSubscribers (connections : List (String × Connection)) (updateType : String)
    (payload : UpdatePayload) (data : ServerMessage) : List (String × ServerMessage) :=
  (connections.map (fun kv =>
    if shouldReceiveUpdate kv.2 updateType (some payload) then sendToClient kv.1 kv.2.ws data
    else [])).flatten

/-- The function `broadcastVisitorUpdate`. -/
def broadcastVisitorUpdate (connections : List (String × Connection)) (s : Store) (now : Time)
    (event : Subject) : Outcome :=
  let stats := getSummary s
  let sessions := getActiveSessions stats.2
  { connections := connections, store := stats.2
    sent := sendToSubscribers connections "visitor_update" event.payload
      (.visitorUpdate event stats.1 sessions now) }

/-- The function `broadcastSessionActivity`. -/
def broadcastSessionActivity (connections : List (String × Connection)) (s : Store)
    (now : Time) (sessionData : Session) : Outcome :=
  { connections := connections, store := s
    sent := sendToSubscribers connections "session_activity"
      { country := sessionData.country, page := none } (.sessionActivity sessionData now) }

/-- The function `broadcastStatsUpdate`. -/
def broadcastStatsUpdate (connections : List (String × Connection)) (s : Store) (now : Time) :
    Outcome :=
  let stats := getSummary s
  { connections := connections, store := stats.2
    sent := broadcastCalls connections (.statsUpdate stats.1 now) }

/-- The function `broadcastNewEvent`. -/
def broadcastNewEvent (connections : List (String × Connection)) (s : Store) (now : Time)
    (event : Event) : Outcome :=
  { connections := connections, store := s
    sent := sendToSubscribers connections "new_event" (payloadOfEvent event)
      (.newEvent event now) }

/-- The `alert` messages that `checkAndBroadcastMilestones` sends, as calls of `ws.send`. -/
def milestoneCalls (connections : List (String × Connection)) (outcome : MilestoneOutcome) :
    List (String × ServerMessage) :=
  (outcome.alerts.map (fun a => broadcastCalls connections (.alert a))).flatten

/-- The `connections_updated` messages that `cleanupInactiveConnections` sends, as calls of
`ws.send`. -/
def cleanupCalls (now : Time) (outcome : CleanupOutcome) : List (String × ServerMessage) :=
  if outcome.cleaned > 0 then
    broadcastCalls outcome.connections
      (.connectionsUpdated
        { totalDashboards := outcome.connections.length, cleanedUp := outcome.cleaned,
          timestamp := now })
  else []

/-! ## Sequences of connections and disconnections -/

/-- A call that changes the registry. -/
inductive RegistryOp where
  | connect (now : Time) (connectionId : String) (ws : Socket)
  | disconnect (now : Time) (connectionId : String)
  | cleanup (now : Time)
  deriving DecidableEq, Repr

/-- The registry and the store after one call. -/
def registryStep (state : List (String × Connection) × Store) :
    RegistryOp → List (String × Connection) × Store
  | .connect now connectionId ws =>
    ((onConnection state.1 state.2 now connectionId ws).connections,
      (onConnection state.1 state.2 now connectionId ws).store)
  | .disconnect now connectionId =>
    ((handleDisconnect state.1 state.2 now connectionId).connections,
      (handleDisconnect state.1 state.2 now connectionId).store)
  | .cleanup now =>
    ((cleanupInactiveConnections state.1 state.2 now).connections,
      (cleanupInactiveConnections state.1 state.2 now).store)

/-- The registry and the store after a sequence of calls, from an empty registry and a new
store. -/
def registryRun (toDateString : Time → Day) (now : Time) (ops : List RegistryOp) :
    List (String × Connection) × Store :=
  ops.foldl registryStep ([], newDataStorage toDateString now)


/-- A client message that has a type and no other field. -/
def messageOfType (type : String) : ClientMessage :=
  { type := some type, filter := none, filters := none, requestId := none, chartType := none,
    timeRange := none, sessionId := none, action := none, details := none, eventTypes := none,
    focused := none }

/-- A request `r1` for the details of the session `s1`. -/
def sessionDetailsRequest : ClientMessage :=
  { messageOfType "request_session_details" with sessionId := some "s1", requestId := some "r1" }

end WebSocketHandler

/-!
# The HTTP routes (`src/server/routes/analytics.js`)

The validation of an inbound event, the route `POST /events` and the ordering of the route
`GET /analytics/events`. A value of a JSON body is a `JsValue`; `new Date(value)` is a
parameter `dateValue`, which gives no time for a value that is not a date. Strings are
compared by the code points of their characters.
-/

namespace AnalyticsRoutes

open DataStorage WebSocketHandler


/-! ## Validation and `POST /events` -/

/-- A value of a JSON body, as far as the validation tells values apart. A number is an
integer here. -/
inductive JsValue where
  | undefined
  | null
  | bool (b : Bool)
  | number (n : Int)
  | string (s : String)
  | object
  deriving DecidableEq, Repr

/-- Truthiness of a value. -/
def JsValue.truthy : JsValue → Bool
  | .undefined => false
  | .null => false
  | .bool b => b
  | .number n => decide (n ≠ 0)
  | .string s => decide (s ≠ "")
  | .object => true

/-- Whether `typeof value === 'string'`. -/
def JsValue.isString : JsValue → Bool
  | .string _ => true
  | _ => false

/-- The characters of a string value; the empty string for another value. -/
def JsValue.text : JsValue → String
  | .string s => s
  | _ => ""

/-- The body of `POST /events` with the keys that the route reads. -/
structure RawEvent where
  type : JsValue
  sessionId : JsValue
  page : JsValue
  country : JsValue
  timestamp : JsValue
  deriving DecidableEq, Repr

/-- The array `validTypes`. -/
def validTypes : List String :=
  ["pageview", "click", "session_end"]

/-- The test `validTypes.includes(eventData.type)`. -/
def isValidType : JsValue → Bool
  | .string s => validTypes.contains s
  | _ => false

/-- The function `validateEventData`: the error messages, in order. -/
def validateEventData (dateValue : JsValue → Option Time) (eventData : RawEvent) : List String :=
  let errors : List String := []
  let errors := if !eventData.type.truthy then errors ++ ["type is required"] else errors
  let errors :=
    if !eventData.sessionId.truthy then errors ++ ["sessionId is required"] else errors
  let errors := if !eventData.page.truthy then errors ++ ["page is required"] else errors
  let errors :=
    if eventData.type.truthy && !isValidType eventData.type then
      errors ++ ["type must be one of: pageview, click, session_end"]
    else errors
  let errors :=
    if eventData.sessionId.truthy && !eventData.sessionId.isString then
      errors ++ ["sessionId must be a string"]
    else errors
  let errors :=
    if eventData.page.truthy && !eventData.page.isString then
      errors ++ ["page must be a string"]
    else errors
  let errors :=
    if eventData.country.truthy && !eventData.country.isString then
      errors ++ ["country must be a string"]
    else errors
  if eventData.timestamp.truthy then
    match dateValue eventData.timestamp with
    | none => errors ++ ["timestamp must be a valid ISO 8601 date string"]
    | some _ => errors
  else errors

/-- A character that `trim` removes: the white space and the line terminators of ECMAScript,
by code point (tab, LF, VT, FF, CR, space, U+00A0, U+1680, U+2000 to U+200A, U+2028, U+2029,
U+202F, U+205F, U+3000 and U+FEFF). -/
def isBlank (c : Char) : Bool :=
  [9, 10, 11, 12, 13, 32, 160, 5760, 8232, 8233, 8239, 8287, 12288, 65279].contains c.toNat ||
    (decide (8192 ≤ c.toNat) && decide (c.toNat ≤ 8202))

/-- The method `String.prototype.trim`. -/
def trim (s : String) : String :=
  String.mk ((s.data.dropWhile isBlank).reverse.dropWhile isBlank).reverse

/-- The object `cleanEvent` that the route builds from a body that passed the validation. -/
def cleanEvent (dateValue : JsValue → Option Time) (now : Time) (eventData : RawEvent) :
    EventInput :=
  { type := trim eventData.type.text
    sessionId := trim eventData.sessionId.text
    page := trim eventData.page.text
    country := some (if eventData.country.truthy then trim eventData.country.text else "Unknown")
    timestamp := if eventData.timestamp.truthy then dateValue eventData.timestamp else some now }

/-- What `POST /events` leaves: the status of the response, the event that `addEvent` returned
when it was called, the store, and the messages sent to the dashboards. -/
structure PostOutcome where
  status : Nat
  saved : Option Event
  store : Store
  sent : List (String × ServerMessage)

/-- The route `POST /events`. The registry `connections` is that of `app.locals.wsHandler`,
when there is one. -/
def postEvents (toDateString : Time → Day) (dateValue : JsValue → Option Time)
    (connections : Option (List (String × Connection))) (s : Store) (now : Time)
    (eventData : RawEvent) : PostOutcome :=
  let validationErrors := validateEventData dateValue eventData
  if validationErrors.length > 0 then
    { status := 400, saved := none, store := s, sent := [] }
  else
    let added := addEvent toDateString s now (cleanEvent dateValue now eventData)
    let savedEvent := added.1
    let currentStats := getSummary added.2
    match connections with
    | some connections =>
      let newEvent := broadcastNewEvent connections currentStats.2 now savedEvent
      let update := broadcastVisitorUpdate connections newEvent.store now (.event savedEvent)
      let milestones := checkAndBroadcastMilestones connections update.store now currentStats.1
      let activity :=
        match getSession milestones.store savedEvent.sessionId with
        | some sessionData =>
          (broadcastSessionActivity connections milestones.store now sessionData).sent
        | none => []
      { status := 201, saved := some savedEvent, store := milestones.store
        sent := newEvent.sent ++ update.sent ++ milestoneCalls connections milestones ++
          activity }
    | none => { status := 201, saved := some savedEvent, store := currentStats.2, sent := [] }

/-! ## The ordering of `GET /analytics/events` -/

/-- The query of `GET /analytics/events`. `startDate` and `endDate` hold the parsed date when
the parameter is given and is a date; `pageNum` and `limit` are the values of
`parseInt(req.query.page) || 1` and `parseInt(req.query.limit) || 50`, taken as naturals. -/
structure EventsQuery where
  country : Option String
  page : Option String
  type : Option String
  sessionId : Option String
  startDate : Option Time
  endDate : Option Time
  sortBy : String
  order : String
  pageNum : Nat
  limit : Nat
  deriving DecidableEq, Repr

/-- The fields that `sortBy` can name besides the timestamp. -/
def sortFields : List String :=
  ["country", "page", "type", "sessionId"]

/-- The values `aVal`, `bVal` that the comparator takes from an event for a named field. -/
def sortValue (sortBy : String) (e : Event) : String :=
  if sortBy = "country" then e.country.getD ""
  else if sortBy = "page" then e.page
  else if sortBy = "type" then e.type
  else e.sessionId

/-- The UTF-16 code units of a character: one unit below U+10000, a surrogate pair above. -/
def utf16Units (c : Char) : List Nat :=
  if c.toNat < 65536 then [c.toNat]
  else [55296 + (c.toNat - 65536) / 1024, 56320 + (c.toNat - 65536) % 1024]

/-- The UTF-16 code units of a string, which is what the operators `<` and `>` of JavaScript
compare, unit by unit; a string that is a proper beginning of another is the smaller one. -/
def codeUnits (s : String) : List Nat :=
  (s.data.map utf16Units).flatten

/-- The key by which the comparator orders an event for a named field: the code units of
`aVal`. The operators `aVal < bVal` and `aVal > bVal` are the lexicographic order of the
keys. -/
def sortKey (sortBy : String) (e : Event) : List Nat :=
  codeUnits (sortValue sortBy e)

/-- The call `events.sort(...)` of the route: a stable sort by the named field, or by the
timestamp for another value of `sortBy`, ascending for the order `asc` and descending for any
other order. Strings are compared by their UTF-16 code units. -/
def sortEvents (sortBy order : String) (events : List Event) : List Event :=
  if sortFields.contains sortBy then
    if order = "asc" then
      events.insertionSort (fun a b => sortKey sortBy a ≤ sortKey sortBy b)
    else events.insertionSort (fun a b => sortKey sortBy b ≤ sortKey sortBy a)
  else
    if order = "asc" then events.insertionSort (fun a b => a.timestamp ≤ b.timestamp)
    else events.insertionSort (fun a b => b.timestamp ≤ a.timestamp)

/-- What `GET /analytics/events` computes: the sorted events, the page of them that it
returns, and the store. -/
structure EventsOutcome where
  events : List Event
  paginated : List Event
  store : Store

/-- The route `GET /analytics/events`, up to the page of events of its response. Each filter
that applies makes a new array; when none does, `events` is the log itself and the final
`sort` reorders it. -/
def getAnalyticsEvents (s : Store) (query : EventsQuery) : EventsOutcome :=
  let filter : Filter :=
    { country := if truthy query.country then query.country else none
      page := if truthy query.page then query.page else none
      type := if truthy query.type then query.type else none }
  let found := getEvents s filter
  let events := found.1
  let events :=
    if truthy query.sessionId then
      events.filter (fun e => decide (some e.sessionId = query.sessionId))
    else events
  let events :=
    match query.startDate with
    | some start => events.filter (fun e => decide (start ≤ e.timestamp))
    | none => events
  let events :=
    match query.endDate with
    | some stop => events.filter (fun e => decide (e.timestamp ≤ stop))
    | none => events
  let sorted := sortEvents query.sortBy query.order events
  let aliased := !truthy query.country && !truthy query.page && !truthy query.type &&
    !truthy query.sessionId && query.startDate.isNone && query.endDate.isNone
  let startIndex := (query.pageNum - 1) * query.limit
  { events := sorted
    paginated := (sorted.drop startIndex).take query.limit
    store := if aliased then { found.2 with events := sorted } else found.2 }

/-! ## Example inputs -/

/-- Dates in the examples: a number is a time, the string `2024-01-01` is the time 0, and no
other value is a date. -/
def exampleDate : JsValue → Option Time
  | .number n => some n
  | .string s => if s = "2024-01-01" then some 0 else none
  | _ => none

/-- A body that passes the validation. -/
def goodBody : RawEvent :=
  { type := .string "pageview", sessionId := .string "s1", page := .string "/a",
    country := .string "US", timestamp := .undefined }

/-- A body whose timestamp is the empty string. -/
def blankTimestampBody : RawEvent :=
  { goodBody with timestamp := .string "" }

/-- A query for all events, sorted by country in ascending order. -/
def byCountry : EventsQuery :=
  { country := none, page := none, type := none, sessionId := none, startDate := none,
    endDate := none, sortBy := "country", order := "asc", pageNum := 1, limit := 50 }


/-- The validation as the description words it: the type is one of the three known types, the
session id and the page are non-empty strings, the country is absent or a string, and the
timestamp is absent or a date. -/
def validAsWorded (dateValue : JsValue → Option Time) (e : RawEvent) : Bool :=
  isValidType e.type && (e.sessionId.isString && e.sessionId.truthy) &&
    (e.page.isString && e.page.truthy) &&
    (decide (e.country = .undefined) || e.country.isString) &&
    (decide (e.timestamp = .undefined) || (dateValue e.timestamp).isSome)

end AnalyticsRoutes

namespace DataStorage

/-! ## Containers -/

theorem mapGet_mapSet_self {β : Type} (m : List (String × β)) (k : String) (v : β) :
    mapGet (mapSet m k v) k = some v := by
  induction m with
  | nil => simp [mapSet, mapGet]
  | cons hd tl ih =>
    obtain ⟨k1, v1⟩ := hd
    by_cases h : k1 = k
    · simp [mapSet, mapGet, h]
    · simp [mapSet, mapGet, h, ih]

theorem mapGet_mapSet_ne {β : Type} (m : List (String × β)) (k k2 : String) (v : β)
    (hne : k ≠ k2) : mapGet (mapSet m k v) k2 = mapGet m k2 := by
  induction m with
  | nil => simp [mapSet, mapGet, hne]
  | cons hd tl ih =>
    obtain ⟨k1, v1⟩ := hd
    by_cases h : k1 = k
    · subst h
      simp [mapSet, mapGet, hne]
    · by_cases h2 : k1 = k2
      · subst h2
        simp [mapSet, mapGet, h]
      · simp [mapSet, mapGet, h, h2, ih]

theorem mapSet_mapSet {β : Type} (m : List (String × β)) (k : String) (v w : β) :
    mapSet (mapSet m k v) k w = mapSet m k w := by
  induction m with
  | nil => simp [mapSet]
  | cons hd tl ih =>
    obtain ⟨k1, v1⟩ := hd
    by_cases h : k1 = k
    · simp [mapSet, h]
    · simp [mapSet, h, ih]

theorem mem_mapSet {β : Type} (m : List (String × β)) (k : String) (v : β) (kv : String × β)
    (h : kv ∈ mapSet m k v) : kv ∈ m ∨ kv = (k, v) := by
  induction m with
  | nil =>
    simp [mapSet] at h
    exact Or.inr h
  | cons hd tl ih =>
    obtain ⟨k1, v1⟩ := hd
    by_cases hk : k1 = k
    · simp [mapSet, hk] at h
      rcases h with h | h
      · exact Or.inr h
      · exact Or.inl (List.mem_cons_of_mem _ h)
    · simp [mapSet, hk] at h
      rcases h with h | h
      · exact Or.inl (by rw [h]; exact List.mem_cons_self _ _)
      · rcases ih h with h2 | h2
        · exact Or.inl (List.mem_cons_of_mem _ h2)
        · exact Or.inr h2

theorem keys_mapSet_mem {β : Type} (m : List (String × β)) (k : String) (v : β) (x : String)
    (h : x ∈ (mapSet m k v).map Prod.fst) : x ∈ m.map Prod.fst ∨ x = k := by
  rw [List.mem_map] at h
  obtain ⟨kv, hkv, rfl⟩ := h
  rcases mem_mapSet m k v kv hkv with h | h
  · exact Or.inl (List.mem_map_of_mem _ h)
  · exact Or.inr (by rw [h])

theorem keys_mapSet_nodup {β : Type} (m : List (String × β)) (k : String) (v : β)
    (h : (m.map Prod.fst).Nodup) : ((mapSet m k v).map Prod.fst).Nodup := by
  induction m with
  | nil => simp [mapSet]
  | cons hd tl ih =>
    obtain ⟨k1, v1⟩ := hd
    simp only [List.map_cons, List.nodup_cons] at h
    by_cases hk : k1 = k
    · subst hk
      simp only [mapSet, if_true, List.map_cons, List.nodup_cons]
      exact h
    · simp only [mapSet, hk, if_false, List.map_cons, List.nodup_cons]
      refine ⟨fun hmem => ?_, ih h.2⟩
      rcases keys_mapSet_mem tl k v k1 hmem with h3 | h3
      · exact h.1 h3
      · exact hk h3

theorem mapGet_of_mem_nodup {β : Type} (m : List (String × β)) (k : String) (v : β)
    (hnd : (m.map Prod.fst).Nodup) (hmem : (k, v) ∈ m) : mapGet m k = some v := by
  induction m with
  | nil => simp at hmem
  | cons hd tl ih =>
    obtain ⟨k1, v1⟩ := hd
    simp only [List.map_cons, List.nodup_cons] at hnd
    rcases List.mem_cons.mp hmem with h | h
    · injection h with h1 h2
      subst h1; subst h2
      simp [mapGet]
    · have hk : k1 ≠ k := by
        intro hk
        subst hk
        exact hnd.1 (List.mem_map_of_mem Prod.fst h)
      simp [mapGet, hk, ih hnd.2 h]

/-! ## The stable sort -/

theorem sortDesc_perm {α : Type} (key : α → Time) (l : List α) : (sortDesc key l).Perm l :=
  List.perm_insertionSort _ l

theorem sortDesc_length {α : Type} (key : α → Time) (l : List α) :
    (sortDesc key l).length = l.length :=
  List.length_insertionSort _ l

theorem sortDesc_sorted {α : Type} (key : α → Time) (l : List α) :
    (sortDesc key l).Sorted (fun a b => key b ≤ key a) := by
  haveI : IsTotal α (fun a b => key b ≤ key a) := ⟨fun a b => le_total (key b) (key a)⟩
  haveI : IsTrans α (fun a b => key b ≤ key a) := ⟨fun _ _ _ h1 h2 => le_trans h2 h1⟩
  exact List.sorted_insertionSort _ l

/-- Stability: entries that are already in descending order keep their relative order. -/
theorem sortDesc_stable {α : Type} (key : α → Time) (l c : List α)
    (hc : c.Pairwise (fun a b => key b ≤ key a)) (hsub : c.Sublist l) :
    c.Sublist (sortDesc key l) := by
  exact List.sublist_insertionSort hc hsub

/-! ## What each operation does to each field -/

theorem updateSession_sessions (s : Store) (now : Time) (event : Event) :
    (updateSession s now event).sessions =
      mapSet s.sessions event.sessionId
        (touchSession now event ((mapGet s.sessions event.sessionId).getD (freshSession event))) := by
  unfold updateSession
  cases hget : mapGet s.sessions event.sessionId with
  | none =>
    simp [mapHas, hget, mapGet_mapSet_self, mapSet_mapSet]
  | some x =>
    simp [mapHas, hget]

theorem updateSession_events (s : Store) (now : Time) (event : Event) :
    (updateSession s now event).events = s.events := by
  simp only [updateSession]
  split <;> rfl

theorem updateSession_stats (s : Store) (now : Time) (event : Event) :
    (updateSession s now event).stats = s.stats := by
  simp only [updateSession]
  split <;> rfl

theorem updateSession_dashboards (s : Store) (now : Time) (event : Event) :
    (updateSession s now event).connectedDashboards = s.connectedDashboards := by
  simp only [updateSession]
  split <;> rfl

theorem updateStats_events (td : Time → Day) (s : Store) (now : Time) (event : Event) :
    (updateStats td s now event).events = s.events :=
  rfl

theorem updateStats_sessions (td : Time → Day) (s : Store) (now : Time) (event : Event) :
    (updateStats td s now event).sessions = s.sessions :=
  rfl

theorem updateStats_dashboards (td : Time → Day) (s : Store) (now : Time) (event : Event) :
    (updateStats td s now event).connectedDashboards = s.connectedDashboards :=
  rfl

theorem updateStats_totalToday (td : Time → Day) (s : Store) (now : Time) (event : Event) :
    (updateStats td s now event).stats.totalToday =
      (uniqueSessions td (td now) s.events).length :=
  rfl

theorem updateStats_totalActive (td : Time → Day) (s : Store) (now : Time) (event : Event) :
    (updateStats td s now event).stats.totalActive = (getActiveSessions s).length :=
  rfl

theorem getActiveSessions_congr (s t : Store) (h : s.sessions = t.sessions) :
    getActiveSessions s = getActiveSessions t := by
  simp [getActiveSessions, h]

theorem addEvent_events (td : Time → Day) (s : Store) (now : Time) (event : EventInput) :
    (addEvent td s now event).2.events =
      if 1000 < s.events.length + 1 then (s.events ++ [stamp now event]).drop 1
      else s.events ++ [stamp now event] := by
  simp only [addEvent, updateSession_events, updateStats_events, List.length_append,
    List.length_singleton, gt_iff_lt]
  split <;> simp [updateSession_events, updateStats_events]

theorem addEvent_sessions (td : Time → Day) (s : Store) (now : Time) (event : EventInput) :
    (addEvent td s now event).2.sessions =
      mapSet s.sessions event.sessionId
        (touchSession now (stamp now event)
          ((mapGet s.sessions event.sessionId).getD (freshSession (stamp now event)))) := by
  simp only [addEvent]
  split <;> simp [updateSession_sessions, updateStats_sessions, stamp]

theorem addEvent_totalToday (td : Time → Day) (s : Store) (now : Time) (event : EventInput) :
    (addEvent td s now event).2.stats.totalToday =
      (uniqueSessions td (td now) (s.events ++ [stamp now event])).length := by
  simp only [addEvent]
  split <;> simp [updateSession_stats, updateStats_totalToday]

theorem addEvent_totalActive (td : Time → Day) (s : Store) (now : Time) (event : EventInput) :
    (addEvent td s now event).2.stats.totalActive = (getActiveSessions s).length := by
  simp only [addEvent]
  split <;> simp only [updateSession_stats, updateStats_totalActive] <;>
    exact congrArg List.length (getActiveSessions_congr _ _ rfl)

theorem addEvent_dashboards (td : Time → Day) (s : Store) (now : Time) (event : EventInput) :
    (addEvent td s now event).2.connectedDashboards = s.connectedDashboards := by
  simp only [addEvent]
  split <;> simp [updateSession_dashboards, updateStats_dashboards]

theorem getEvents_result (s : Store) (filter : Filter) :
    (getEvents s filter).1 = sortDesc (fun e => e.timestamp) (s.events.filter (passes filter)) := by
  unfold getEvents passes
  cases hc : truthy filter.country <;> cases hp : truthy filter.page <;>
    cases ht : truthy filter.type <;> simp [List.filter_filter, Bool.and_comm, Bool.and_assoc]

theorem getEvents_events_length (s : Store) (filter : Filter) :
    (getEvents s filter).2.events.length = s.events.length := by
  unfold getEvents
  simp only
  split
  · simp_all [sortDesc_length]
  · rfl

theorem getEvents_sessions (s : Store) (filter : Filter) :
    (getEvents s filter).2.sessions = s.sessions := by
  unfold getEvents
  simp only
  split <;> rfl

theorem getEvents_noFilter_events (s : Store) :
    (getEvents s noFilter).2.events = sortDesc (fun e => e.timestamp) s.events := by
  simp [getEvents, noFilter, truthy]

theorem getSummary_events (s : Store) :
    (getSummary s).2.events = sortDesc (fun e => e.timestamp) s.events := by
  simp [getSummary, getEvents, truthy]

theorem getSummary_sessions (s : Store) : (getSummary s).2.sessions = s.sessions := by
  simp [getSummary, getEvents, truthy]

theorem step_events_length_le (td : Time → Day) (s : Store) (op : Op)
    (h : s.events.length ≤ 1000) : (step td s op).events.length ≤ 1000 := by
  cases op with
  | addEvent now event =>
    simp only [step, addEvent_events]
    split
    · simp only [List.length_drop, List.length_append, List.length_singleton]
      omega
    · simp only [List.length_append, List.length_singleton]
      omega
  | getEvents filter =>
    simp only [step, getEvents_events_length]
    exact h
  | getSummary =>
    simp only [step, getSummary_events, sortDesc_length]
    exact h
  | clearStats now => simp [step, clearStats]
  | addDashboard d => simpa [step, addDashboard] using h
  | removeDashboard d => simpa [step, removeDashboard] using h

theorem run_events_length_le (td : Time → Day) (ops : List Op) (s : Store)
    (h : s.events.length ≤ 1000) : (run td s ops).events.length ≤ 1000 := by
  induction ops generalizing s with
  | nil => simpa [run] using h
  | cons op rest ih =>
    simp only [run, List.foldl_cons]
    exact ih _ (step_events_length_le td s op h)

theorem run_append (td : Time → Day) (s : Store) (ops1 ops2 : List Op) :
    run td s (ops1 ++ ops2) = run td (run td s ops1) ops2 := by
  simp [run, List.foldl_append]


/-! ## The capacity of the log -/

/-- C1: in every state reached from a new, empty store by any sequence of calls of `addEvent`,
`getEvents`, `getSummary` and `clearStats` (and of the two dashboard operations), the event log
holds at most 1000 entries. -/
theorem event_log_at_most_1000 (toDateString : Time → Day) (now : Time) (ops : List Op) :
    (run toDateString (newDataStorage toDateString now) ops).events.length ≤ 1000 :=
  run_events_length_le toDateString ops _ (by simp [newDataStorage])

/-! ## `getEvents` and the log -/

/-- C3, evaluated on the code: two events were ingested, stamped 1000 and then 2000. A call
`getEvents({})` leaves the session table and the stats alone but reverses the log, because it
sorts the array `this.events` itself. -/
theorem getEvents_without_filter_reorders_log :
    storeTwoEvents.events.map (fun e => e.timestamp) = [1000, 2000] ∧
    (getEvents storeTwoEvents noFilter).2.events.map (fun e => e.timestamp) = [2000, 1000] ∧
    (getEvents storeTwoEvents noFilter).2.sessions = storeTwoEvents.sessions ∧
    (getEvents storeTwoEvents noFilter).2.stats = storeTwoEvents.stats := by
  decide

/-! ## Sessions that go quiet -/

/-- C8, evaluated on the code: session `s1` was last active at time 0 and session `s2` sends an
event two hours later. After that, `s1` is still flagged active, `getActiveSessions` still lists
it and `getSummary` counts it: nothing looks at the clock when the table is read. -/
theorem idle_session_still_reported_active :
    (getSession storeIdleSession "s1").map (fun x => (x.lastActivity, x.isActive)) = some (0, true) ∧
    (getActiveSessions storeIdleSession).map (fun a => a.sessionId) = ["s2", "s1"] ∧
    (getSummary storeIdleSession).1.totalActive = 2 := by
  decide

/-! ## `totalActive` after an ingest -/

/-- C10, evaluated on the code: after the first event of a new store the session table holds
one active session, while `stats.totalActive` is 0: `updateStats` runs before `updateSession`. -/
theorem totalActive_stale_after_first_event :
    storeOneEvent.stats.totalActive = 0 ∧ activeCount storeOneEvent = 1 ∧
    (getSummary storeOneEvent).1.totalActive = 1 := by
  decide


/-! ## One session under a sequence of ingests -/

theorem touchSession_journey (now : Time) (event : Event) (x : Session) :
    (touchSession now event x).journey =
      if truthyStr event.page && !x.journey.contains event.page then x.journey ++ [event.page]
      else x.journey := by
  unfold touchSession
  simp only
  split_ifs <;> rfl

theorem touchSession_startTime (now : Time) (event : Event) (x : Session) :
    (touchSession now event x).startTime = x.startTime := by
  unfold touchSession
  simp only
  split_ifs <;> rfl

theorem touchSession_sessionId (now : Time) (event : Event) (x : Session) :
    (touchSession now event x).sessionId = x.sessionId := by
  unfold touchSession
  simp only
  split_ifs <;> rfl

theorem touchSession_currentPage (now : Time) (event : Event) (x : Session) :
    (touchSession now event x).currentPage = event.page := by
  unfold touchSession
  simp only
  split_ifs <;> rfl

theorem touchSession_lastActivity (now : Time) (event : Event) (x : Session) :
    (touchSession now event x).lastActivity = event.timestamp := by
  unfold touchSession
  simp only
  split_ifs <;> rfl

theorem touchSession_session_end (now : Time) (event : Event) (x : Session)
    (h : event.type = "session_end") : (touchSession now event x).isActive = false := by
  unfold touchSession
  simp only [h, if_true]
  split_ifs <;> rfl

theorem getSession_addEvent (td : Time → Day) (s : Store) (now : Time) (event : EventInput)
    (sid : String) :
    getSession (addEvent td s now event).2 sid =
      if event.sessionId = sid then
        some (touchSession now (stamp now event)
          ((getSession s sid).getD (freshSession (stamp now event))))
      else getSession s sid := by
  unfold getSession
  rw [addEvent_sessions]
  by_cases h : event.sessionId = sid
  · subst h
    simp [mapGet_mapSet_self]
  · simp [h, mapGet_mapSet_ne _ _ _ _ h]

theorem getSession_step (td : Time → Day) (s : Store) (op : Op) (sid : String)
    (h : op.isClear = false) :
    getSession (step td s op) sid = replay (getSession s sid) (ingests sid [op]) := by
  cases op with
  | addEvent now event =>
    simp only [step, getSession_addEvent, ingests, List.filterMap_cons, List.filterMap_nil]
    by_cases hs : event.sessionId = sid
    · simp [hs, replay]
    · simp [hs, replay]
  | getEvents filter => simp [step, getSession, getEvents_sessions, ingests, replay]
  | getSummary => simp [step, getSession, getSummary_sessions, ingests, replay]
  | clearStats now => simp [Op.isClear] at h
  | addDashboard d => simp [step, getSession, addDashboard, ingests, replay]
  | removeDashboard d => simp [step, getSession, removeDashboard, ingests, replay]

theorem ingests_cons (sid : String) (op : Op) (ops : List Op) :
    ingests sid (op :: ops) = ingests sid [op] ++ ingests sid ops := by
  simp only [ingests, List.filterMap_cons, List.filterMap_nil]
  split <;> simp

theorem replay_append (start : Option Session) (l1 l2 : List (Time × Event)) :
    replay start (l1 ++ l2) = replay (replay start l1) l2 := by
  simp [replay, List.foldl_append]

theorem getSession_run (td : Time → Day) (ops : List Op) (s : Store) (sid : String)
    (h : ∀ op ∈ ops, op.isClear = false) :
    getSession (run td s ops) sid = replay (getSession s sid) (ingests sid ops) := by
  induction ops generalizing s with
  | nil => simp [run, ingests, replay]
  | cons op rest ih =>
    have h1 : op.isClear = false := h op (List.mem_cons_self _ _)
    have h2 : ∀ o ∈ rest, o.isClear = false := fun o ho => h o (List.mem_cons_of_mem _ ho)
    have hrun : run td s (op :: rest) = run td (step td s op) rest := by
      simp [run]
    rw [hrun, ih _ h2, getSession_step td s op sid h1, ← replay_append, ← ingests_cons]

theorem replay_cons (start : Option Session) (ne : Time × Event) (l : List (Time × Event)) :
    replay start (ne :: l) =
      replay (some (touchSession ne.1 ne.2 (start.getD (freshSession ne.2)))) l := by
  simp [replay]

/-! ## The journey -/

theorem firstOccurrences_subset (l : List String) (q : String) (h : q ∈ firstOccurrences l) :
    q ∈ l := by
  induction l with
  | nil => simp [firstOccurrences] at h
  | cons p rest ih =>
    simp only [firstOccurrences, List.mem_cons, List.mem_filter] at h
    rcases h with h | h
    · exact h ▸ List.mem_cons_self _ _
    · exact List.mem_cons_of_mem _ (ih h.1)

theorem firstOccurrences_nodup (l : List String) : (firstOccurrences l).Nodup := by
  induction l with
  | nil => simp [firstOccurrences]
  | cons p rest ih =>
    simp only [firstOccurrences, List.nodup_cons, List.mem_filter]
    refine ⟨fun h => ?_, ih.filter _⟩
    simp at h

theorem mem_firstOccurrences (l : List String) (q : String) (h : q ∈ l) :
    q ∈ firstOccurrences l := by
  induction l with
  | nil => simp at h
  | cons p rest ih =>
    simp only [firstOccurrences, List.mem_cons, List.mem_filter]
    by_cases hq : q = p
    · exact Or.inl hq
    · rcases List.mem_cons.mp h with h1 | h1
      · exact absurd h1 hq
      · exact Or.inr ⟨ih h1, by simpa using hq⟩

theorem firstOccurrences_cons (p : String) (rest : List String) :
    firstOccurrences (p :: rest) =
      p :: (firstOccurrences rest).filter (fun q => decide (q ≠ p)) :=
  rfl

theorem touchSession_journey_iff (now : Time) (event : Event) (x : Session) :
    (touchSession now event x).journey =
      if event.page ≠ "" ∧ event.page ∉ x.journey then x.journey ++ [event.page]
      else x.journey := by
  rw [touchSession_journey]
  by_cases hp : event.page = "" <;> by_cases hin : event.page ∈ x.journey <;>
    simp [truthyStr, hp, hin]

/-- The journey after replaying events on a session: the old journey, then the first
occurrences of the non-empty pages that the old journey lacks. -/
theorem replay_journey (l : List (Time × Event)) (x : Session) :
    ∃ y, replay (some x) l = some y ∧
      y.journey = x.journey ++
        (firstOccurrences ((l.map (fun ne => ne.2.page)).filter (fun p => decide (p ≠ "")))).filter
          (fun q => decide (q ∉ x.journey)) := by
  induction l generalizing x with
  | nil => exact ⟨x, by simp [replay], by simp [firstOccurrences]⟩
  | cons ne rest ih =>
    obtain ⟨y, hy, hj⟩ := ih (touchSession ne.1 ne.2 x)
    refine ⟨y, by rw [replay_cons]; exact hy, ?_⟩
    rw [hj, touchSession_journey_iff, List.map_cons]
    by_cases hp : ne.2.page = ""
    · rw [if_neg (fun h => h.1 hp), List.filter_cons_of_neg (by simp [hp])]
    · rw [List.filter_cons_of_pos (by simpa using hp), firstOccurrences_cons]
      by_cases hin : ne.2.page ∈ x.journey
      · have hfil : ∀ (m : List String),
            (m.filter (fun q => decide (q ≠ ne.2.page))).filter (fun q => decide (q ∉ x.journey)) =
              m.filter (fun q => decide (q ∉ x.journey)) := by
          intro m
          rw [List.filter_filter]
          apply List.filter_congr
          intro q _
          by_cases hq : q ∈ x.journey
          · simp [hq]
          · have : q ≠ ne.2.page := fun h => hq (h ▸ hin)
            simp [hq, this]
        rw [if_neg (fun h => h.2 hin), List.filter_cons_of_neg (by simpa using hin), hfil]
      · have hfil : ∀ (m : List String),
            m.filter (fun q => decide (q ∉ x.journey ++ [ne.2.page])) =
            (m.filter (fun q => decide (q ≠ ne.2.page))).filter (fun q => decide (q ∉ x.journey)) := by
          intro m
          rw [List.filter_filter]
          apply List.filter_congr
          intro q _
          by_cases hq : q ∈ x.journey <;> by_cases hq2 : q = ne.2.page <;> simp [hq, hq2]
        rw [if_pos ⟨hp, hin⟩, List.filter_cons_of_pos (by simpa using hin), hfil,
          List.append_assoc, List.singleton_append]


theorem replay_none_cons (ne : Time × Event) (l : List (Time × Event)) :
    replay none (ne :: l) = replay (some (freshSession ne.2)) (ne :: l) := by
  simp [replay]

theorem replay_fields (l : List (Time × Event)) (x : Session) :
    ∃ y, replay (some x) l = some y ∧ y.startTime = x.startTime ∧ y.sessionId = x.sessionId ∧
      ∀ h : l ≠ [], y.currentPage = (l.getLast h).2.page ∧
        y.lastActivity = (l.getLast h).2.timestamp := by
  induction l generalizing x with
  | nil => exact ⟨x, by simp [replay], rfl, rfl, fun h => absurd rfl h⟩
  | cons ne rest ih =>
    obtain ⟨y, hy, hst, hid, hlast⟩ := ih (touchSession ne.1 ne.2 x)
    refine ⟨y, by rw [replay_cons]; exact hy, ?_, ?_, ?_⟩
    · rw [hst, touchSession_startTime]
    · rw [hid, touchSession_sessionId]
    · intro _
      by_cases hrest : rest = []
      · subst hrest
        have hy2 : y = touchSession ne.1 ne.2 x := by
          have : replay (some (touchSession ne.1 ne.2 x)) [] = some (touchSession ne.1 ne.2 x) := by
            simp [replay]
          rw [this] at hy
          exact (Option.some.inj hy).symm
        subst hy2
        simp [touchSession_currentPage, touchSession_lastActivity]
      · rw [List.getLast_cons hrest]
        exact hlast hrest

/-- C5: take a store with no session for `sid` (as after a reset) and any sequence of calls
without `clearStats` that ingests at least one event for `sid`. Then the session exists and its
journey is the list of the non-empty pages of the events ingested for `sid`, in order of first
occurrence with every later repeat removed; it holds no page twice. -/
theorem journey_is_first_occurrences (toDateString : Time → Day) (s : Store) (ops : List Op)
    (sid : String) (hfresh : getSession s sid = none)
    (hnoclear : ∀ op ∈ ops, op.isClear = false) (hsome : ingests sid ops ≠ []) :
    ∃ session, getSession (run toDateString s ops) sid = some session ∧
      session.journey =
        firstOccurrences
          (((ingests sid ops).map (fun ne => ne.2.page)).filter (fun p => decide (p ≠ ""))) ∧
      session.journey.Nodup := by
  rw [getSession_run toDateString ops s sid hnoclear, hfresh]
  cases hl : ingests sid ops with
  | nil => exact absurd hl hsome
  | cons ne rest =>
    obtain ⟨y, hy, hj⟩ := replay_journey (ne :: rest) (freshSession ne.2)
    have hj2 : y.journey =
        firstOccurrences
          (((ne :: rest).map (fun ne => ne.2.page)).filter (fun p => decide (p ≠ ""))) := by
      rw [hj]
      simp [freshSession]
    refine ⟨y, by rw [replay_none_cons]; exact hy, hj2, ?_⟩
    rw [hj2]
    exact firstOccurrences_nodup _

/-- The scenario of the specification: pages `/a`, `/b`, `/a` of session `s1`, with another
session and a query in between, give the journey `/a`, `/b`. -/
theorem journey_is_first_occurrences_witness :
    firstOccurrences
        (((ingests "s1" opsABA).map (fun ne => ne.2.page)).filter (fun p => decide (p ≠ ""))) =
      ["/a", "/b"] ∧
    ∃ session, getSession (run utcDay store0 opsABA) "s1" = some session ∧
      session.journey =
        firstOccurrences
          (((ingests "s1" opsABA).map (fun ne => ne.2.page)).filter (fun p => decide (p ≠ ""))) ∧
      session.journey.Nodup :=
  ⟨by decide,
    journey_is_first_occurrences utcDay store0 opsABA "s1" (by decide) (by decide) (by decide)⟩

/-- C6: take a store with no session for `sid` and any sequence of calls without `clearStats`
that ingests at least one event for `sid`, with events of other sessions and queries anywhere
in between. Then the session's `currentPage` and `lastActivity` are the page and the timestamp
of the last event ingested for `sid`, and its `startTime` is the timestamp of the first one. -/
theorem session_follows_ingestion_order (toDateString : Time → Day) (s : Store) (ops : List Op)
    (sid : String) (hfresh : getSession s sid = none)
    (hnoclear : ∀ op ∈ ops, op.isClear = false) (hsome : ingests sid ops ≠ []) :
    ∃ session, getSession (run toDateString s ops) sid = some session ∧
      session.currentPage = ((ingests sid ops).getLast hsome).2.page ∧
      session.lastActivity = ((ingests sid ops).getLast hsome).2.timestamp ∧
      session.startTime = ((ingests sid ops).head hsome).2.timestamp := by
  rw [getSession_run toDateString ops s sid hnoclear, hfresh]
  generalize ingests sid ops = l at hsome
  cases l with
  | nil => exact absurd rfl hsome
  | cons ne rest =>
    obtain ⟨y, hy, hst, _, hlast⟩ := replay_fields (ne :: rest) (freshSession ne.2)
    refine ⟨y, by rw [replay_none_cons]; exact hy, (hlast hsome).1, (hlast hsome).2, ?_⟩
    rw [hst]
    rfl

/-- The same scenario: the session of `s1` ends on page `/a` at 4000 and started at 1000. -/
theorem session_follows_ingestion_order_witness :
    ∃ session, getSession (run utcDay store0 opsABA) "s1" = some session ∧
      session.currentPage = "/a" ∧ session.lastActivity = 4000 ∧ session.startTime = 1000 :=
  session_follows_ingestion_order utcDay store0 opsABA "s1" (by decide) (by decide) (by decide)


/-! ## The session table is a map -/

theorem mem_of_mapGet {β : Type} (m : List (String × β)) (k : String) (v : β)
    (h : mapGet m k = some v) : (k, v) ∈ m := by
  induction m with
  | nil => simp [mapGet] at h
  | cons hd tl ih =>
    obtain ⟨k1, v1⟩ := hd
    by_cases hk : k1 = k
    · subst hk
      simp only [mapGet, if_true, Option.some.injEq] at h
      subst h
      exact List.mem_cons_self _ _
    · simp only [mapGet, hk, if_false] at h
      exact List.mem_cons_of_mem _ (ih h)

theorem sessionsWF_new (td : Time → Day) (now : Time) : SessionsWF (newDataStorage td now) := by
  simp [SessionsWF, newDataStorage]

theorem sessionsWF_of_sessions_eq (s t : Store) (h : t.sessions = s.sessions)
    (hwf : SessionsWF s) : SessionsWF t := by
  unfold SessionsWF at *
  rw [h]
  exact hwf

theorem sessionsWF_addEvent (td : Time → Day) (s : Store) (now : Time) (event : EventInput)
    (hwf : SessionsWF s) : SessionsWF (addEvent td s now event).2 := by
  unfold SessionsWF
  rw [addEvent_sessions]
  refine ⟨keys_mapSet_nodup _ _ _ hwf.1, fun kv hkv => ?_⟩
  rcases mem_mapSet _ _ _ _ hkv with h | h
  · exact hwf.2 kv h
  · rw [h]
    simp only [touchSession_sessionId]
    cases hget : mapGet s.sessions event.sessionId with
    | none => simp [freshSession, stamp]
    | some x =>
      simp only [Option.getD_some]
      exact hwf.2 _ (mem_of_mapGet _ _ _ hget)

theorem sessionsWF_step (td : Time → Day) (s : Store) (op : Op) (hwf : SessionsWF s) :
    SessionsWF (step td s op) := by
  cases op with
  | addEvent now event => exact sessionsWF_addEvent td s now event hwf
  | getEvents filter => exact sessionsWF_of_sessions_eq s _ (getEvents_sessions s filter) hwf
  | getSummary => exact sessionsWF_of_sessions_eq s _ (getSummary_sessions s) hwf
  | clearStats now => simp [step, clearStats, SessionsWF]
  | addDashboard d => exact sessionsWF_of_sessions_eq s _ rfl hwf
  | removeDashboard d => exact sessionsWF_of_sessions_eq s _ rfl hwf

theorem sessionsWF_run (td : Time → Day) (ops : List Op) (s : Store) (hwf : SessionsWF s) :
    SessionsWF (run td s ops) := by
  induction ops generalizing s with
  | nil => simpa [run] using hwf
  | cons op rest ih =>
    simp only [run, List.foldl_cons]
    exact ih _ (sessionsWF_step td s op hwf)

theorem sessionsWF_of_reachable (td : Time → Day) (s : Store) (h : Reachable td s) :
    SessionsWF s := by
  obtain ⟨now, ops, rfl⟩ := h
  exact sessionsWF_run td ops _ (sessionsWF_new td now)

theorem mem_getActiveSessions (s : Store) (a : ActiveSession) (h : a ∈ getActiveSessions s) :
    ∃ kv ∈ s.sessions, kv.2.isActive = true ∧ a.toSession = kv.2 := by
  unfold getActiveSessions at h
  simp only at h
  have h2 := (sortDesc_perm _ _).subset h
  rw [List.mem_filterMap] at h2
  obtain ⟨kv, hkv, hsome⟩ := h2
  by_cases hact : kv.2.isActive = true
  · simp only [hact, if_true, Option.some.injEq] at hsome
    exact ⟨kv, hkv, hact, by rw [← hsome]⟩
  · simp [hact] at hsome

/-- C7: in a reachable store, after `addEvent` of an event whose type is `session_end`, the
session of its `sessionId` exists with `isActive = false`, and no element of the result of
`getActiveSessions` carries that `sessionId`. -/
theorem session_end_deactivates (toDateString : Time → Day) (s : Store) (now : Time)
    (event : EventInput) (hreach : Reachable toDateString s)
    (hend : event.type = "session_end") :
    (∃ session, getSession (addEvent toDateString s now event).2 event.sessionId = some session ∧
      session.isActive = false) ∧
    ∀ a ∈ getActiveSessions (addEvent toDateString s now event).2,
      a.sessionId ≠ event.sessionId := by
  have hwf : SessionsWF (addEvent toDateString s now event).2 :=
    sessionsWF_addEvent toDateString s now event (sessionsWF_of_reachable toDateString s hreach)
  have hget := getSession_addEvent toDateString s now event event.sessionId
  rw [if_pos rfl] at hget
  have hinactive :
      (touchSession now (stamp now event)
        ((getSession s event.sessionId).getD (freshSession (stamp now event)))).isActive = false :=
    touchSession_session_end _ _ _ (by simpa [stamp] using hend)
  refine ⟨⟨_, hget, hinactive⟩, fun a ha hid => ?_⟩
  obtain ⟨kv, hkv, hact, hakv⟩ := mem_getActiveSessions _ a ha
  have hkey : kv.1 = event.sessionId := by
    rw [← hwf.2 kv hkv, ← hakv]
    exact hid
  have hfound : getSession (addEvent toDateString s now event).2 event.sessionId = some kv.2 := by
    unfold getSession
    apply mapGet_of_mem_nodup _ _ _ hwf.1
    rw [← hkey]
    exact hkv
  rw [hget] at hfound
  have := Option.some.inj hfound
  rw [← this, hinactive] at hact
  exact Bool.false_ne_true hact

/-- A session of two pageviews that then ends: it is inactive and no longer listed. -/
theorem session_end_deactivates_witness :
    Reachable utcDay storeTwoEvents ∧ (sessionEnd "s1" "/b" 3000).type = "session_end" ∧
    (∃ session,
      getSession (addEvent utcDay storeTwoEvents 3000 (sessionEnd "s1" "/b" 3000)).2 "s1" =
        some session ∧ session.isActive = false) ∧
    ∀ a ∈ getActiveSessions (addEvent utcDay storeTwoEvents 3000 (sessionEnd "s1" "/b" 3000)).2,
      a.sessionId ≠ "s1" :=
  ⟨⟨0, _, rfl⟩, rfl,
    session_end_deactivates utcDay storeTwoEvents 3000 (sessionEnd "s1" "/b" 3000) ⟨0, _, rfl⟩ rfl⟩


/-! ## The result of `getEvents` -/

/-- C4 as stated fails: the filter `{country: ""}` holds the key `country`, no entry of the log
has the country `""`, and yet `getEvents` returns the entry of the log, because the guard
`if (filter.country)` treats the empty string as no filter. -/
theorem getEvents_ignores_empty_string_key :
    ¬ ((getEvents storeOneEvent emptyCountryFilter).1.Perm
        (storeOneEvent.events.filter (passesEveryKey emptyCountryFilter))) := by
  decide

/-- C4, amended: for every log and every filter over `country`, `page` and `type`, `getEvents`
returns exactly the log entries that equal the filter on each key holding a non-empty string
(all entries when there is no such key), ordered by timestamp descending. -/
theorem getEvents_returns_matching_entries_newest_first (s : Store) (filter : Filter) :
    (getEvents s filter).1.Perm (s.events.filter (passes filter)) ∧
    (getEvents s filter).1.Sorted (fun a b => b.timestamp ≤ a.timestamp) := by
  rw [getEvents_result]
  exact ⟨sortDesc_perm _ _, sortDesc_sorted _ _⟩

/-! ## `totalToday` -/

theorem setAdd_nodup (acc : List String) (x : String) (h : acc.Nodup) : (setAdd acc x).Nodup := by
  unfold setAdd
  split
  · exact h
  · rename_i hx
    exact List.Nodup.append h (List.nodup_singleton x) (by simpa using hx)

theorem setAdd_toFinset (acc : List String) (x : String) :
    (setAdd acc x).toFinset = acc.toFinset ∪ {x} := by
  unfold setAdd
  split
  · rename_i hx
    ext y
    simp only [List.mem_toFinset, Finset.mem_union, Finset.mem_singleton]
    constructor
    · exact fun h => Or.inl h
    · rintro (h | h)
      · exact h
      · exact h ▸ hx
  · simp

theorem foldl_uniqueSessions (td : Time → Day) (today : Day) (l : List Event) (acc : List String)
    (h : acc.Nodup) :
    (l.foldl (fun acc e => if td e.timestamp = today then setAdd acc e.sessionId else acc)
        acc).Nodup ∧
    (l.foldl (fun acc e => if td e.timestamp = today then setAdd acc e.sessionId else acc)
        acc).toFinset =
      acc.toFinset ∪
        ((l.filter (fun e => decide (td e.timestamp = today))).map (fun e => e.sessionId)).toFinset := by
  induction l generalizing acc with
  | nil => simp [h]
  | cons e rest ih =>
    simp only [List.foldl_cons]
    by_cases hd : td e.timestamp = today
    · obtain ⟨h1, h2⟩ := ih (setAdd acc e.sessionId) (setAdd_nodup _ _ h)
      simp only [hd, if_true]
      refine ⟨h1, ?_⟩
      rw [h2, setAdd_toFinset, List.filter_cons_of_pos (by simpa using hd)]
      simp only [List.map_cons, List.toFinset_cons]
      ext y
      simp only [Finset.mem_union, Finset.mem_singleton, Finset.mem_insert, List.mem_toFinset]
      tauto
    · obtain ⟨h1, h2⟩ := ih acc h
      simp only [hd, if_false]
      refine ⟨h1, ?_⟩
      rw [h2, List.filter_cons_of_neg (by simpa using hd)]

theorem uniqueSessions_length (td : Time → Day) (today : Day) (l : List Event) :
    (uniqueSessions td today l).length = distinctSessionsOn td today l := by
  obtain ⟨h1, h2⟩ := foldl_uniqueSessions td today l [] List.nodup_nil
  unfold uniqueSessions distinctSessionsOn
  rw [← List.toFinset_card_of_nodup h1, h2]
  simp

/-- C9, amended: after every `addEvent`, `stats.totalToday` is the number of distinct
`sessionId`s among the entries, stamped on the current calendar day, of the log as it stands
once the event is appended and before the trim to 1000 entries; when the log held fewer than
1000 entries before the call, that is the count over the log after the call. -/
theorem totalToday_counts_log_before_trim (toDateString : Time → Day) (s : Store) (now : Time)
    (event : EventInput) :
    (addEvent toDateString s now event).2.stats.totalToday =
      distinctSessionsOn toDateString (toDateString now) (s.events ++ [stamp now event]) ∧
    (s.events.length < 1000 →
      (addEvent toDateString s now event).2.stats.totalToday =
        distinctSessionsOn toDateString (toDateString now)
          (addEvent toDateString s now event).2.events) := by
  have h1 := addEvent_totalToday toDateString s now event
  rw [uniqueSessions_length] at h1
  refine ⟨h1, fun hlt => ?_⟩
  rw [h1, addEvent_events, if_neg (by omega)]

/-- Two sessions today in a log of two entries: `totalToday` is 2 after the second ingest. -/
theorem totalToday_counts_log_before_trim_witness :
    (addEvent utcDay storeOneEvent 5 (pageview "s2" "/b" 5)).2.stats.totalToday = 2 ∧
    storeOneEvent.events.length < 1000 ∧
    (addEvent utcDay storeOneEvent 5 (pageview "s2" "/b" 5)).2.stats.totalToday =
      distinctSessionsOn utcDay (utcDay 5)
        (addEvent utcDay storeOneEvent 5 (pageview "s2" "/b" 5)).2.events :=
  ⟨by decide, by decide,
    (totalToday_counts_log_before_trim utcDay storeOneEvent 5 (pageview "s2" "/b" 5)).2
      (by decide)⟩


/-! ## A full log -/

theorem run_addEvents_events (td : Time → Day) (now : Time) (evs : List EventInput) (s : Store)
    (h : s.events.length + evs.length ≤ 1000) :
    (run td s (evs.map (Op.addEvent now))).events = s.events ++ evs.map (stamp now) := by
  induction evs generalizing s with
  | nil => simp [run]
  | cons e rest ih =>
    simp only [List.length_cons] at h
    have hstep : (step td s (Op.addEvent now e)).events = s.events ++ [stamp now e] := by
      simp only [step, addEvent_events]
      rw [if_neg (by omega)]
    have hrun : run td s ((e :: rest).map (Op.addEvent now)) =
        run td (step td s (Op.addEvent now e)) (rest.map (Op.addEvent now)) := by
      simp [run]
    rw [hrun, ih _ (by rw [hstep]; simp only [List.length_append, List.length_singleton]; omega),
      hstep]
    simp

theorem orderedInsert_of_all_lt {α : Type} (key : α → Time) (a : α) (m : List α)
    (h : ∀ b ∈ m, key a < key b) :
    m.orderedInsert (fun a b => key b ≤ key a) a = m ++ [a] := by
  induction m with
  | nil => rfl
  | cons b rest ih =>
    have hb : ¬ key b ≤ key a := not_le.mpr (h b (List.mem_cons_self _ _))
    simp only [List.orderedInsert, hb, if_false, List.cons_append]
    rw [ih (fun c hc => h c (List.mem_cons_of_mem _ hc))]

theorem sortDesc_of_rising {α : Type} (key : α → Time) (l : List α)
    (h : l.Pairwise (fun a b => key a < key b)) : sortDesc key l = l.reverse := by
  induction l with
  | nil => rfl
  | cons a rest ih =>
    rw [List.pairwise_cons] at h
    have ih2 := ih h.2
    unfold sortDesc at ih2 ⊢
    rw [List.insertionSort, ih2, List.reverse_cons]
    exact orderedInsert_of_all_lt key a _ (fun b hb => h.1 b (List.mem_reverse.mp hb))

theorem risingEvents_length (n : Nat) : (risingEvents n).length = n := by
  simp [risingEvents]

theorem rising_timestamps (n : Nat) :
    ((risingEvents n).map (stamp 0)).map (fun e => e.timestamp) =
      (List.range n).map (fun (i : Nat) => Int.ofNat i) := by
  simp [risingEvents, stamp, pageview, Function.comp_def]

theorem rising_pairwise (n : Nat) :
    ((risingEvents n).map (stamp 0)).Pairwise (fun a b => a.timestamp < b.timestamp) := by
  have h1 : (((risingEvents n).map (stamp 0)).map (fun e => e.timestamp)).Pairwise
      (fun a b => a < b) := by
    rw [rising_timestamps, List.pairwise_map]
    exact (List.pairwise_lt_range n).imp (fun h => Int.ofNat_lt.mpr h)
  exact List.pairwise_map.mp h1

theorem drop_newest (n : Nat) (x : Int) :
    (((List.range (n + 1)).map (fun (i : Nat) => Int.ofNat i)).reverse ++ [x]).drop 1 =
      ((List.range n).map (fun (i : Nat) => Int.ofNat i)).reverse ++ [x] := by
  rw [List.range_succ, List.map_append, List.reverse_append]
  rfl

theorem storeFull_events :
    storeFull.events = (risingEvents 1000).map (stamp 0) := by
  unfold storeFull
  rw [run_addEvents_events utcDay 0 (risingEvents 1000) store0
    (by rw [risingEvents_length]; decide)]
  exact List.nil_append _

/-- C2, evaluated on the code: 1000 events stamped `0, ..., 999` are ingested in that order,
then `getSummary` is called, then one more event stamped 1000 is ingested. The log then holds
the stamps `998, 997, ..., 0` followed by 1000: the entry that was evicted is the one stamped
999, the last one ingested before the call, and the earliest one, stamped 0, is still there. -/
theorem eviction_after_getSummary_drops_newest :
    storeFull.events.map (fun e => e.timestamp) =
      (List.range 1000).map (fun (i : Nat) => Int.ofNat i) ∧
    (addEvent utcDay (getSummary storeFull).2 1000 (pageview "s1" "/a" 1000)).2.events.map
        (fun e => e.timestamp) =
      ((List.range 999).map (fun (i : Nat) => Int.ofNat i)).reverse ++ [1000] := by
  refine ⟨by rw [storeFull_events, rising_timestamps], ?_⟩
  rw [addEvent_events, getSummary_events, sortDesc_length, storeFull_events,
    sortDesc_of_rising _ _ (rising_pairwise 1000), List.length_map, risingEvents_length,
    if_pos (by omega), List.map_drop, List.map_append, List.map_reverse, rising_timestamps]
  exact drop_newest 999 1000

theorem distinct_two_sessions (n : Nat) :
    distinctSessionsOn utcDay (utcDay 0)
      ((stamp 0 (pageview "b" "/a" 0) :: List.replicate n (stamp 0 (pageview "a" "/a" 0))) ++
        [stamp 0 (pageview "a" "/a" 0)]) = 2 := by
  unfold distinctSessionsOn
  have hday : utcDay (stamp 0 (pageview "a" "/a" 0)).timestamp = utcDay 0 := rfl
  have hday2 : utcDay (stamp 0 (pageview "b" "/a" 0)).timestamp = utcDay 0 := rfl
  rw [List.cons_append, List.filter_cons_of_pos (by simpa using hday2), List.filter_append,
    List.filter_replicate, if_pos (by simpa using hday),
    List.filter_cons_of_pos (by simpa using hday), List.filter_nil, List.map_cons,
    List.map_append, List.map_replicate, List.toFinset_cons, List.toFinset_append]
  have hsub : (List.replicate n (stamp 0 (pageview "a" "/a" 0)).sessionId).toFinset ∪
      (List.map (fun e => e.sessionId) [stamp 0 (pageview "a" "/a" 0)]).toFinset = {"a"} := by
    ext y
    simp only [Finset.mem_union, List.mem_toFinset, List.mem_replicate, List.map_cons,
      List.map_nil, List.mem_singleton, Finset.mem_singleton]
    constructor
    · rintro (h | h)
      · exact h.2
      · exact h
    · exact fun h => Or.inr h
  rw [hsub]
  decide

theorem distinct_one_session (n : Nat) :
    distinctSessionsOn utcDay (utcDay 0)
      (List.replicate n (stamp 0 (pageview "a" "/a" 0)) ++ [stamp 0 (pageview "a" "/a" 0)]) =
      1 := by
  unfold distinctSessionsOn
  have hday : utcDay (stamp 0 (pageview "a" "/a" 0)).timestamp = utcDay 0 := rfl
  rw [List.filter_append, List.filter_replicate, if_pos (by simpa using hday),
    List.filter_cons_of_pos (by simpa using hday), List.filter_nil,
    List.map_append, List.map_replicate, List.toFinset_append]
  have hsub : (List.replicate n (stamp 0 (pageview "a" "/a" 0)).sessionId).toFinset ∪
      (List.map (fun e => e.sessionId) [stamp 0 (pageview "a" "/a" 0)]).toFinset = {"a"} := by
    ext y
    simp only [Finset.mem_union, List.mem_toFinset, List.mem_replicate, List.map_cons,
      List.map_nil, List.mem_singleton, Finset.mem_singleton]
    constructor
    · rintro (h | h)
      · exact h.2
      · exact h
    · exact fun h => Or.inr h
  rw [hsub]
  rfl

theorem storeFullTwoSessions_events :
    storeFullTwoSessions.events =
      stamp 0 (pageview "b" "/a" 0) :: List.replicate 999 (stamp 0 (pageview "a" "/a" 0)) := by
  unfold storeFullTwoSessions
  rw [run_addEvents_events utcDay 0 _ store0
    (by rw [List.length_cons, List.length_replicate]; decide)]
  rw [List.map_cons, List.map_replicate]
  exact List.nil_append _

/-- C9 as stated fails: the log holds 1000 entries of today, the oldest from session `b` and
999 from session `a`. One more event of session `a` evicts the entry of `b`; afterwards the
log holds one distinct `sessionId`, and `stats.totalToday` is 2. -/
theorem totalToday_counts_evicted_entry :
    ¬ ((addEvent utcDay storeFullTwoSessions 0 (pageview "a" "/a" 0)).2.stats.totalToday =
      distinctSessionsOn utcDay (utcDay 0)
        (addEvent utcDay storeFullTwoSessions 0 (pageview "a" "/a" 0)).2.events) := by
  rw [addEvent_totalToday, uniqueSessions_length, addEvent_events, storeFullTwoSessions_events,
    if_pos (by rw [List.length_cons, List.length_replicate]; decide),
    distinct_two_sessions 999, List.cons_append, List.drop_succ_cons, List.drop_zero,
    distinct_one_session 999]
  decide


/-! ## The daily reset -/

theorem updateStats_lastReset (td : Time → Day) (s : Store) (now : Time) (event : Event) :
    (updateStats td s now event).stats.lastReset = td now := by
  unfold updateStats
  simp only
  by_cases h : s.stats.lastReset = td now <;> by_cases hp : truthyStr event.page = true <;>
    simp [h, hp]

theorem updateStats_pagesVisited (td : Time → Day) (s : Store) (now : Time) (event : Event) :
    (updateStats td s now event).stats.pagesVisited =
      if truthyStr event.page then
        bumpPage (if s.stats.lastReset = td now then s.stats.pagesVisited else []) event.page
      else (if s.stats.lastReset = td now then s.stats.pagesVisited else []) := by
  unfold updateStats
  simp only
  by_cases h : s.stats.lastReset = td now <;> by_cases hp : truthyStr event.page = true <;>
    simp [h, hp]

theorem addEvent_stats (td : Time → Day) (s : Store) (now : Time) (event : EventInput) :
    (addEvent td s now event).2.stats =
      (updateStats td { s with events := s.events ++ [stamp now event] } now
        (stamp now event)).stats := by
  simp only [addEvent]
  split <;> simp only [updateSession_stats]

theorem addEvent_lastReset (td : Time → Day) (s : Store) (now : Time) (event : EventInput) :
    (addEvent td s now event).2.stats.lastReset = td now := by
  rw [addEvent_stats, updateStats_lastReset]

theorem bumpPage_get_ne (pagesVisited : List (String × PageValue)) (q p : String)
    (h : q ≠ p) : mapGet (bumpPage pagesVisited q) p = mapGet pagesVisited p := by
  unfold bumpPage
  split
  · exact mapGet_mapSet_ne _ _ _ _ h
  · split
    · exact mapGet_mapSet_ne _ _ _ _ h
    · exact mapGet_mapSet_ne _ _ _ _ h
  · split
    · rfl
    · split
      · exact mapGet_mapSet_ne _ _ _ _ h
      · exact mapGet_mapSet_ne _ _ _ _ h

theorem bumpPage_get_self (pagesVisited : List (String × PageValue)) (p : String)
    (hproto : p ∉ objectPrototypeKeys)
    (hnum : ∀ text, mapGet pagesVisited p ≠ some (.text text)) :
    mapGet (bumpPage pagesVisited p) p = some (.count (countOf (mapGet pagesVisited p) + 1)) := by
  have hkey : p ≠ "__proto__" := by
    rintro rfl
    exact hproto (by decide)
  have hcontains : objectPrototypeKeys.contains p = false := by
    simpa using hproto
  unfold bumpPage
  cases hget : mapGet pagesVisited p with
  | none =>
    simp only [if_neg hkey, hcontains, Bool.false_eq_true, if_false, mapGet_mapSet_self, countOf]
  | some v =>
    cases v with
    | count n => simp only [mapGet_mapSet_self, countOf]
    | text text => exact absurd hget (hnum text)

/-- The count of a page after an `addEvent`, for a page that is not the name of a member of
`Object.prototype` and whose stored value, if any, is a number; the stored value is a number
after the call too. -/
theorem addEvent_pageCount (td : Time → Day) (s : Store) (now : Time) (event : EventInput)
    (p : String) (hproto : p ∉ objectPrototypeKeys)
    (hnum : s.stats.lastReset = td now →
      ∀ text, mapGet s.stats.pagesVisited p ≠ some (.text text)) :
    pageCount (addEvent td s now event).2 p =
      (if s.stats.lastReset = td now then pageCount s p else 0) +
        (if event.page = p ∧ p ≠ "" then 1 else 0) ∧
    ∀ text, mapGet (addEvent td s now event).2.stats.pagesVisited p ≠ some (.text text) := by
  unfold pageCount
  rw [addEvent_stats, updateStats_pagesVisited]
  have hpage : (stamp now event).page = event.page := rfl
  have hbase : countOf (mapGet (if s.stats.lastReset = td now then s.stats.pagesVisited else []) p) =
      if s.stats.lastReset = td now then countOf (mapGet s.stats.pagesVisited p) else 0 := by
    by_cases hd : s.stats.lastReset = td now <;> simp [hd, mapGet, countOf]
  have hbasenum : ∀ text,
      mapGet (if s.stats.lastReset = td now then s.stats.pagesVisited else []) p ≠
        some (.text text) := by
    intro text
    by_cases hd : s.stats.lastReset = td now
    · rw [if_pos hd]
      exact hnum hd text
    · rw [if_neg hd]
      simp [mapGet]
  simp only [hpage]
  by_cases hp : event.page = ""
  · have hinc : (if event.page = p ∧ p ≠ "" then 1 else 0) = (0 : Nat) :=
      if_neg (fun h => h.2 (h.1 ▸ hp))
    have hfalsy : truthyStr event.page = false := by simp [truthyStr, hp]
    rw [hinc, hfalsy, if_neg Bool.false_ne_true, hbase]
    exact ⟨rfl, hbasenum⟩
  · have htruthy : truthyStr event.page = true := by simp [truthyStr, hp]
    rw [htruthy, if_pos rfl]
    by_cases hq : event.page = p
    · have hinc : (if event.page = p ∧ p ≠ "" then 1 else 0) = (1 : Nat) :=
        if_pos ⟨hq, fun h => hp (hq.trans h)⟩
      rw [hinc, ← hbase, hq, bumpPage_get_self _ _ hproto hbasenum]
      exact ⟨rfl, fun text h => by simp at h⟩
    · have hinc : (if event.page = p ∧ p ≠ "" then 1 else 0) = (0 : Nat) :=
        if_neg (fun h => hq h.1)
      rw [hinc, bumpPage_get_ne _ _ _ hq, hbase]
      exact ⟨rfl, hbasenum⟩

theorem getEvents_stats (s : Store) (filter : Filter) :
    (getEvents s filter).2.stats = s.stats := by
  unfold getEvents
  simp only
  split <;> rfl

theorem step_onDay (td : Time → Day) (d : Day) (s : Store) (op : Op) (p : String)
    (hreset : s.stats.lastReset = d) (hop : op.onDay td d = true) (hp : p ≠ "")
    (hproto : p ∉ objectPrototypeKeys)
    (hnum : ∀ text, mapGet s.stats.pagesVisited p ≠ some (.text text)) :
    (step td s op).stats.lastReset = d ∧
      pageCount (step td s op) p = pageCount s p + pageIngests p [op] ∧
      ∀ text, mapGet (step td s op).stats.pagesVisited p ≠ some (.text text) := by
  cases op with
  | addEvent now event =>
    have hday : td now = d := by simpa [Op.onDay] using hop
    obtain ⟨hcount, hkeep⟩ := addEvent_pageCount td s now event p hproto (fun _ => hnum)
    refine ⟨by simp only [step, addEvent_lastReset, hday], ?_, hkeep⟩
    simp only [step, hcount, hreset, hday, if_true, pageIngests, List.countP_cons,
      List.countP_nil, Nat.zero_add]
    by_cases hq : event.page = p <;> simp [hq, hp]
  | getEvents filter =>
    simp only [step, pageCount, getEvents_stats, pageIngests]
    exact ⟨hreset, by simp, hnum⟩
  | getSummary =>
    simp only [step, pageCount, getSummary, getEvents_stats, pageIngests]
    exact ⟨hreset, by simp, hnum⟩
  | clearStats now => simp [Op.onDay] at hop
  | addDashboard x =>
    simp only [step, pageCount, addDashboard, pageIngests]
    exact ⟨hreset, by simp, hnum⟩
  | removeDashboard x =>
    simp only [step, pageCount, removeDashboard, pageIngests]
    exact ⟨hreset, by simp, hnum⟩

theorem pageIngests_cons (p : String) (op : Op) (ops : List Op) :
    pageIngests p (op :: ops) = pageIngests p [op] + pageIngests p ops := by
  simp only [pageIngests, List.countP_cons, List.countP_nil]
  omega

theorem run_onDay (td : Time → Day) (d : Day) (ops : List Op) (s : Store) (p : String)
    (hreset : s.stats.lastReset = d) (hops : ∀ op ∈ ops, op.onDay td d = true)
    (hp : p ≠ "") (hproto : p ∉ objectPrototypeKeys)
    (hnum : ∀ text, mapGet s.stats.pagesVisited p ≠ some (.text text)) :
    (run td s ops).stats.lastReset = d ∧
      pageCount (run td s ops) p = pageCount s p + pageIngests p ops := by
  induction ops generalizing s with
  | nil => exact ⟨hreset, by simp [run, pageIngests]⟩
  | cons op rest ih =>
    obtain ⟨h1, h2, hkeep⟩ :=
      step_onDay td d s op p hreset (hops op (List.mem_cons_self _ _)) hp hproto hnum
    obtain ⟨h3, h4⟩ :=
      ih (step td s op) h1 (fun o ho => hops o (List.mem_cons_of_mem _ ho)) hkeep
    have hrun : run td s (op :: rest) = run td (step td s op) rest := by simp [run]
    rw [hrun, pageIngests_cons]
    exact ⟨h3, by rw [h4, h2]; omega⟩

/-- A page named like a member of `Object.prototype` is not counted: after a pageview of the
page `constructor` in a new store the value stored under that key is a string, and after a
pageview of the page `__proto__` nothing is stored. -/
theorem prototype_page_is_not_counted :
    mapGet (addEvent utcDay store0 0 (pageview "s1" "constructor" 0)).2.stats.pagesVisited
      "constructor" = some (.text "function Object() \x7b [native code] \x7d1") ∧
    pageCount (addEvent utcDay store0 0 (pageview "s1" "constructor" 0)).2 "constructor" = 0 ∧
    (addEvent utcDay store0 0 (pageview "s1" "__proto__" 0)).2.stats.pagesVisited = [] := by
  decide

/-- C11 as stated fails for the empty page: on the day of `lastReset`, an event whose page is
the empty string is ingested, and `pagesVisited[""]` does not grow, because `updateStats`
counts a page only behind the guard `if (event.page)`. -/
theorem empty_page_is_not_counted :
    Op.onDay utcDay store0.stats.lastReset (.addEvent 0 blankPageview) = true ∧
    pageIngests "" [.addEvent 0 blankPageview] = 1 ∧
    ¬ (pageCount (run utcDay store0 [.addEvent 0 blankPageview]) "" =
        pageCount store0 "" + pageIngests "" [.addEvent 0 blankPageview]) := by
  decide

/-- C11, amended: an `addEvent` that runs on a calendar day different from `stats.lastReset`
sets `lastReset` to the current day and leaves in `pagesVisited` the count of this event alone
(1 for its page, 0 for every other page), with `totalToday` counted afresh from the log; after
any further calls made on that day other than `clearStats`, `lastReset` is still that day and
`pagesVisited[p]` has grown by exactly the number of ingested events with page `p`. This holds
for every page `p` that is not empty and is not the name of a member of `Object.prototype`
(`constructor`, `toString`, `__proto__`, ...); an empty page is not counted, and for a page
named like such a member a string is stored in place of a count. -/
theorem daily_reset_once (toDateString : Time → Day) (s : Store) (now : Time)
    (event : EventInput) (ops : List Op) (p : String)
    (hchange : toDateString now ≠ s.stats.lastReset)
    (hops : ∀ op ∈ ops, op.onDay toDateString (toDateString now) = true) (hp : p ≠ "")
    (hproto : p ∉ objectPrototypeKeys) :
    (addEvent toDateString s now event).2.stats.lastReset = toDateString now ∧
    pageCount (addEvent toDateString s now event).2 p = (if event.page = p then 1 else 0) ∧
    (addEvent toDateString s now event).2.stats.totalToday =
      distinctSessionsOn toDateString (toDateString now) (s.events ++ [stamp now event]) ∧
    (run toDateString (addEvent toDateString s now event).2 ops).stats.lastReset =
      toDateString now ∧
    pageCount (run toDateString (addEvent toDateString s now event).2 ops) p =
      pageCount (addEvent toDateString s now event).2 p + pageIngests p ops := by
  obtain ⟨hcount, hkeep⟩ := addEvent_pageCount toDateString s now event p hproto
    (fun h => absurd h.symm hchange)
  obtain ⟨h1, h2⟩ := run_onDay toDateString (toDateString now) ops
    (addEvent toDateString s now event).2 p (addEvent_lastReset _ _ _ _) hops hp hproto hkeep
  refine ⟨addEvent_lastReset _ _ _ _, ?_, ?_, h1, h2⟩
  · rw [hcount, if_neg (fun h => hchange h.symm)]
    by_cases hq : event.page = p <;> simp [hq, hp]
  · rw [addEvent_totalToday, uniqueSessions_length]

/-- A store created on day 0 receives, on day 1, a pageview of `/a` and then two more
pageviews of `/a` and one of `/b`: `pagesVisited["/a"]` is 1 and then 3. -/
theorem daily_reset_once_witness :
    pageCount (addEvent utcDay storeOneEvent 86400000 (pageview "s1" "/a" 86400000)).2 "/a" = 1 ∧
    pageCount
      (run utcDay (addEvent utcDay storeOneEvent 86400000 (pageview "s1" "/a" 86400000)).2
        [.addEvent 86400001 (pageview "s1" "/a" 86400001), .getSummary,
         .addEvent 86400002 (pageview "s2" "/b" 86400002),
         .addEvent 86400003 (pageview "s2" "/a" 86400003)]) "/a" = 3 :=
  have h := daily_reset_once utcDay storeOneEvent 86400000 (pageview "s1" "/a" 86400000)
    [.addEvent 86400001 (pageview "s1" "/a" 86400001), .getSummary,
     .addEvent 86400002 (pageview "s2" "/b" 86400002),
     .addEvent 86400003 (pageview "s2" "/a" 86400003)] "/a" (by decide) (by decide) (by decide)
    (by decide)
  ⟨h.2.1, h.2.2.2.2⟩

/-! ## Time series -/

theorem countdown_succ (m : Nat) : countdown (m + 1) = (m + 1) :: countdown m := by
  unfold countdown
  rw [List.range_succ, List.reverse_append]
  rfl

theorem slotStart_succ (now : Time) (m k : Nat) :
    slotStart now (m + 1) + Int.ofNat (k + 1) * 60000 = slotStart now m + Int.ofNat k * 60000 := by
  unfold slotStart
  simp only [Int.ofNat_eq_coe, Nat.cast_add, Nat.cast_one]
  ring

theorem countdown_times (now : Time) (m : Nat) :
    (countdown m).map (slotStart now) =
      (List.range (m + 1)).map (fun (k : Nat) => slotStart now m + Int.ofNat k * 60000) := by
  induction m with
  | zero =>
    show [slotStart now 0] = [slotStart now 0 + Int.ofNat 0 * 60000]
    have h0 : slotStart now 0 + Int.ofNat 0 * 60000 = slotStart now 0 := by
      simp only [Int.ofNat_eq_coe, Nat.cast_zero, zero_mul, add_zero]
    rw [h0]
  | succ m ih =>
    rw [countdown_succ, List.map_cons, ih, List.range_succ_eq_map (m + 1), List.map_cons,
      List.map_map]
    have hhead : slotStart now (m + 1) = slotStart now (m + 1) + Int.ofNat 0 * 60000 := by
      simp only [Int.ofNat_eq_coe, Nat.cast_zero, zero_mul, add_zero]
    have htail : (List.range (m + 1)).map (fun (k : Nat) => slotStart now m + Int.ofNat k * 60000) =
        (List.range (m + 1)).map
          (fun (k : Nat) => slotStart now (m + 1) + Int.ofNat (k + 1) * 60000) :=
      List.map_congr_left (fun k _ => (slotStart_succ now m k).symm)
    exact congrArg₂ List.cons hhead htail

theorem countdown_expectedTimes (now : Time) (m : Nat) :
    (countdown m).map (slotStart now) = expectedTimes now m := by
  rw [countdown_times]
  unfold expectedTimes slotStart
  apply List.map_congr_left
  intro k _
  ring

theorem countdown_length (m : Nat) : (countdown m).length = m + 1 := by
  simp [countdown]

theorem slotEvents_of_empty (s : Store) (t : Time) (filters : Filter) (h : s.events = []) :
    slotEvents s t filters = [] := by
  unfold slotEvents
  simp only [h, List.filter_nil]
  split <;> split <;> rfl

theorem slotPageviews_of_empty (s : Store) (t : Time) (filters : Filter) (h : s.events = []) :
    slotPageviews s t filters = [] := by
  unfold slotPageviews
  simp only [h, List.filter_nil]
  split <;> split <;> rfl

theorem events_nonempty_step (td : Time → Day) (s : Store) (op : Op)
    (h : s.events = [] → s.sessions = []) :
    (step td s op).events = [] → (step td s op).sessions = [] := by
  cases op with
  | addEvent now event =>
    intro hev
    exfalso
    have hlen : (step td s (Op.addEvent now event)).events.length = 0 := by rw [hev]; rfl
    simp only [step, addEvent_events] at hlen
    split at hlen
    · simp only [List.length_drop, List.length_append, List.length_singleton] at hlen
      omega
    · simp only [List.length_append, List.length_singleton] at hlen
      omega
  | getEvents filter =>
    intro hev
    rw [show (step td s (Op.getEvents filter)).sessions = s.sessions from getEvents_sessions s filter]
    apply h
    have hlen : (step td s (Op.getEvents filter)).events.length = 0 := by rw [hev]; rfl
    simp only [step, getEvents_events_length] at hlen
    exact List.length_eq_zero.mp hlen
  | getSummary =>
    intro hev
    rw [show (step td s Op.getSummary).sessions = s.sessions from getSummary_sessions s]
    apply h
    have hlen : (step td s Op.getSummary).events.length = 0 := by rw [hev]; rfl
    simp only [step, getSummary_events, sortDesc_length] at hlen
    exact List.length_eq_zero.mp hlen
  | clearStats now => intro _; rfl
  | addDashboard d => exact h
  | removeDashboard d => exact h

theorem events_nonempty_of_reachable (td : Time → Day) (s : Store) (hreach : Reachable td s) :
    s.events = [] → s.sessions = [] := by
  obtain ⟨now, ops, rfl⟩ := hreach
  have hgen : ∀ (ops : List Op) (s : Store), (s.events = [] → s.sessions = []) →
      ((run td s ops).events = [] → (run td s ops).sessions = []) := by
    intro ops
    induction ops with
    | nil => intro s h; simpa [run] using h
    | cons op rest ih =>
      intro s h
      have hrun : run td s (op :: rest) = run td (step td s op) rest := by simp [run]
      rw [hrun]
      exact ih _ (events_nonempty_step td s op h)
  exact hgen ops _ (fun _ => rfl)

theorem sessions_fold_zero (l : List (String × Session)) (f : Nat → String × Session → Nat)
    (h : l = []) : l.foldl f 0 = 0 := by
  rw [h]
  rfl

/-- C12: for every window of `m` minutes and every store, each of `getVisitorsOverTime`,
`getEventsOverTime`, `getPageviewsOverTime` and `getSessionsOverTime` returns `m + 1` buckets,
oldest first, whose start times rise by 60 seconds from `now` minus `m` minutes to `now`; in a
reachable store whose log is empty every value of every bucket is 0. -/
theorem time_series_buckets (toDateString : Time → Day) (s : Store) (now : Time) (m : Nat)
    (filters : Filter) :
    ((getVisitorsOverTime s now m filters).length = m + 1 ∧
      (getEventsOverTime s now m filters).length = m + 1 ∧
      (getPageviewsOverTime s now m filters).length = m + 1 ∧
      (getSessionsOverTime s now m filters).length = m + 1) ∧
    ((getVisitorsOverTime s now m filters).map (fun b => b.time) = expectedTimes now m ∧
      (getEventsOverTime s now m filters).map (fun b => b.time) = expectedTimes now m ∧
      (getPageviewsOverTime s now m filters).map (fun b => b.time) = expectedTimes now m ∧
      (getSessionsOverTime s now m filters).map (fun b => b.time) = expectedTimes now m) ∧
    (Reachable toDateString s → s.events = [] →
      (∀ b ∈ getVisitorsOverTime s now m filters, b.visitors = 0 ∧ b.events = 0) ∧
      (∀ b ∈ getEventsOverTime s now m filters, b.visitors = 0 ∧ b.events = 0) ∧
      (∀ b ∈ getPageviewsOverTime s now m filters, b.pageviews = 0 ∧ b.visitors = 0) ∧
      (∀ b ∈ getSessionsOverTime s now m filters, b.sessions = 0)) := by
  refine ⟨?_, ?_, ?_⟩
  · simp [getVisitorsOverTime, getEventsOverTime, getPageviewsOverTime, getSessionsOverTime,
      countdown_length]
  · simp only [getVisitorsOverTime, getEventsOverTime, getPageviewsOverTime,
      getSessionsOverTime, List.map_map, Function.comp_def]
    exact ⟨countdown_expectedTimes now m, countdown_expectedTimes now m,
      countdown_expectedTimes now m, countdown_expectedTimes now m⟩
  · intro hreach hempty
    have hsess : s.sessions = [] := events_nonempty_of_reachable toDateString s hreach hempty
    refine ⟨?_, ?_, ?_, ?_⟩
    · intro b hb
      simp only [getVisitorsOverTime, List.mem_map] at hb
      obtain ⟨i, _, rfl⟩ := hb
      simp [slotEvents_of_empty s _ filters hempty, setSize]
    · intro b hb
      simp only [getEventsOverTime, List.mem_map] at hb
      obtain ⟨i, _, rfl⟩ := hb
      simp [slotEvents_of_empty s _ filters hempty, setSize]
    · intro b hb
      simp only [getPageviewsOverTime, List.mem_map] at hb
      obtain ⟨i, _, rfl⟩ := hb
      simp [slotPageviews_of_empty s _ filters hempty, setSize]
    · intro b hb
      simp only [getSessionsOverTime, List.mem_map] at hb
      obtain ⟨i, _, rfl⟩ := hb
      simp [hsess]

/-- A new store and a window of 10 minutes at time 600000: 11 buckets that start at
`0, 60000, ..., 600000`, all of them empty. -/
theorem time_series_buckets_witness :
    (getVisitorsOverTime store0 600000 10 noFilter).length = 11 ∧
    (getSessionsOverTime store0 600000 10 noFilter).map (fun b => b.time) =
      [0, 60000, 120000, 180000, 240000, 300000, 360000, 420000, 480000, 540000, 600000] ∧
    (∀ b ∈ getVisitorsOverTime store0 600000 10 noFilter, b.visitors = 0 ∧ b.events = 0) ∧
    (∀ b ∈ getSessionsOverTime store0 600000 10 noFilter, b.sessions = 0) :=
  have h := time_series_buckets utcDay store0 600000 10 noFilter
  ⟨h.1.1, h.2.1.2.2.2, (h.2.2 ⟨0, [], rfl⟩ rfl).1, (h.2.2 ⟨0, [], rfl⟩ rfl).2.2.2⟩

theorem slotEvents_eq_filter (s : Store) (t : Time) (filters : Filter) :
    slotEvents s t filters =
      s.events.filter (fun e =>
        (decide (t ≤ e.timestamp) && decide (e.timestamp < t + 60 * 1000)) &&
          passesChart filters e) := by
  unfold slotEvents passesChart
  cases hc : truthy filters.country <;> cases hp : truthy filters.page <;>
    simp [List.filter_filter, Bool.and_comm, Bool.and_assoc, Bool.and_left_comm]

theorem filter_length_add {α : Type} (l : List α) (A B C : α → Bool)
    (h : ∀ e, (if A e then 1 else 0) + (if B e then 1 else 0) = (if C e then 1 else 0)) :
    (l.filter A).length + (l.filter B).length = (l.filter C).length := by
  induction l with
  | nil => rfl
  | cons e rest ih =>
    have he := h e
    cases hA : A e <;> cases hB : B e <;> cases hC : C e <;>
      simp only [hA, hB, hC, if_true, if_false, Bool.false_eq_true] at he <;>
      simp only [List.filter_cons, hA, hB, hC, if_true, if_false, Bool.false_eq_true,
        List.length_cons] <;>
      omega

theorem eventCounts_succ (s : Store) (now : Time) (m : Nat) (filters : Filter) :
    (eventCounts s now (m + 1) filters).sum =
      (slotEvents s (slotStart now (m + 1)) filters).length +
        (eventCounts s now m filters).sum := by
  unfold eventCounts getEventsOverTime
  rw [countdown_succ]
  rfl

theorem slot_pointwise (now : Int) (m : Nat) (pass : Bool) (ts : Int) :
    (if ((decide (now - Int.ofNat (m + 1) * 60 * 1000 ≤ ts) &&
        decide (ts < now - Int.ofNat (m + 1) * 60 * 1000 + 60 * 1000)) && pass) = true
        then 1 else 0) +
      (if (pass && (decide (now - Int.ofNat m * 60000 ≤ ts) && decide (ts < now + 60000))) = true
        then 1 else 0) =
      (if (pass && (decide (now - Int.ofNat (m + 1) * 60000 ≤ ts) &&
        decide (ts < now + 60000))) = true then 1 else 0) := by
  simp only [Int.ofNat_eq_coe, Nat.cast_add, Nat.cast_one, Bool.and_eq_true, decide_eq_true_eq]
  cases pass
  · simp
  · simp only [and_true, true_and]
    split_ifs <;> omega

theorem slot_zero (now : Int) (pass : Bool) (ts : Int) :
    ((decide (now - Int.ofNat 0 * 60 * 1000 ≤ ts) &&
        decide (ts < now - Int.ofNat 0 * 60 * 1000 + 60 * 1000)) && pass) =
      (pass && (decide (now - Int.ofNat 0 * 60000 ≤ ts) && decide (ts < now + 60000))) := by
  cases pass
  · simp
  · simp only [Bool.and_true, Bool.true_and]
    rw [Bool.eq_iff_iff]
    simp only [Bool.and_eq_true, decide_eq_true_eq, Int.ofNat_eq_coe, Nat.cast_zero]
    constructor <;> intro h <;> constructor <;> omega

theorem slot_index_exists (now ts : Int) (m : Nat) (h1 : now - (m : Int) * 60000 ≤ ts)
    (h2 : ts < now + 60000) :
    ∃ i : Nat, i ≤ m ∧ now - (i : Int) * 60 * 1000 ≤ ts ∧
      ts < now - (i : Int) * 60 * 1000 + 60 * 1000 := by
  refine ⟨((now - ts + 59999) / 60000).toNat, ?_, ?_, ?_⟩ <;> omega

theorem slot_index_unique (now ts : Int) (i j : Nat)
    (hi : now - (i : Int) * 60 * 1000 ≤ ts ∧ ts < now - (i : Int) * 60 * 1000 + 60 * 1000)
    (hj : now - (j : Int) * 60 * 1000 ≤ ts ∧ ts < now - (j : Int) * 60 * 1000 + 60 * 1000) :
    j = i := by
  omega

theorem eventCounts_sum (s : Store) (now : Time) (m : Nat) (filters : Filter) :
    (eventCounts s now m filters).sum =
      (s.events.filter (fun e => passesChart filters e && inSlots now m e)).length := by
  induction m with
  | zero =>
    have h0 : (eventCounts s now 0 filters).sum =
        (slotEvents s (slotStart now 0) filters).length := by
      unfold eventCounts getEventsOverTime
      show (slotEvents s (slotStart now 0) filters).length + 0 = _
      rfl
    rw [h0, slotEvents_eq_filter]
    congr 1
    apply List.filter_congr
    intro e _
    exact slot_zero now (passesChart filters e) e.timestamp
  | succ m ih =>
    rw [eventCounts_succ, ih, slotEvents_eq_filter]
    apply filter_length_add
    intro e
    exact slot_pointwise now m (passesChart filters e) e.timestamp

/-- C13 as stated fails: an event stamped one second after the time of the query is counted in
the last bucket, which covers `[now, now + 1 minute)`, and it does not lie in the window
`[now - 10 minutes, now]`: the bucket values add up to 1, the window holds no entry. -/
theorem event_after_now_is_counted :
    ¬ ((eventCounts storeFutureEvent 0 10 noFilter).sum =
        (storeFutureEvent.events.filter
          (fun e => passesChart noFilter e && inWindowAsWorded 0 10 e)).length) := by
  decide

/-- C13, amended: the slots partition `[now - m minutes, now + 1 minute)`. For the events
metric the bucket values add up to the number of log entries that pass the `country` and
`page` filters (a key counts when it holds a non-empty string) and are stamped in that
interval, and each such entry lies in the bucket of exactly one slot. -/
theorem buckets_partition_slots (s : Store) (now : Time) (m : Nat) (filters : Filter) :
    (eventCounts s now m filters).sum =
      (s.events.filter (fun e => passesChart filters e && inSlots now m e)).length ∧
    ∀ e ∈ s.events, passesChart filters e = true → inSlots now m e = true →
      ∃! i, i ≤ m ∧ e ∈ slotEvents s (slotStart now i) filters := by
  refine ⟨eventCounts_sum s now m filters, fun e he hpass hin => ?_⟩
  have hmem : ∀ i : Nat, e ∈ slotEvents s (slotStart now i) filters ↔
      (now - (i : Int) * 60 * 1000 ≤ e.timestamp ∧
        e.timestamp < now - (i : Int) * 60 * 1000 + 60 * 1000) := by
    intro i
    rw [slotEvents_eq_filter, List.mem_filter]
    unfold slotStart
    simp only [he, hpass, true_and, Bool.and_true, Bool.and_eq_true, decide_eq_true_eq,
      Int.ofNat_eq_coe]
  have hwin : now - (m : Int) * 60000 ≤ e.timestamp ∧ e.timestamp < now + 60000 := by
    unfold inSlots at hin
    simp only [Bool.and_eq_true, decide_eq_true_eq, Int.ofNat_eq_coe] at hin
    exact hin
  obtain ⟨i, hi, hslot⟩ := slot_index_exists now e.timestamp m hwin.1 hwin.2
  refine ⟨i, ⟨hi, (hmem i).mpr hslot⟩, ?_⟩
  rintro j ⟨_, hj⟩
  exact slot_index_unique now e.timestamp i j hslot ((hmem j).mp hj)

/-- The event stamped one second after the query lies in exactly one bucket. -/
theorem buckets_partition_slots_witness :
    ∃! i, i ≤ 10 ∧
      stamp 0 (pageview "s1" "/a" 1000) ∈ slotEvents storeFutureEvent (slotStart 0 i) noFilter :=
  (buckets_partition_slots storeFutureEvent 0 10 noFilter).2
    (stamp 0 (pageview "s1" "/a" 1000)) (by decide) (by decide) (by decide)

/-! ## The summary and the reset -/

theorem filterMap_active_length (l : List (String × Session)) :
    (l.filterMap (fun kv =>
      if kv.2.isActive then
        some ({ toSession := kv.2,
                duration := (kv.2.lastActivity - kv.2.startTime) / 1000 } : ActiveSession)
      else none)).length = (l.filter (fun kv => kv.2.isActive)).length := by
  induction l with
  | nil => rfl
  | cons kv rest ih =>
    by_cases h : kv.2.isActive = true
    · simp only [List.filterMap_cons, h, if_true, List.filter_cons_of_pos, List.length_cons, ih]
    · have hfil : (kv :: rest).filter (fun kv => kv.2.isActive) =
          rest.filter (fun kv => kv.2.isActive) := List.filter_cons_of_neg h
      simp only [List.filterMap_cons, h, if_false, Bool.false_eq_true]
      rw [hfil]
      exact ih

theorem getActiveSessions_length (s : Store) : (getActiveSessions s).length = activeCount s := by
  unfold getActiveSessions activeCount
  simp only
  rw [sortDesc_length, filterMap_active_length]

/-- C14: `getSummary` returns the stored `totalToday`, `pagesVisited` and `lastReset`, a
`totalActive` equal to the number of sessions whose `isActive` is true, and `recentEvents`,
the first `min(10, n)` entries of the `n` entries of the log put in descending order of
timestamp. -/
theorem getSummary_returns_stats_and_recent_events (s : Store) :
    (getSummary s).1.totalToday = s.stats.totalToday ∧
    (getSummary s).1.pagesVisited = s.stats.pagesVisited ∧
    (getSummary s).1.lastReset = s.stats.lastReset ∧
    (getSummary s).1.totalActive = activeCount s ∧
    (getSummary s).1.recentEvents.length = min 10 s.events.length ∧
    ∃ sorted : List Event, sorted.Perm s.events ∧
      sorted.Sorted (fun a b => b.timestamp ≤ a.timestamp) ∧
      (getSummary s).1.recentEvents = sorted.take 10 := by
  have hrecent : (getSummary s).1.recentEvents =
      (sortDesc (fun e => e.timestamp) s.events).take 10 := by
    simp [getSummary, getEvents, truthy]
  refine ⟨rfl, rfl, rfl, ?_, ?_, sortDesc (fun e => e.timestamp) s.events, sortDesc_perm _ _,
    sortDesc_sorted _ _, hrecent⟩
  · show (getActiveSessions s).length = activeCount s
    exact getActiveSessions_length s
  · rw [hrecent, List.length_take, sortDesc_length]

/-- C15: `clearStats` leaves the log and the session table empty, `totalToday` and
`totalActive` at 0 and `pagesVisited` empty, and leaves the set of connected dashboards, hence
`getDashboardCount`, as it was. -/
theorem clearStats_clears_all_but_dashboards (toDateString : Time → Day) (s : Store)
    (now : Time) :
    (clearStats toDateString s now).events = [] ∧
    (clearStats toDateString s now).sessions = [] ∧
    (clearStats toDateString s now).stats.totalToday = 0 ∧
    (clearStats toDateString s now).stats.totalActive = 0 ∧
    (clearStats toDateString s now).stats.pagesVisited = [] ∧
    (clearStats toDateString s now).connectedDashboards = s.connectedDashboards ∧
    getDashboardCount (clearStats toDateString s now) = getDashboardCount s :=
  ⟨rfl, rfl, rfl, rfl, rfl, rfl, rfl⟩

/-! ## Active sessions, the activity flag and the session table -/

theorem filterMap_active_toSession (l : List (String × Session)) :
    (l.filterMap (fun kv =>
      if kv.2.isActive then
        some ({ toSession := kv.2,
                duration := (kv.2.lastActivity - kv.2.startTime) / 1000 } : ActiveSession)
      else none)).map (fun a => a.toSession) =
      (l.map Prod.snd).filter (fun x => x.isActive) := by
  induction l with
  | nil => rfl
  | cons kv rest ih =>
    by_cases h : kv.2.isActive = true
    · have hfil : (kv.2 :: rest.map Prod.snd).filter (fun x => x.isActive) =
          kv.2 :: (rest.map Prod.snd).filter (fun x => x.isActive) := List.filter_cons_of_pos h
      simp only [List.filterMap_cons, h, if_true, List.map_cons, ih, hfil]
    · have hfil : (kv.2 :: rest.map Prod.snd).filter (fun x => x.isActive) =
          (rest.map Prod.snd).filter (fun x => x.isActive) := List.filter_cons_of_neg h
      simp only [List.filterMap_cons, h, if_false, Bool.false_eq_true, List.map_cons, ih, hfil]

theorem duration_of_mem_getActiveSessions (s : Store) (a : ActiveSession)
    (h : a ∈ getActiveSessions s) : a.duration = (a.lastActivity - a.startTime) / 1000 := by
  unfold getActiveSessions at h
  simp only at h
  have h2 := (sortDesc_perm _ _).subset h
  rw [List.mem_filterMap] at h2
  obtain ⟨kv, _, hsome⟩ := h2
  by_cases hact : kv.2.isActive = true
  · simp only [hact, if_true, Option.some.injEq] at hsome
    rw [← hsome]
  · simp [hact] at hsome

/-- C25: `getActiveSessions` returns exactly the sessions of the table whose `isActive` is
true, each with `duration` equal to the floor of `(lastActivity - startTime) / 1000`, ordered
by `lastActivity` descending. -/
theorem getActiveSessions_returns_active_newest_first (s : Store) :
    ((getActiveSessions s).map (fun a => a.toSession)).Perm
      ((s.sessions.map Prod.snd).filter (fun x => x.isActive)) ∧
    (∀ a ∈ getActiveSessions s,
      a.duration = ⌊(((a.lastActivity - a.startTime : Int) : ℚ) / ((1000 : ℕ) : ℚ))⌋) ∧
    (getActiveSessions s).Sorted (fun a b => b.lastActivity ≤ a.lastActivity) := by
  refine ⟨?_, fun a ha => ?_, ?_⟩
  · rw [← filterMap_active_toSession]
    unfold getActiveSessions
    exact (sortDesc_perm _ _).map _
  · rw [Rat.floor_intCast_div_natCast]
    exact duration_of_mem_getActiveSessions s a ha
  · unfold getActiveSessions
    exact sortDesc_sorted _ _

theorem touchSession_isActive (now : Time) (event : Event) (x : Session) :
    (touchSession now event x).isActive =
      (x.isActive && !decide (event.type = "session_end") &&
        !decide (event.timestamp < now - 30 * 60 * 1000)) := by
  unfold touchSession
  simp only
  split_ifs <;>
    simp only [*, decide_True, decide_False, Bool.not_true, Bool.not_false, Bool.and_true,
      Bool.and_false, Bool.true_and, Bool.and_self]

theorem thirty_minutes_iff (now t : Int) :
    ¬ (t < now - 30 * 60 * 1000) ↔ now - 1800000 ≤ t := by
  constructor <;> intro h <;> omega

/-- C28: after `addEvent(e)` the session of `e.sessionId` exists, and its `isActive` is true
exactly when the session was newly created or was active before the call, `e.type` is not
`session_end`, and the timestamp of the event is not more than 30 minutes before the current
time. In particular an inactive session stays inactive, and an event stamped more than 30
minutes in the past leaves its session inactive. -/
theorem isActive_after_addEvent (toDateString : Time → Day) (s : Store) (now : Time)
    (event : EventInput) :
    (∃ session, getSession (addEvent toDateString s now event).2 event.sessionId = some session ∧
      (session.isActive = true ↔
        ((getSession s event.sessionId = none ∨
            ∃ old, getSession s event.sessionId = some old ∧ old.isActive = true) ∧
          event.type ≠ "session_end" ∧
          now - 1800000 ≤ (stamp now event).timestamp))) ∧
    (∀ old, getSession s event.sessionId = some old → old.isActive = false →
      ∃ session, getSession (addEvent toDateString s now event).2 event.sessionId = some session ∧
        session.isActive = false) ∧
    ((stamp now event).timestamp < now - 1800000 →
      ∃ session, getSession (addEvent toDateString s now event).2 event.sessionId = some session ∧
        session.isActive = false) := by
  have hget := getSession_addEvent toDateString s now event event.sessionId
  rw [if_pos rfl] at hget
  have hact := touchSession_isActive now (stamp now event)
    ((getSession s event.sessionId).getD (freshSession (stamp now event)))
  have htype : (stamp now event).type = event.type := rfl
  have hwin := thirty_minutes_iff now (stamp now event).timestamp
  refine ⟨⟨_, hget, ?_⟩, fun old hold hinactive => ⟨_, hget, ?_⟩, fun hpast => ⟨_, hget, ?_⟩⟩
  · rw [hact, htype, ← hwin]
    cases hold : getSession s event.sessionId with
    | none =>
      simp only [Option.getD_none, freshSession, Bool.true_and, Bool.and_eq_true,
        Bool.not_eq_true', decide_eq_false_iff_not, true_or, true_and, ne_eq]
    | some old =>
      simp only [Option.getD_some, Bool.and_eq_true, Bool.not_eq_true', decide_eq_false_iff_not,
        false_or, Option.some.injEq, exists_eq_left', reduceCtorEq, and_assoc, ne_eq]
  · rw [hact, hold, Option.getD_some, hinactive]
    rfl
  · rw [hact]
    have hlt : (stamp now event).timestamp < now - 30 * 60 * 1000 := by
      by_contra hcon
      exact absurd (hwin.mp hcon) (not_le.mpr hpast)
    rw [decide_eq_true hlt]
    simp only [Bool.not_true, Bool.and_false]

/-- A session that has ended gets a fresh pageview: it stays inactive. -/
theorem isActive_after_addEvent_witness :
    ∃ session,
      getSession
        (addEvent utcDay
          (addEvent utcDay storeTwoEvents 3000 (sessionEnd "s1" "/b" 3000)).2 4000
          (pageview "s1" "/c" 4000)).2 "s1" = some session ∧
      session.isActive = false :=
  (isActive_after_addEvent utcDay
    (addEvent utcDay storeTwoEvents 3000 (sessionEnd "s1" "/b" 3000)).2 4000
    (pageview "s1" "/c" 4000)).2.1
    { sessionId := "s1", journey := ["/a", "/b"], currentPage := "/b", startTime := 1000,
      lastActivity := 3000, country := some "US", isActive := false }
    (by decide) rfl

theorem mem_keys_of_mapGet {β : Type} (m : List (String × β)) (k : String) (v : β)
    (h : mapGet m k = some v) : k ∈ m.map Prod.fst :=
  List.mem_map_of_mem Prod.fst (mem_of_mapGet m k v h)

theorem mapGet_isSome_of_mem_keys {β : Type} (m : List (String × β)) (k : String)
    (h : k ∈ m.map Prod.fst) : (mapGet m k).isSome = true := by
  induction m with
  | nil => simp at h
  | cons hd tl ih =>
    obtain ⟨k1, v1⟩ := hd
    by_cases hk : k1 = k
    · simp [mapGet, hk]
    · simp only [List.map_cons, List.mem_cons] at h
      rcases h with h | h
      · exact absurd h.symm hk
      · simp only [mapGet, hk, if_false]
        exact ih h

theorem keys_subset_mapSet {β : Type} (m : List (String × β)) (k : String) (v : β) (x : String)
    (h : x ∈ m.map Prod.fst) : x ∈ (mapSet m k v).map Prod.fst := by
  induction m with
  | nil => simp at h
  | cons hd tl ih =>
    obtain ⟨k1, v1⟩ := hd
    simp only [List.map_cons, List.mem_cons] at h
    by_cases hk : k1 = k
    · simp only [mapSet, hk, if_true, List.map_cons, List.mem_cons]
      rcases h with h | h
      · exact Or.inl (h.trans hk)
      · exact Or.inr h
    · simp only [mapSet, hk, if_false, List.map_cons, List.mem_cons]
      rcases h with h | h
      · exact Or.inl h
      · exact Or.inr (ih h)

theorem sessions_grow_addEvent (td : Time → Day) (s : Store) (now : Time) (event : EventInput)
    (x : String) (h : x ∈ s.sessions.map Prod.fst) :
    x ∈ (addEvent td s now event).2.sessions.map Prod.fst := by
  rw [addEvent_sessions]
  exact keys_subset_mapSet _ _ _ _ h

theorem getEvents_events_perm (s : Store) (filter : Filter) :
    (getEvents s filter).2.events.Perm s.events := by
  cases hc : truthy filter.country <;> cases hp : truthy filter.page <;>
    cases ht : truthy filter.type <;> simp [getEvents, hc, hp, ht, sortDesc_perm]

theorem logged_sessions_step (td : Time → Day) (s : Store) (op : Op)
    (h : ∀ e ∈ s.events, e.sessionId ∈ s.sessions.map Prod.fst) :
    ∀ e ∈ (step td s op).events, e.sessionId ∈ (step td s op).sessions.map Prod.fst := by
  cases op with
  | addEvent now event =>
    intro e he
    simp only [step] at he ⊢
    have hin : e ∈ s.events ++ [stamp now event] := by
      rw [addEvent_events] at he
      split at he
      · exact List.mem_of_mem_drop he
      · exact he
    rcases List.mem_append.mp hin with h1 | h1
    · exact sessions_grow_addEvent td s now event _ (h e h1)
    · rw [List.mem_singleton] at h1
      rw [h1]
      have hget := getSession_addEvent td s now event event.sessionId
      rw [if_pos rfl] at hget
      exact mem_keys_of_mapGet _ _ _ hget
  | getEvents filter =>
    intro e he
    simp only [step] at he ⊢
    rw [getEvents_sessions]
    exact h e ((getEvents_events_perm s filter).subset he)
  | getSummary =>
    intro e he
    simp only [step] at he ⊢
    rw [getSummary_sessions]
    rw [getSummary_events] at he
    exact h e ((sortDesc_perm _ _).subset he)
  | clearStats now =>
    intro e he
    simp [step, clearStats] at he
  | addDashboard d => exact h
  | removeDashboard d => exact h

theorem logged_sessions_run (td : Time → Day) (ops : List Op) (s : Store)
    (h : ∀ e ∈ s.events, e.sessionId ∈ s.sessions.map Prod.fst) :
    ∀ e ∈ (run td s ops).events, e.sessionId ∈ (run td s ops).sessions.map Prod.fst := by
  induction ops generalizing s with
  | nil => simpa [run] using h
  | cons op rest ih =>
    have hrun : run td s (op :: rest) = run td (step td s op) rest := by simp [run]
    rw [hrun]
    exact ih _ (logged_sessions_step td s op h)

/-- C30: in every state reachable by `addEvent` and `clearStats` (and the queries), every entry
of the event log has a session in the session table under its `sessionId`; and in every store
`addEvent` removes no session: each `sessionId` of the table is still in it after the call,
as is the `sessionId` of the event. -/
theorem every_logged_event_has_a_session (toDateString : Time → Day) (s : Store) :
    (Reachable toDateString s →
      ∀ e ∈ s.events, ∃ session, getSession s e.sessionId = some session) ∧
    (∀ (now : Time) (event : EventInput) (sid : String),
      (∃ session, getSession s sid = some session) →
      ∃ session, getSession (addEvent toDateString s now event).2 sid = some session) ∧
    (∀ (now : Time) (event : EventInput),
      ∃ session, getSession (addEvent toDateString s now event).2 event.sessionId =
        some session) := by
  refine ⟨fun hreach e he => ?_, fun now event sid hex => ?_, fun now event => ?_⟩
  · obtain ⟨now, ops, rfl⟩ := hreach
    have hkeys := logged_sessions_run toDateString ops (newDataStorage toDateString now)
      (fun e he => by simp [newDataStorage] at he) e he
    exact Option.isSome_iff_exists.mp (mapGet_isSome_of_mem_keys _ _ hkeys)
  · obtain ⟨session, hs⟩ := hex
    have hkeys := sessions_grow_addEvent toDateString s now event sid
      (mem_keys_of_mapGet _ _ _ hs)
    exact Option.isSome_iff_exists.mp (mapGet_isSome_of_mem_keys _ _ hkeys)
  · have hget := getSession_addEvent toDateString s now event event.sessionId
    rw [if_pos rfl] at hget
    exact ⟨_, hget⟩

/-- After the calls of `opsABA` the log holds events of the sessions `s1` and `s2`, and both
are in the table. -/
theorem every_logged_event_has_a_session_witness :
    ∀ e ∈ (run utcDay store0 opsABA).events,
      ∃ session, getSession (run utcDay store0 opsABA) e.sessionId = some session :=
  (every_logged_event_has_a_session utcDay (run utcDay store0 opsABA)).1 ⟨0, opsABA, rfl⟩

end DataStorage

namespace WebSocketHandler

open DataStorage

/-! ## The subscription rule -/

/-- C16 as stated fails: a connection subscribed to `all` with the filter `{country: 'US'}`
gets the `visitor_update` of a bulk ingest, whose payload has no country; the rule as worded
asks for the payload's country to equal the filter. -/
theorem bulk_update_passes_country_filter :
    shouldReceiveUpdate (subscriber ["all"] (some "US") 0) "visitor_update" (some bulkPayload) =
      true ∧
    acceptsAsWorded (subscriber ["all"] (some "US") 0) "visitor_update" (some bulkPayload) =
      false := by
  decide

/-- C16, amended: `shouldReceiveUpdate` returns true exactly when the connection has no
subscription, or when `eventTypes` is empty or contains `all` or the update type, and there is
no payload or, for the payload, `filters.country` is unset or empty, or the payload's country
is missing or empty, or the two are equal, and `filters.page` is unset or empty, or the
payload's page is missing or empty, or it contains the filter as a substring. -/
theorem shouldReceiveUpdate_rule (connection : Connection) (updateType : String)
    (data : Option UpdatePayload) :
    shouldReceiveUpdate connection updateType data = true ↔
      (connection.subscriptions = none ∨
        ∃ subs, connection.subscriptions = some subs ∧
          (subs.eventTypes = [] ∨ "all" ∈ subs.eventTypes ∨ updateType ∈ subs.eventTypes) ∧
          (data = none ∨ ∃ d, data = some d ∧
            (truthy subs.filters.country = false ∨ truthy d.country = false ∨
              d.country = subs.filters.country) ∧
            (truthy subs.filters.page = false ∨ truthy d.page = false ∨
              includes (d.page.getD "") (subs.filters.page.getD "") = true))) := by
  unfold shouldReceiveUpdate
  cases hsub : connection.subscriptions with
  | none => simp
  | some subs =>
    simp only [false_or, Option.some.injEq, exists_eq_left']
    have htypes : (decide (subs.eventTypes.length > 0) && !subs.eventTypes.contains "all" &&
        !subs.eventTypes.contains updateType) = true ↔
        ¬ (subs.eventTypes = [] ∨ "all" ∈ subs.eventTypes ∨ updateType ∈ subs.eventTypes) := by
      cases hl : subs.eventTypes with
      | nil => simp
      | cons x rest => simp [List.contains_iff_exists_mem_beq]
    by_cases ht : (decide (subs.eventTypes.length > 0) && !subs.eventTypes.contains "all" &&
        !subs.eventTypes.contains updateType) = true
    · rw [if_pos ht]
      have := htypes.mp ht
      simp [this]
    · rw [if_neg ht]
      have hok : subs.eventTypes = [] ∨ "all" ∈ subs.eventTypes ∨
          updateType ∈ subs.eventTypes := by
        by_contra hcon
        exact ht (htypes.mpr hcon)
      cases data with
      | none => simp [hok]
      | some d =>
        simp only [hok, true_and, false_or, Option.some.injEq, exists_eq_left', reduceCtorEq]
        by_cases hk : filterKeys subs.filters > 0
        · simp only [hk, decide_True, if_true]
          cases hc : truthy subs.filters.country <;> cases hdc : truthy d.country <;>
            cases hp : truthy subs.filters.page <;> cases hdp : truthy d.page <;>
            by_cases heq : d.country = subs.filters.country <;>
            cases hinc : includes (d.page.getD "") (subs.filters.page.getD "") <;>
            simp [heq]
        · have hnone : subs.filters.country = none ∧ subs.filters.page = none := by
            unfold filterKeys at hk
            cases hc : subs.filters.country <;> cases hp : subs.filters.page <;>
              simp [hc, hp] at hk ⊢
          simp [hk, hnone.1, hnone.2, truthy]

/-- C17 as stated fails: for the subscription `{eventTypes: ['new_event'], filters:
{country: 'US'}}`, a `new_event` update whose event has the country `""`, which differs from
`'US'`, is delivered: the guard `data.country &&` skips the comparison. -/
theorem blank_country_event_is_delivered :
    (stamp 0 blankCountryPageview).country ≠ some "US" ∧
    shouldReceiveUpdate (subscriber ["new_event"] (some "US") 0) "new_event"
      (some (payloadOfEvent (stamp 0 blankCountryPageview))) = true := by
  decide

/-- C17, amended: for a connection subscribed with `eventTypes ['new_event']` and `filters
{country: c}`, `shouldReceiveUpdate` is true for a `new_event` update whose event has the
country `c`, false for a `new_event` update whose event has a non-empty country different from
a non-empty `c`, and false for every `visitor_update` update. -/
theorem country_subscription_rule (connection : Connection) (c : String) (t : Time)
    (hsub : connection.subscriptions =
      some { eventTypes := ["new_event"], filters := { country := some c, page := none },
             subscribedAt := t }) :
    (∀ e : Event, e.country = some c →
      shouldReceiveUpdate connection "new_event" (some (payloadOfEvent e)) = true) ∧
    (∀ (e : Event) (c2 : String), e.country = some c2 → c2 ≠ c → c ≠ "" → c2 ≠ "" →
      shouldReceiveUpdate connection "new_event" (some (payloadOfEvent e)) = false) ∧
    (∀ data : Option UpdatePayload,
      shouldReceiveUpdate connection "visitor_update" data = false) := by
  refine ⟨fun e he => ?_, fun e c2 he hne hc hc2 => ?_, fun data => ?_⟩
  · simp [shouldReceiveUpdate, hsub, payloadOfEvent, he, truthy, filterKeys]
  · simp [shouldReceiveUpdate, hsub, payloadOfEvent, he, truthy, truthyStr, filterKeys, hne,
      hc, hc2]
  · simp [shouldReceiveUpdate, hsub]

/-- The scenario of the specification: the filter `US`, an event from the US, an event from
Germany, and a `visitor_update`. -/
theorem country_subscription_rule_witness :
    shouldReceiveUpdate (subscriber ["new_event"] (some "US") 0) "new_event"
      (some (payloadOfEvent (stamp 0 (pageview "s1" "/a" 0)))) = true ∧
    shouldReceiveUpdate (subscriber ["new_event"] (some "US") 0) "new_event"
      (some (payloadOfEvent { stamp 0 (pageview "s1" "/a" 0) with country := some "DE" })) =
      false ∧
    shouldReceiveUpdate (subscriber ["new_event"] (some "US") 0) "visitor_update"
      (some (payloadOfEvent (stamp 0 (pageview "s1" "/a" 0)))) = false :=
  have h := country_subscription_rule (subscriber ["new_event"] (some "US") 0) "US" 0 rfl
  ⟨h.1 _ rfl, h.2.1 { stamp 0 (pageview "s1" "/a" 0) with country := some "DE" } "DE" rfl
    (by decide) (by decide) (by decide), h.2.2 _⟩

/-! ## Milestones -/

theorem broadcast_fold {μ : Type} (l : List (String × Connection)) (data : μ)
    (r : BroadcastResult μ) :
    (l.foldl (fun (r : BroadcastResult μ) kv =>
      if kv.2.ws.isOpen then
        if kv.2.ws.sendThrows then { r with failed := r.failed + 1 }
        else { r with sent := r.sent + 1, delivered := r.delivered ++ [(kv.1, data)] }
      else { r with failed := r.failed + 1 }) r).sent =
      r.sent + (l.filter (fun kv => kv.2.ws.isOpen && !kv.2.ws.sendThrows)).length ∧
    (l.foldl (fun (r : BroadcastResult μ) kv =>
      if kv.2.ws.isOpen then
        if kv.2.ws.sendThrows then { r with failed := r.failed + 1 }
        else { r with sent := r.sent + 1, delivered := r.delivered ++ [(kv.1, data)] }
      else { r with failed := r.failed + 1 }) r).failed =
      r.failed + (l.filter (fun kv => !(kv.2.ws.isOpen && !kv.2.ws.sendThrows))).length ∧
    (l.foldl (fun (r : BroadcastResult μ) kv =>
      if kv.2.ws.isOpen then
        if kv.2.ws.sendThrows then { r with failed := r.failed + 1 }
        else { r with sent := r.sent + 1, delivered := r.delivered ++ [(kv.1, data)] }
      else { r with failed := r.failed + 1 }) r).delivered =
      r.delivered ++
        (l.filter (fun kv => kv.2.ws.isOpen && !kv.2.ws.sendThrows)).map
          (fun kv => (kv.1, data)) := by
  induction l generalizing r with
  | nil => simp
  | cons kv rest ih =>
    rw [List.foldl_cons]
    cases ho : kv.2.ws.isOpen <;> cases ht : kv.2.ws.sendThrows
    all_goals
      obtain ⟨h1, h2, h3⟩ := ih _
      rw [h1, h2, h3]
      simp [List.filter_cons, ho, ht]
      try omega

theorem broadcastToAll_delivered {μ : Type} (connections : List (String × Connection))
    (data : μ) :
    (broadcastToAll connections data).delivered =
      (connections.filter (fun kv => kv.2.ws.isOpen && !kv.2.ws.sendThrows)).map
        (fun kv => (kv.1, data)) := by
  have h := (broadcast_fold connections data { sent := 0, failed := 0, delivered := [] }).2.2
  unfold broadcastToAll
  rw [h]
  rfl

theorem checkAndBroadcastMilestones_details (connections : List (String × Connection))
    (s : Store) (now : Time) (stats : Summary) :
    (checkAndBroadcastMilestones connections s now stats).alerts.map (fun a => a.details.type) =
      (if stats.totalToday ≠ 0 ∧ stats.totalToday % 100 = 0 then ["visitor_milestone"] else []) ++
      (if stats.totalActive ≠ 0 ∧ stats.totalActive ≥ 50 then ["concurrent_milestone"]
        else []) := by
  unfold checkAndBroadcastMilestones
  simp only [eventsProperty, List.append_nil, List.map_map, Function.comp_def, broadcastAlert,
    List.nil_append]
  by_cases h1 : stats.totalToday ≠ 0 ∧ stats.totalToday % 100 = 0 <;>
    by_cases h2 : stats.totalActive ≠ 0 ∧ stats.totalActive ≥ 50
  · have h1a := h1.1
    have h1b := h1.2
    have h2a := h2.1
    have h2b := h2.2
    simp [h1a, h1b, h2a, h2b]
  · have h1a := h1.1
    have h1b := h1.2
    have hc : (decide (stats.totalActive ≠ 0) && decide (stats.totalActive ≥ 50)) = false := by
      simpa using h2
    rw [if_pos h1, if_neg h2, hc]
    simp [h1a, h1b]
  · have h2a := h2.1
    have h2b := h2.2
    have hc : (decide (stats.totalToday ≠ 0) && decide (stats.totalToday % 100 = 0)) = false := by
      simpa using h1
    rw [if_neg h1, if_pos h2, hc]
    simp [h2a, h2b]
  · have hc1 : (decide (stats.totalToday ≠ 0) && decide (stats.totalToday % 100 = 0)) = false := by
      simpa using h1
    have hc2 : (decide (stats.totalActive ≠ 0) && decide (stats.totalActive ≥ 50)) = false := by
      simpa using h2
    rw [if_neg h1, if_neg h2, hc1, hc2]
    simp

theorem alertsOfType_eq (type : String) (outcome : MilestoneOutcome) :
    alertsOfType type outcome =
      ((outcome.alerts.map (fun a => a.details.type)).filter (fun x => decide (x = type))).length := by
  unfold alertsOfType
  rw [List.filter_map, List.length_map]
  rfl

theorem checkAndBroadcastMilestones_alerts (connections : List (String × Connection))
    (s : Store) (now : Time) (stats : Summary) :
    (checkAndBroadcastMilestones connections s now stats).alerts =
      (if stats.totalToday ≠ 0 ∧ stats.totalToday % 100 = 0 then
        [visitorMilestoneAlert now stats.totalToday] else []) ++
      (if stats.totalActive ≠ 0 ∧ stats.totalActive ≥ 50 then
        [concurrentMilestoneAlert now stats.totalActive] else []) := by
  unfold checkAndBroadcastMilestones
  simp only [eventsProperty, List.append_nil, List.map_map, Function.comp_def, broadcastAlert,
    List.nil_append]
  by_cases h1 : stats.totalToday ≠ 0 ∧ stats.totalToday % 100 = 0 <;>
    by_cases h2 : stats.totalActive ≠ 0 ∧ stats.totalActive ≥ 50
  · have h1a := h1.1
    have h1b := h1.2
    have h2a := h2.1
    have h2b := h2.2
    simp [h1a, h1b, h2a, h2b, visitorMilestoneAlert, concurrentMilestoneAlert]
  · have h1a := h1.1
    have h1b := h1.2
    have hc : (decide (stats.totalActive ≠ 0) && decide (stats.totalActive ≥ 50)) = false := by
      simpa using h2
    rw [if_pos h1, if_neg h2, hc]
    simp [h1a, h1b, visitorMilestoneAlert]
  · have h2a := h2.1
    have h2b := h2.2
    have hc : (decide (stats.totalToday ≠ 0) && decide (stats.totalToday % 100 = 0)) = false := by
      simpa using h1
    rw [if_neg h1, if_pos h2, hc]
    simp [h2a, h2b, concurrentMilestoneAlert]
  · have hc1 : (decide (stats.totalToday ≠ 0) && decide (stats.totalToday % 100 = 0)) = false := by
      simpa using h1
    have hc2 : (decide (stats.totalActive ≠ 0) && decide (stats.totalActive ≥ 50)) = false := by
      simpa using h2
    rw [if_neg h1, if_neg h2, hc1, hc2]
    simp

theorem checkAndBroadcastMilestones_delivered (connections : List (String × Connection))
    (s : Store) (now : Time) (stats : Summary) :
    (checkAndBroadcastMilestones connections s now stats).delivered =
      ((checkAndBroadcastMilestones connections s now stats).alerts.map (fun a =>
        (reached connections).map (fun kv => (kv.1, a)))).flatten := by
  unfold checkAndBroadcastMilestones
  simp only [List.map_map, Function.comp_def, broadcastAlert, broadcastToAll_delivered, reached]

theorem filter_deliveries_same_type (type : String) (a : Alert)
    (l : List (String × Connection)) (h : a.details.type = type) :
    (l.map (fun kv => (kv.1, a))).filter (fun d => decide (d.2.details.type = type)) =
      l.map (fun kv => (kv.1, a)) := by
  rw [List.filter_eq_self]
  intro d hd
  obtain ⟨kv, _, rfl⟩ := List.mem_map.mp hd
  simpa using h

theorem filter_deliveries_other_type (type : String) (a : Alert)
    (l : List (String × Connection)) (h : a.details.type ≠ type) :
    (l.map (fun kv => (kv.1, a))).filter (fun d => decide (d.2.details.type = type)) = [] := by
  rw [List.filter_eq_nil_iff]
  intro d hd
  obtain ⟨kv, _, rfl⟩ := List.mem_map.mp hd
  simpa using h

theorem visitor_milestone_deliveries (connections : List (String × Connection)) (s : Store)
    (now : Time) (stats : Summary) :
    (checkAndBroadcastMilestones connections s now stats).delivered.filter
        (fun d => decide (d.2.details.type = "visitor_milestone")) =
      if 0 < stats.totalToday ∧ stats.totalToday % 100 = 0 then
        (reached connections).map (fun kv => (kv.1, visitorMilestoneAlert now stats.totalToday))
      else [] := by
  have hv : (visitorMilestoneAlert now stats.totalToday).details.type = "visitor_milestone" := rfl
  have hc : (concurrentMilestoneAlert now stats.totalActive).details.type ≠
      "visitor_milestone" := by
    show "concurrent_milestone" ≠ "visitor_milestone"
    decide
  rw [checkAndBroadcastMilestones_delivered, checkAndBroadcastMilestones_alerts]
  by_cases h1 : stats.totalToday ≠ 0 ∧ stats.totalToday % 100 = 0 <;>
    by_cases h2 : stats.totalActive ≠ 0 ∧ stats.totalActive ≥ 50
  · rw [if_pos h1, if_pos h2, if_pos ⟨Nat.pos_of_ne_zero h1.1, h1.2⟩]
    simp only [List.singleton_append, List.map_cons, List.map_nil, List.flatten_cons,
      List.flatten_nil, List.append_nil, List.filter_append,
      filter_deliveries_same_type _ _ _ hv, filter_deliveries_other_type _ _ _ hc]
  · rw [if_pos h1, if_neg h2, if_pos ⟨Nat.pos_of_ne_zero h1.1, h1.2⟩]
    simp only [List.append_nil, List.map_cons, List.map_nil, List.flatten_cons,
      List.flatten_nil, filter_deliveries_same_type _ _ _ hv]
  · rw [if_neg h1, if_pos h2, if_neg (fun h => h1 ⟨Nat.pos_iff_ne_zero.mp h.1, h.2⟩)]
    simp only [List.nil_append, List.map_cons, List.map_nil, List.flatten_cons,
      List.flatten_nil, List.append_nil, filter_deliveries_other_type _ _ _ hc]
  · rw [if_neg h1, if_neg h2, if_neg (fun h => h1 ⟨Nat.pos_iff_ne_zero.mp h.1, h.2⟩)]
    rfl

theorem visitor_milestone_count (connections : List (String × Connection)) (s : Store)
    (now : Time) (stats : Summary) :
    alertsOfType "visitor_milestone" (checkAndBroadcastMilestones connections s now stats) =
      (if 0 < stats.totalToday ∧ stats.totalToday % 100 = 0 then 1 else 0) := by
  rw [alertsOfType_eq, checkAndBroadcastMilestones_details]
  by_cases h1 : stats.totalToday ≠ 0 ∧ stats.totalToday % 100 = 0 <;>
    by_cases h2 : stats.totalActive ≠ 0 ∧ stats.totalActive ≥ 50
  · rw [if_pos h1, if_pos h2, if_pos ⟨Nat.pos_of_ne_zero h1.1, h1.2⟩]
    rfl
  · rw [if_pos h1, if_neg h2, if_pos ⟨Nat.pos_of_ne_zero h1.1, h1.2⟩]
    rfl
  · rw [if_neg h1, if_pos h2, if_neg (fun h => h1 ⟨Nat.pos_iff_ne_zero.mp h.1, h.2⟩)]
    rfl
  · rw [if_neg h1, if_neg h2, if_neg (fun h => h1 ⟨Nat.pos_iff_ne_zero.mp h.1, h.2⟩)]
    rfl

/-- C18: `checkAndBroadcastMilestones` hands one `visitor_milestone` alert to `broadcastToAll`
when `stats.totalToday` is a positive multiple of 100 and none otherwise, and the alert is
sent: the `visitor_milestone` alerts delivered are one copy of the alert of `totalToday`
visitors, stamped `now`, to every connection whose socket is open and whose `send` does not
throw when `totalToday` is a positive multiple of 100, and none otherwise. At 100 there is one
alert, delivered to each such connection; at 101 there is none and nothing is delivered. -/
theorem visitor_milestone_rule (connections : List (String × Connection)) (s : Store)
    (now : Time) (stats : Summary) :
    alertsOfType "visitor_milestone" (checkAndBroadcastMilestones connections s now stats) =
      (if 0 < stats.totalToday ∧ stats.totalToday % 100 = 0 then 1 else 0) ∧
    alertsOfType "visitor_milestone"
      (checkAndBroadcastMilestones connections s now
        { stats with totalToday := 100 }) = 1 ∧
    alertsOfType "visitor_milestone"
      (checkAndBroadcastMilestones connections s now
        { stats with totalToday := 101 }) = 0 ∧
    (checkAndBroadcastMilestones connections s now stats).delivered.filter
        (fun d => decide (d.2.details.type = "visitor_milestone")) =
      (if 0 < stats.totalToday ∧ stats.totalToday % 100 = 0 then
        (reached connections).map (fun kv => (kv.1, visitorMilestoneAlert now stats.totalToday))
      else []) ∧
    (checkAndBroadcastMilestones connections s now
        { stats with totalToday := 100 }).delivered.filter
        (fun d => decide (d.2.details.type = "visitor_milestone")) =
      (reached connections).map (fun kv => (kv.1, visitorMilestoneAlert now 100)) ∧
    (checkAndBroadcastMilestones connections s now
        { stats with totalToday := 101 }).delivered.filter
        (fun d => decide (d.2.details.type = "visitor_milestone")) = [] := by
  have h100 : (0 : Nat) < 100 ∧ 100 % 100 = 0 := by decide
  have h101 : ¬ ((0 : Nat) < 101 ∧ 101 % 100 = 0) := by decide
  refine ⟨visitor_milestone_count connections s now stats, ?_, ?_,
    visitor_milestone_deliveries connections s now stats, ?_, ?_⟩
  · rw [visitor_milestone_count]
    exact if_pos h100
  · rw [visitor_milestone_count]
    exact if_neg h101
  · rw [visitor_milestone_deliveries]
    exact if_pos h100
  · rw [visitor_milestone_deliveries]
    exact if_neg h101

theorem traffic_spike_never_broadcast (connections : List (String × Connection)) (s : Store)
    (now : Time) (stats : Summary) :
    alertsOfType "traffic_spike" (checkAndBroadcastMilestones connections s now stats) = 0 := by
  rw [alertsOfType_eq, checkAndBroadcastMilestones_details]
  by_cases h1 : stats.totalToday ≠ 0 ∧ stats.totalToday % 100 = 0 <;>
    by_cases h2 : stats.totalActive ≠ 0 ∧ stats.totalActive ≥ 50
  · rw [if_pos h1, if_pos h2]
    rfl
  · rw [if_pos h1, if_neg h2]
    rfl
  · rw [if_neg h1, if_pos h2]
    rfl
  · rw [if_neg h1, if_neg h2]
    rfl

/-- C19, evaluated on the code: five events are ingested at the times 1000 to 5000 and the
check runs at time 5000 with the summary of the store, as the route does. All five entries of
the log are stamped within the last 60 seconds, and no alert is broadcast: the check reads the
property `events` of the array that `getEvents` returns, which an array does not have. -/
theorem traffic_spike_not_detected :
    ((getEvents (getSummary storeFiveEvents).2 limitFilter).1.take 10).countP
      (fun e => decide (e.timestamp > 5000 - 60000)) = 5 ∧
    (checkAndBroadcastMilestones registry3 (getSummary storeFiveEvents).2 5000
      (getSummary storeFiveEvents).1).alerts = [] := by
  decide

/-! ## The cleanup of the registry -/

theorem mapDelete_append_of_not_mem {β : Type} (kept rest : List (String × β)) (k : String)
    (v : β) (h : k ∉ kept.map Prod.fst) :
    mapDelete (kept ++ (k, v) :: rest) k = kept ++ rest := by
  induction kept with
  | nil => simp [mapDelete]
  | cons hd tl ih =>
    obtain ⟨k1, v1⟩ := hd
    simp only [List.map_cons, List.mem_cons, not_or] at h
    have hk : k1 ≠ k := fun hk => h.1 hk.symm
    show mapDelete ((k1, v1) :: (tl ++ (k, v) :: rest)) k = (k1, v1) :: (tl ++ rest)
    rw [mapDelete, if_neg hk, ih h.2]

theorem swept_iff_not_kept (now lastActivity : Int) (isOpen : Bool) :
    (decide (now - lastActivity > 5 * 60 * 1000) || !isOpen) =
      !(isOpen && decide (now - lastActivity ≤ 300000)) := by
  cases isOpen
  · simp
  · simp only [Bool.not_true, Bool.or_false, Bool.true_and]
    rw [Bool.eq_iff_iff]
    simp only [decide_eq_true_eq, Bool.not_eq_true', decide_eq_false_iff_not]
    constructor <;> intro h <;> omega

theorem sweepEntry_eq (now : Time) (acc : List (String × Connection) × Store × Nat)
    (kv : String × Connection) :
    sweepEntry now acc kv =
      if keptByCleanup now kv.2 then acc
      else (mapDelete acc.1 kv.1,
        { acc.2.1 with connectedDashboards := setDelete acc.2.1.connectedDashboards kv.1 },
        acc.2.2 + 1) := by
  unfold sweepEntry keptByCleanup
  simp only [swept_iff_not_kept now kv.2.lastActivity kv.2.ws.isOpen, removeDashboard]
  cases (kv.2.ws.isOpen && decide (now - kv.2.lastActivity ≤ 300000)) <;> rfl

theorem setDelete_filter (dashboards : List String) (ids : List String) (k : String) :
    (setDelete dashboards k).filter (fun d => decide (d ∉ ids)) =
      dashboards.filter (fun d => decide (d ∉ k :: ids)) := by
  unfold setDelete
  rw [List.filter_filter]
  apply List.filter_congr
  intro d _
  by_cases h1 : d = k <;> by_cases h2 : d ∈ ids <;> simp [h1, h2]

theorem sweep_fold (now : Time) (l kept : List (String × Connection)) (s : Store) (n : Nat)
    (hnodup : ((kept ++ l).map Prod.fst).Nodup) :
    l.foldl (sweepEntry now) (kept ++ l, s, n) =
      (kept ++ l.filter (fun kv => keptByCleanup now kv.2),
        { s with connectedDashboards :=
            s.connectedDashboards.filter (fun d => decide (d ∉ sweptIds now l)) },
        n + (sweptIds now l).length) := by
  induction l generalizing kept s n with
  | nil =>
    simp [sweptIds]
  | cons kv rest ih =>
    rw [List.foldl_cons, sweepEntry_eq]
    by_cases hk : keptByCleanup now kv.2 = true
    · rw [if_pos hk]
      have hnd : (((kept ++ [kv]) ++ rest).map Prod.fst).Nodup := by
        rw [List.append_assoc]
        exact hnodup
      have h := ih (kept ++ [kv]) s n hnd
      rw [List.append_assoc] at h
      rw [show kept ++ kv :: rest = kept ++ ([kv] ++ rest) from rfl, h]
      have hids : sweptIds now (kv :: rest) = sweptIds now rest := by
        unfold sweptIds
        have hfil : (kv :: rest).filter (fun kv => !keptByCleanup now kv.2) =
            rest.filter (fun kv => !keptByCleanup now kv.2) :=
          List.filter_cons_of_neg (by simp [hk])
        rw [hfil]
      have hfil : (kv :: rest).filter (fun kv => keptByCleanup now kv.2) =
          kv :: rest.filter (fun kv => keptByCleanup now kv.2) := List.filter_cons_of_pos hk
      rw [hids, hfil, List.append_assoc]
      rfl
    · rw [if_neg hk]
      obtain ⟨k, c⟩ := kv
      have hnotin : k ∉ kept.map Prod.fst := by
        intro hin
        rw [List.map_append, List.map_cons] at hnodup
        have := (List.nodup_append.mp hnodup).2.2
        exact this hin (List.mem_cons_self _ _)
      have hnd : ((kept ++ rest).map Prod.fst).Nodup := by
        rw [List.map_append, List.map_cons] at hnodup
        rw [List.map_append]
        exact hnodup.sublist
          (List.Sublist.append_left (List.sublist_cons_self _ _) _)
      simp only
      rw [mapDelete_append_of_not_mem kept rest k c hnotin, ih kept _ (n + 1) hnd]
      have hids : sweptIds now ((k, c) :: rest) = k :: sweptIds now rest := by
        unfold sweptIds
        have hfil : ((k, c) :: rest).filter (fun kv => !keptByCleanup now kv.2) =
            (k, c) :: rest.filter (fun kv => !keptByCleanup now kv.2) :=
          List.filter_cons_of_pos (by simpa using hk)
        rw [hfil]
        rfl
      have hfil : ((k, c) :: rest).filter (fun kv => keptByCleanup now kv.2) =
          rest.filter (fun kv => keptByCleanup now kv.2) := List.filter_cons_of_neg hk
      rw [hids, hfil]
      simp only [setDelete_filter, List.length_cons]
      congr 2
      omega

/-- C20: for a registry with pairwise distinct ids, `cleanupInactiveConnections` leaves exactly
the connections that were in it whose socket is open and whose `lastActivity` is not more than
5 minutes before `now`, in their order; the dashboard set of the store loses exactly the ids of
the connections removed, so none of them is left in it, and `cleaned` is their number. -/
theorem cleanup_keeps_open_recent_connections (connections : List (String × Connection))
    (s : Store) (now : Time) (hnodup : (connections.map Prod.fst).Nodup) :
    (cleanupInactiveConnections connections s now).connections =
      connections.filter (fun kv => keptByCleanup now kv.2) ∧
    (cleanupInactiveConnections connections s now).store.connectedDashboards =
      s.connectedDashboards.filter (fun d => decide (d ∉ sweptIds now connections)) ∧
    (∀ kv ∈ connections, keptByCleanup now kv.2 = false →
      kv.1 ∉ (cleanupInactiveConnections connections s now).store.connectedDashboards) ∧
    (cleanupInactiveConnections connections s now).cleaned =
      (sweptIds now connections).length := by
  have h := sweep_fold now connections [] s 0 (by simpa using hnodup)
  simp only [List.nil_append, Nat.zero_add] at h
  have h1 : (cleanupInactiveConnections connections s now).connections =
      connections.filter (fun kv => keptByCleanup now kv.2) := by
    unfold cleanupInactiveConnections
    simp only [h]
  have h2 : (cleanupInactiveConnections connections s now).store.connectedDashboards =
      s.connectedDashboards.filter (fun d => decide (d ∉ sweptIds now connections)) := by
    unfold cleanupInactiveConnections
    simp only [h]
  have h3 : (cleanupInactiveConnections connections s now).cleaned =
      (sweptIds now connections).length := by
    unfold cleanupInactiveConnections
    simp only [h]
  refine ⟨h1, h2, fun kv hkv hswept hmem => ?_, h3⟩
  rw [h2, List.mem_filter] at hmem
  have hin : kv.1 ∈ sweptIds now connections := by
    unfold sweptIds
    exact List.mem_map_of_mem Prod.fst (List.mem_filter.mpr ⟨hkv, by simp [hswept]⟩)
  simp [hin] at hmem

/-- Three dashboards at time 600000: the one active 100 seconds ago stays, the one silent for
ten minutes and the one whose socket is closed leave the registry and the dashboard set. -/
theorem cleanup_keeps_open_recent_connections_witness :
    (registry3.map Prod.fst).Nodup ∧
    (cleanupInactiveConnections registry3 storeThreeDashboards 600000).connections.map Prod.fst =
      ["d1"] ∧
    (cleanupInactiveConnections registry3 storeThreeDashboards 600000).store.connectedDashboards =
      ["d1"] :=
  have hnodup : (registry3.map Prod.fst).Nodup := by decide
  have h := cleanup_keeps_open_recent_connections registry3 storeThreeDashboards 600000 hnodup
  ⟨hnodup, by rw [h.1]; decide, by rw [h.2.1]; decide⟩

/-! ## The fan-out -/

/-- C24: `broadcastToAll` goes through every registered connection. A connection whose socket
is open and whose `send` does not throw receives the message and is counted in `sent`; every
other connection, a throwing `send` included, is counted in `failed` and the loop goes on; so
`sent + failed` is the number of registered connections. -/
theorem broadcastToAll_reaches_every_connection {μ : Type}
    (connections : List (String × Connection)) (data : μ) :
    (broadcastToAll connections data).sent + (broadcastToAll connections data).failed =
      connections.length ∧
    (broadcastToAll connections data).delivered =
      (connections.filter (fun kv => kv.2.ws.isOpen && !kv.2.ws.sendThrows)).map
        (fun kv => (kv.1, data)) ∧
    (broadcastToAll connections data).sent =
      (connections.filter (fun kv => kv.2.ws.isOpen && !kv.2.ws.sendThrows)).length ∧
    (broadcastToAll connections data).failed =
      (connections.filter (fun kv => !(kv.2.ws.isOpen && !kv.2.ws.sendThrows))).length := by
  obtain ⟨h1, h2, h3⟩ := broadcast_fold connections data { sent := 0, failed := 0, delivered := [] }
  unfold broadcastToAll
  rw [h1, h2, h3]
  refine ⟨?_, by simp, by simp, by simp⟩
  simp only [Nat.zero_add]
  have hsplit := List.length_eq_length_filter_add
    (l := connections) (fun kv => kv.2.ws.isOpen && !kv.2.ws.sendThrows)
  rw [hsplit]


/-! ## Client messages -/

theorem keys_mapSet_eq_setAdd {β : Type} (m : List (String × β)) (k : String) (v : β) :
    (mapSet m k v).map Prod.fst = setAdd (m.map Prod.fst) k := by
  induction m with
  | nil => simp [mapSet, setAdd]
  | cons hd tl ih =>
    obtain ⟨k1, v1⟩ := hd
    by_cases hk : k1 = k
    · subst hk
      simp [mapSet, setAdd]
    · have hk2 : ¬ k = k1 := fun h => hk h.symm
      simp only [mapSet, if_neg hk, List.map_cons, ih, setAdd, List.mem_cons, hk2, false_or]
      split <;> rfl

theorem setAdd_of_mem (st : List String) (x : String) (h : x ∈ st) : setAdd st x = st := by
  unfold setAdd
  rw [if_pos h]

theorem recordActivity_of_registered (connections : List (String × Connection)) (now : Time)
    (connectionId : String) (connection : Connection)
    (hreg : mapGet connections connectionId = some connection) :
    recordActivity connections now connectionId =
      mapSet connections connectionId { connection with lastActivity := now } := by
  unfold recordActivity
  rw [hreg]

theorem handleSessionDetailsRequest_sent (connections : List (String × Connection)) (s : Store)
    (now : Time) (connectionId : String) (data : ClientMessage) (connection : Connection)
    (hreg : mapGet connections connectionId = some connection)
    (hopen : connection.ws.isOpen = true) :
    (handleSessionDetailsRequest connections s now connectionId data).sent =
      [(connectionId, .requestError "Failed to fetch session details"
        "dataStorage.getSessionById is not a function" data.requestId)] := by
  simp only [handleSessionDetailsRequest, getSessionById, replyRequestError, hreg, sendToClient,
    hopen, if_true]

/-- C21 as stated fails: the message `null` parses, and its type is none of the eight handled
types, but the reply of the open dashboard `d1` is the message `Invalid message format` of the
`catch` block, which names no type: reading `data.type` of `null` throws. -/
theorem null_message_reply_names_no_type :
    mapGet registry3 "d1" = some (subscriber ["all"] none 500000) ∧
    (subscriber ["all"] none 500000).ws.isOpen = true ∧
    (handleClientMessage registry3 store0 600000 "d1" .null).sent =
      [("d1", .formatError "Invalid message format"
        "Cannot read properties of null (reading 'type')")] := by
  refine ⟨rfl, rfl, ?_⟩
  simp only [handleClientMessage, replyFormatError,
    recordActivity_of_registered registry3 600000 "d1" (subscriber ["all"] none 500000) rfl,
    mapGet_mapSet_self, sendToClient]
  rfl

/-- C21, amended: for a registered connection with an open socket, a message that parses to an
object whose `type` is missing or is a string other than the eight handled types makes
`handleClientMessage` send that connection exactly one message, an `error` whose text is
`Unknown message type: ` followed by the type (`undefined` when it is missing); the message
`null` makes it send exactly one `error` whose text is `Invalid message format`. In both cases
the connection stays in the registry with the same socket, no entry of the registry is removed,
and the store is untouched. -/
theorem unknown_type_gets_error_reply (connections : List (String × Connection)) (s : Store)
    (now : Time) (connectionId : String) (connection : Connection)
    (hreg : mapGet connections connectionId = some connection)
    (hopen : connection.ws.isOpen = true) :
    (∀ data : ClientMessage, (∀ t ∈ handledTypes, data.type ≠ some t) →
      (handleClientMessage connections s now connectionId (.message data)).sent =
        [(connectionId,
          .unknownTypeError ("Unknown message type: " ++ data.type.getD "undefined")
            data.json)] ∧
      (ServerMessage.unknownTypeError ("Unknown message type: " ++ data.type.getD "undefined")
        data.json).type = "error" ∧
      mapGet (handleClientMessage connections s now connectionId (.message data)).connections
        connectionId = some { connection with lastActivity := now } ∧
      (handleClientMessage connections s now connectionId (.message data)).connections.map
        Prod.fst = connections.map Prod.fst ∧
      (handleClientMessage connections s now connectionId (.message data)).store = s) ∧
    ((handleClientMessage connections s now connectionId .null).sent =
        [(connectionId, .formatError "Invalid message format"
          "Cannot read properties of null (reading 'type')")] ∧
      (ServerMessage.formatError "Invalid message format"
        "Cannot read properties of null (reading 'type')").type = "error" ∧
      mapGet (handleClientMessage connections s now connectionId .null).connections
        connectionId = some { connection with lastActivity := now } ∧
      (handleClientMessage connections s now connectionId .null).connections.map Prod.fst =
        connections.map Prod.fst ∧
      (handleClientMessage connections s now connectionId .null).store = s) := by
  have hkeys : (mapSet connections connectionId { connection with lastActivity := now }).map
      Prod.fst = connections.map Prod.fst := by
    rw [keys_mapSet_eq_setAdd, setAdd_of_mem _ _ (mem_keys_of_mapGet _ _ _ hreg)]
  refine ⟨fun data hunknown => ?_, ?_⟩
  · have h1 := hunknown "request_detailed_stats" (by simp [handledTypes])
    have h2 := hunknown "track_dashboard_action" (by simp [handledTypes])
    have h3 := hunknown "request_filtered_data" (by simp [handledTypes])
    have h4 := hunknown "request_chart_data" (by simp [handledTypes])
    have h5 := hunknown "request_session_details" (by simp [handledTypes])
    have h6 := hunknown "heartbeat" (by simp [handledTypes])
    have h7 := hunknown "subscribe_to_events" (by simp [handledTypes])
    have h8 := hunknown "dashboard_focus_change" (by simp [handledTypes])
    have hout : handleClientMessage connections s now connectionId (.message data) =
        { connections := mapSet connections connectionId { connection with lastActivity := now }
          store := s
          sent := [(connectionId,
            .unknownTypeError ("Unknown message type: " ++ data.type.getD "undefined")
              data.json)] } := by
      simp only [handleClientMessage, recordActivity_of_registered connections now connectionId
        connection hreg, if_neg h1, if_neg h2, if_neg h3, if_neg h4, if_neg h5, if_neg h6,
        if_neg h7, if_neg h8, mapGet_mapSet_self, sendToClient, hopen, if_true]
    rw [hout]
    exact ⟨rfl, rfl, mapGet_mapSet_self _ _ _, hkeys, rfl⟩
  · have hout : handleClientMessage connections s now connectionId .null =
        { connections := mapSet connections connectionId { connection with lastActivity := now }
          store := s
          sent := [(connectionId, .formatError "Invalid message format"
            "Cannot read properties of null (reading 'type')")] } := by
      simp only [handleClientMessage, replyFormatError, recordActivity_of_registered connections
        now connectionId connection hreg, mapGet_mapSet_self, sendToClient, hopen, if_true]
    rw [hout]
    exact ⟨rfl, rfl, mapGet_mapSet_self _ _ _, hkeys, rfl⟩

/-- A message of type `ping` from the dashboard `d1` of the example registry. -/
theorem unknown_type_gets_error_reply_witness :
    mapGet registry3 "d1" = some (subscriber ["all"] none 500000) ∧
    (handleClientMessage registry3 store0 600000 "d1" (.message (messageOfType "ping"))).sent =
      [("d1", .unknownTypeError "Unknown message type: ping" (messageOfType "ping").json)] ∧
    (handleClientMessage registry3 store0 600000 "d1"
      (.message (messageOfType "ping"))).connections.map Prod.fst = ["d1", "d2", "d3"] :=
  ⟨rfl,
    ((unknown_type_gets_error_reply registry3 store0 600000 "d1"
      (subscriber ["all"] none 500000) rfl rfl).1 (messageOfType "ping") (by decide)).1,
    ((unknown_type_gets_error_reply registry3 store0 600000 "d1"
      (subscriber ["all"] none 500000) rfl rfl).1 (messageOfType "ping") (by decide)).2.2.2.1⟩

/-- C22, evaluated on the code: the store holds the session `s1`, and the open dashboard `d1`
asks for its details. The one message sent back is an `error` message that carries the error
raised by the lookup, `dataStorage.getSessionById is not a function`; no
`session_details_response` is sent. The handler calls a method that the store does not have;
the lookup of the store is `getSession`. -/
theorem session_details_request_gets_error :
    (getSession storeTwoEvents "s1").isSome = true ∧
    (handleClientMessage registry3 storeTwoEvents 600000 "d1"
      (.message sessionDetailsRequest)).sent =
      [("d1", .requestError "Failed to fetch session details"
        "dataStorage.getSessionById is not a function" (some "r1"))] ∧
    (handleClientMessage registry3 storeTwoEvents 600000 "d1"
      (.message sessionDetailsRequest)).sent.map (fun m => m.2.type) = ["error"] := by
  have hreg : mapGet (recordActivity registry3 600000 "d1") "d1" =
      some { subscriber ["all"] none 500000 with lastActivity := 600000 } := by
    rw [recordActivity_of_registered registry3 600000 "d1" (subscriber ["all"] none 500000) rfl]
    exact mapGet_mapSet_self _ _ _
  have hsent : (handleClientMessage registry3 storeTwoEvents 600000 "d1"
      (.message sessionDetailsRequest)).sent =
      [("d1", .requestError "Failed to fetch session details"
        "dataStorage.getSessionById is not a function" (some "r1"))] :=
    handleSessionDetailsRequest_sent _ storeTwoEvents 600000 "d1" sessionDetailsRequest _ hreg rfl
  refine ⟨by decide, hsent, ?_⟩
  rw [hsent]
  rfl

/-- C23 as stated fails: the reply to a heartbeat of the dashboard `d1` is an object with the
two top-level keys `type` and `data`; it has no top-level key `timestamp`. -/
theorem heartbeat_reply_has_no_timestamp_field :
    (handleHeartbeat registry3 store0 600000 "d1").sent.map (fun m => (m.1, m.2.json.keys)) =
      [("d1", ["type", "data"])] ∧
    ((handleHeartbeat registry3 store0 600000 "d1").sent.map
      (fun m => m.2.json.get "timestamp")) = [none] := by
  constructor <;> rfl

/-- C23, amended: every message the server sends to a client is an object with exactly the two
top-level fields `type` and `data`, in that order; there is no top-level `timestamp`, and a
time, where a message carries one, is a field of `data`. -/
theorem server_message_has_type_and_data (m : ServerMessage) :
    m.json.keys = ["type", "data"] ∧ m.json.get "type" = some (.str m.type) ∧
    m.json.get "data" = some m.data ∧ m.json.get "timestamp" = none := by
  refine ⟨rfl, ?_, ?_, ?_⟩ <;>
    simp [ServerMessage.json, objOf, Json.get, mapGet]

/-! ## The registry and the dashboard set -/

theorem keys_mapDelete_eq_setDelete {β : Type} (m : List (String × β)) (k : String)
    (h : (m.map Prod.fst).Nodup) : (mapDelete m k).map Prod.fst = setDelete (m.map Prod.fst) k := by
  induction m with
  | nil => simp [mapDelete, setDelete]
  | cons hd tl ih =>
    obtain ⟨k1, v1⟩ := hd
    simp only [List.map_cons, List.nodup_cons] at h
    by_cases hk : k1 = k
    · subst hk
      simp only [mapDelete, if_true, setDelete, List.map_cons]
      rw [List.filter_cons_of_neg (by simp)]
      symm
      rw [List.filter_eq_self]
      intro a ha
      have hne : a ≠ k1 := fun hak => h.1 (hak ▸ ha)
      simpa using hne
    · simp only [mapDelete, if_neg hk, List.map_cons, ih h.2, setDelete]
      rw [List.filter_cons_of_pos (by simpa using hk)]

theorem getSummary_connectedDashboards (s : Store) :
    (getSummary s).2.connectedDashboards = s.connectedDashboards := by
  simp [getSummary, getEvents, truthy]

theorem keys_filter_kept (now : Time) (connections : List (String × Connection))
    (hnodup : (connections.map Prod.fst).Nodup) :
    (connections.filter (fun kv => keptByCleanup now kv.2)).map Prod.fst =
      (connections.map Prod.fst).filter (fun d => decide (d ∉ sweptIds now connections)) := by
  rw [List.filter_map]
  congr 1
  apply List.filter_congr
  intro kv hkv
  simp only [Function.comp_apply]
  by_cases hk : keptByCleanup now kv.2 = true
  · rw [hk]
    symm
    rw [decide_eq_true_eq]
    intro hin
    unfold sweptIds at hin
    obtain ⟨kv2, hkv2, hfst⟩ := List.mem_map.mp hin
    have hmem := (List.mem_filter.mp hkv2).1
    have hnot := (List.mem_filter.mp hkv2).2
    have heq : kv2 = kv := List.inj_on_of_nodup_map hnodup hmem hkv hfst
    rw [heq, hk] at hnot
    simp at hnot
  · have hk2 : keptByCleanup now kv.2 = false := by simpa using hk
    rw [hk2]
    symm
    rw [decide_eq_false_iff_not, not_not]
    unfold sweptIds
    exact List.mem_map_of_mem _ (List.mem_filter.mpr ⟨hkv, by simp [hk2]⟩)

theorem registryStep_invariant (state : List (String × Connection) × Store) (op : RegistryOp)
    (hkeys : state.1.map Prod.fst = state.2.connectedDashboards)
    (hnodup : (state.1.map Prod.fst).Nodup) :
    (registryStep state op).1.map Prod.fst = (registryStep state op).2.connectedDashboards ∧
    ((registryStep state op).1.map Prod.fst).Nodup := by
  cases op with
  | connect now connectionId ws =>
    have h1 : (registryStep state (.connect now connectionId ws)).1 =
        mapSet state.1 connectionId
          { ws := ws, connectedAt := now, lastActivity := now, focused := none,
            subscriptions := none } := rfl
    have h2 : (registryStep state (.connect now connectionId ws)).2.connectedDashboards =
        setAdd state.2.connectedDashboards connectionId := by
      show (getSummary (addDashboard state.2 connectionId).2).2.connectedDashboards = _
      rw [getSummary_connectedDashboards]
      rfl
    rw [h1, h2]
    exact ⟨by rw [keys_mapSet_eq_setAdd, hkeys], keys_mapSet_nodup _ _ _ hnodup⟩
  | disconnect now connectionId =>
    have h1 : (registryStep state (.disconnect now connectionId)).1 =
        mapDelete state.1 connectionId := rfl
    have h2 : (registryStep state (.disconnect now connectionId)).2.connectedDashboards =
        setDelete state.2.connectedDashboards connectionId := rfl
    rw [h1, h2, keys_mapDelete_eq_setDelete _ _ hnodup, hkeys]
    refine ⟨rfl, ?_⟩
    rw [← hkeys]
    exact hnodup.filter _
  | cleanup now =>
    have hfold := sweep_fold now state.1 [] state.2 0 (by simpa using hnodup)
    have h1 : (registryStep state (.cleanup now)).1 =
        state.1.filter (fun kv => keptByCleanup now kv.2) := by
      show (state.1.foldl (sweepEntry now) (state.1, state.2, 0)).1 = _
      have h := congrArg Prod.fst hfold
      simpa using h
    have h2 : (registryStep state (.cleanup now)).2.connectedDashboards =
        state.2.connectedDashboards.filter (fun d => decide (d ∉ sweptIds now state.1)) := by
      show (state.1.foldl (sweepEntry now) (state.1, state.2, 0)).2.1.connectedDashboards = _
      have h := congrArg (fun r => r.2.1.connectedDashboards) hfold
      simpa using h
    rw [h1, h2, keys_filter_kept now state.1 hnodup, hkeys]
    refine ⟨rfl, ?_⟩
    rw [← hkeys]
    exact hnodup.filter _

theorem registryRun_invariant (ops : List RegistryOp)
    (state : List (String × Connection) × Store)
    (hkeys : state.1.map Prod.fst = state.2.connectedDashboards)
    (hnodup : (state.1.map Prod.fst).Nodup) :
    (ops.foldl registryStep state).1.map Prod.fst =
      (ops.foldl registryStep state).2.connectedDashboards ∧
    ((ops.foldl registryStep state).1.map Prod.fst).Nodup := by
  induction ops generalizing state with
  | nil => exact ⟨hkeys, hnodup⟩
  | cons op rest ih =>
    rw [List.foldl_cons]
    exact ih _ (registryStep_invariant state op hkeys hnodup).1
      (registryStep_invariant state op hkeys hnodup).2

/-- C29: after any sequence of registrations of connections, calls of `handleDisconnect`
(a second disconnect of the same id included) and calls of `cleanupInactiveConnections`, from
an empty registry and a new store, the dashboard set of the store holds exactly the ids of the
registry, in the same order, so the dashboard count of the store equals the number of entries
of the registry. -/
theorem dashboard_count_matches_registry (toDateString : Time → Day) (now : Time)
    (ops : List RegistryOp) :
    (registryRun toDateString now ops).2.connectedDashboards =
      (registryRun toDateString now ops).1.map Prod.fst ∧
    getDashboardCount (registryRun toDateString now ops).2 =
      (registryRun toDateString now ops).1.length := by
  have h := (registryRun_invariant ops ([], newDataStorage toDateString now) rfl
    List.nodup_nil).1
  have h2 : (registryRun toDateString now ops).2.connectedDashboards =
      (registryRun toDateString now ops).1.map Prod.fst := h.symm
  refine ⟨h2, ?_⟩
  unfold getDashboardCount
  rw [h2, List.length_map]

end WebSocketHandler

namespace AnalyticsRoutes

open DataStorage WebSocketHandler

/-! ## The ordering of `GET /analytics/events` -/

theorem insertionSort_filter_ties {α : Type} (r : α → α → Prop) [DecidableRel r]
    (p : α → Bool) (l : List α) (hties : ∀ a b, p a = true → p b = true → r a b) :
    (l.insertionSort r).filter p = l.filter p := by
  have hpair : (l.filter p).Pairwise r :=
    List.pairwise_of_forall_mem_list (fun a ha b hb =>
      hties a b (List.mem_filter.mp ha).2 (List.mem_filter.mp hb).2)
  have hsub : (l.filter p).Sublist (l.insertionSort r) :=
    List.sublist_insertionSort hpair (List.filter_sublist l)
  have hsub2 : ((l.filter p).filter p).Sublist ((l.insertionSort r).filter p) := hsub.filter p
  simp only [List.filter_filter, Bool.and_self] at hsub2
  have hlen : ((l.insertionSort r).filter p).length = (l.filter p).length :=
    ((List.perm_insertionSort r l).filter p).length_eq
  exact (hsub2.eq_of_length hlen.symm).symm

theorem sorted_ascending {α : Type} (key : α → List Nat) (l : List α) :
    (l.insertionSort (fun a b => key a ≤ key b)).Sorted (fun a b => key a ≤ key b) := by
  haveI : IsTotal α (fun a b => key a ≤ key b) := ⟨fun a b => le_total (key a) (key b)⟩
  haveI : IsTrans α (fun a b => key a ≤ key b) := ⟨fun _ _ _ h1 h2 => le_trans h1 h2⟩
  exact List.sorted_insertionSort _ l

theorem sorted_descending {α : Type} (key : α → List Nat) (l : List α) :
    (l.insertionSort (fun a b => key b ≤ key a)).Sorted (fun a b => key b ≤ key a) := by
  haveI : IsTotal α (fun a b => key b ≤ key a) := ⟨fun a b => le_total (key b) (key a)⟩
  haveI : IsTrans α (fun a b => key b ≤ key a) := ⟨fun _ _ _ h1 h2 => le_trans h2 h1⟩
  exact List.sorted_insertionSort _ l

theorem sortEvents_of_field (sortBy order : String) (events : List Event)
    (hfield : sortBy ∈ sortFields) :
    sortEvents sortBy order events =
      if order = "asc" then
        events.insertionSort (fun a b => sortKey sortBy a ≤ sortKey sortBy b)
      else events.insertionSort (fun a b => sortKey sortBy b ≤ sortKey sortBy a) := by
  have hcontains : sortFields.contains sortBy = true := by simpa using hfield
  unfold sortEvents
  rw [if_pos hcontains]

/-- The events that the route sorts: what `getEvents` returned, after the filters on the
session and on the dates. They are in descending order of timestamp. -/
theorem getAnalyticsEvents_events (s : Store) (query : EventsQuery) :
    ∃ found : List Event, found.Sorted (fun a b => b.timestamp ≤ a.timestamp) ∧
      (getAnalyticsEvents s query).events = sortEvents query.sortBy query.order found := by
  unfold getAnalyticsEvents
  simp only
  refine ⟨_, ?_, rfl⟩
  have h0 := sortDesc_sorted (fun e : Event => e.timestamp)
    (s.events.filter (passes
      { country := if truthy query.country then query.country else none
        page := if truthy query.page then query.page else none
        type := if truthy query.type then query.type else none }))
  rw [← getEvents_result] at h0
  have h1 : ∀ (l : List Event), l.Sorted (fun a b => b.timestamp ≤ a.timestamp) →
      (if truthy query.sessionId then
        l.filter (fun e => decide (some e.sessionId = query.sessionId))
      else l).Sorted (fun a b => b.timestamp ≤ a.timestamp) := by
    intro l hl
    split
    · exact hl.filter _
    · exact hl
  have h2 : ∀ (l : List Event), l.Sorted (fun a b => b.timestamp ≤ a.timestamp) →
      (match query.startDate with
        | some start => l.filter (fun (e : Event) => decide (start ≤ e.timestamp))
        | none => l).Sorted (fun (a b : Event) => b.timestamp ≤ a.timestamp) := by
    intro l hl
    split
    · exact hl.filter _
    · exact hl
  have h3 : ∀ (l : List Event), l.Sorted (fun a b => b.timestamp ≤ a.timestamp) →
      (match query.endDate with
        | some stop => l.filter (fun (e : Event) => decide (e.timestamp ≤ stop))
        | none => l).Sorted (fun (a b : Event) => b.timestamp ≤ a.timestamp) := by
    intro l hl
    split
    · exact hl.filter _
    · exact hl
  exact h3 _ (h2 _ (h1 _ h0))

theorem getAnalyticsEvents_paginated_sublist (s : Store) (query : EventsQuery) :
    (getAnalyticsEvents s query).paginated.Sublist (getAnalyticsEvents s query).events := by
  unfold getAnalyticsEvents
  simp only
  exact (List.take_sublist _ _).trans (List.drop_sublist _ _)

/-- C26 as stated fails: two events of the same country are ingested, stamped 1000 and then
2000, and the events are queried sorted by country. The two tie on the country and come back
with the event stamped 2000 first, the reverse of their order of ingestion: the sort is
applied to the list that `getEvents` returned, which is in descending order of timestamp. -/
theorem ties_are_not_in_ingestion_order :
    storeTwoEvents.events.map (fun e => (e.country, e.timestamp)) =
      [(some "US", 1000), (some "US", 2000)] ∧
    (getAnalyticsEvents storeTwoEvents byCountry).events.map (fun e => (e.country, e.timestamp)) =
      [(some "US", 2000), (some "US", 1000)] := by
  refine ⟨by decide, ?_⟩
  have hfound : (getEvents storeTwoEvents
      { country := none, page := none, type := none }).1 =
      [stamp 2000 (pageview "s1" "/b" 2000), stamp 1000 (pageview "s1" "/a" 1000)] := by
    decide
  have hevents : (getAnalyticsEvents storeTwoEvents byCountry).events =
      sortEvents "country" "asc"
        [stamp 2000 (pageview "s1" "/b" 2000), stamp 1000 (pageview "s1" "/a" 1000)] := by
    rw [← hfound]
    rfl
  rw [hevents, sortEvents_of_field _ _ _ (by decide), if_pos rfl]
  have hle : sortKey "country" (stamp 2000 (pageview "s1" "/b" 2000)) ≤
      sortKey "country" (stamp 1000 (pageview "s1" "/a" 1000)) := le_of_eq rfl
  simp only [List.insertionSort, List.orderedInsert, hle, if_true]
  decide

/-- C26, amended: when the events query names a sort field (country, page, type or
sessionId), the events are ordered by that field, compared by UTF-16 code units as the
operators `<` and `>` do, ascending for the order `asc` and descending otherwise, and the
events that tie on the field are in descending order of timestamp, the order in which
`getEvents` returned them; the page of events of the response is a run of that list, so it is
ordered in the same way. -/
theorem events_sorted_by_field_ties_newest_first (s : Store) (query : EventsQuery)
    (hfield : query.sortBy ∈ sortFields) :
    ((getAnalyticsEvents s query).events.Sorted (fun a b =>
        if query.order = "asc" then sortKey query.sortBy a ≤ sortKey query.sortBy b
        else sortKey query.sortBy b ≤ sortKey query.sortBy a) ∧
      ∀ v : String,
        ((getAnalyticsEvents s query).events.filter
          (fun e => decide (sortValue query.sortBy e = v))).Sorted
            (fun a b => b.timestamp ≤ a.timestamp)) ∧
    ((getAnalyticsEvents s query).paginated.Sorted (fun a b =>
        if query.order = "asc" then sortKey query.sortBy a ≤ sortKey query.sortBy b
        else sortKey query.sortBy b ≤ sortKey query.sortBy a) ∧
      ∀ v : String,
        ((getAnalyticsEvents s query).paginated.filter
          (fun e => decide (sortValue query.sortBy e = v))).Sorted
            (fun a b => b.timestamp ≤ a.timestamp)) := by
  obtain ⟨found, hfound, hevents⟩ := getAnalyticsEvents_events s query
  have hall : (getAnalyticsEvents s query).events.Sorted (fun a b =>
        if query.order = "asc" then sortKey query.sortBy a ≤ sortKey query.sortBy b
        else sortKey query.sortBy b ≤ sortKey query.sortBy a) ∧
      ∀ v : String,
        ((getAnalyticsEvents s query).events.filter
          (fun e => decide (sortValue query.sortBy e = v))).Sorted
            (fun a b => b.timestamp ≤ a.timestamp) := by
    rw [hevents, sortEvents_of_field _ _ _ hfield]
    by_cases hasc : query.order = "asc"
    · simp only [hasc, if_true]
      refine ⟨sorted_ascending _ _, fun v => ?_⟩
      rw [insertionSort_filter_ties _ _ _ (fun a b ha hb => by
        unfold sortKey
        rw [of_decide_eq_true ha, of_decide_eq_true hb])]
      exact hfound.filter _
    · simp only [hasc, if_false]
      refine ⟨sorted_descending _ _, fun v => ?_⟩
      rw [insertionSort_filter_ties _ _ _ (fun a b ha hb => by
        unfold sortKey
        rw [of_decide_eq_true ha, of_decide_eq_true hb])]
      exact hfound.filter _
  have hsub := getAnalyticsEvents_paginated_sublist s query
  exact ⟨hall, hall.1.sublist hsub, fun v => (hall.2 v).sublist (hsub.filter _)⟩

/-- The two events of the same country, sorted by country: the one stamped 2000 comes first. -/
theorem events_sorted_by_field_ties_newest_first_witness :
    byCountry.sortBy ∈ sortFields ∧
    ((getAnalyticsEvents storeTwoEvents byCountry).events.filter
      (fun e => decide (sortValue byCountry.sortBy e = "US"))).Sorted
        (fun a b => b.timestamp ≤ a.timestamp) :=
  ⟨by decide,
    (events_sorted_by_field_ties_newest_first storeTwoEvents byCountry (by decide)).1.2 "US"⟩


/-! ## Validation -/

theorem truthy_string_iff (v : JsValue) :
    (v.truthy = true ∧ v.isString = true) ↔ ∃ s : String, v = .string s ∧ s ≠ "" := by
  cases v <;> simp [JsValue.truthy, JsValue.isString]

theorem truthy_of_isValidType (v : JsValue) (h : isValidType v = true) : v.truthy = true := by
  cases v with
  | string s =>
    have hmem : s ∈ validTypes := by simpa [isValidType] using h
    have hne : s ≠ "" := by
      rintro rfl
      revert hmem
      decide
    simpa [JsValue.truthy] using hne
  | _ => simp [isValidType] at h

theorem validateEventData_eq_nil (dateValue : JsValue → Option Time) (e : RawEvent) :
    validateEventData dateValue e = [] ↔
      e.type.truthy = true ∧ isValidType e.type = true ∧
      (e.sessionId.truthy = true ∧ e.sessionId.isString = true) ∧
      (e.page.truthy = true ∧ e.page.isString = true) ∧
      (e.country.truthy = false ∨ e.country.isString = true) ∧
      (e.timestamp.truthy = false ∨ (dateValue e.timestamp).isSome = true) := by
  unfold validateEventData
  cases e.type.truthy <;> cases isValidType e.type <;> cases e.sessionId.truthy <;>
    cases e.sessionId.isString <;> cases e.page.truthy <;> cases e.page.isString <;>
    cases e.country.truthy <;> cases e.country.isString <;> cases e.timestamp.truthy <;>
    cases dateValue e.timestamp <;> simp

theorem postEvents_of_errors (toDateString : Time → Day) (dateValue : JsValue → Option Time)
    (connections : Option (List (String × Connection))) (s : Store) (now : Time)
    (e : RawEvent) (h : validateEventData dateValue e ≠ []) :
    postEvents toDateString dateValue connections s now e =
      { status := 400, saved := none, store := s, sent := [] } := by
  unfold postEvents
  simp only
  rw [if_pos (List.length_pos.mpr h)]

theorem postEvents_of_valid (toDateString : Time → Day) (dateValue : JsValue → Option Time)
    (connections : Option (List (String × Connection))) (s : Store) (now : Time)
    (e : RawEvent) (h : validateEventData dateValue e = []) :
    (postEvents toDateString dateValue connections s now e).status = 201 ∧
    (postEvents toDateString dateValue connections s now e).saved =
      some (addEvent toDateString s now (cleanEvent dateValue now e)).1 := by
  unfold postEvents
  simp only [h, List.length_nil, gt_iff_lt, lt_self_iff_false, if_false]
  cases connections <;> exact ⟨rfl, rfl⟩

/-- C27 as stated fails: a body whose timestamp is the empty string gets no error, although its
timestamp is present and is not a date; the timestamp is checked only when it is truthy. -/
theorem blank_timestamp_passes_validation :
    validateEventData exampleDate blankTimestampBody = [] ∧
    blankTimestampBody.timestamp ≠ .undefined ∧
    exampleDate blankTimestampBody.timestamp = none ∧
    validAsWorded exampleDate blankTimestampBody = false := by
  decide

/-- C27, amended: `validateEventData` returns no error exactly when the type is one of
pageview, click and session_end, the session id and the page are non-empty strings, the
country is falsy (absent, null, false, 0 or the empty string) or a string, and the timestamp is
falsy or a date. For every other body it returns at least one error, and `POST /events` then
answers 400 without calling `addEvent`, leaving the store as it was; for a body without error
it answers 201 with the event that `addEvent` returned. -/
theorem validateEventData_rule (toDateString : Time → Day) (dateValue : JsValue → Option Time)
    (connections : Option (List (String × Connection))) (s : Store) (now : Time)
    (e : RawEvent) :
    (validateEventData dateValue e = [] ↔
      isValidType e.type = true ∧
      (∃ id : String, e.sessionId = .string id ∧ id ≠ "") ∧
      (∃ page : String, e.page = .string page ∧ page ≠ "") ∧
      (e.country.truthy = false ∨ e.country.isString = true) ∧
      (e.timestamp.truthy = false ∨ (dateValue e.timestamp).isSome = true)) ∧
    (validateEventData dateValue e ≠ [] →
      1 ≤ (validateEventData dateValue e).length ∧
      (postEvents toDateString dateValue connections s now e).status = 400 ∧
      (postEvents toDateString dateValue connections s now e).saved = none ∧
      (postEvents toDateString dateValue connections s now e).store = s) ∧
    (validateEventData dateValue e = [] →
      (postEvents toDateString dateValue connections s now e).status = 201 ∧
      (postEvents toDateString dateValue connections s now e).saved =
        some (addEvent toDateString s now (cleanEvent dateValue now e)).1) := by
  refine ⟨?_, fun h => ?_, fun h => postEvents_of_valid toDateString dateValue connections s now e h⟩
  · rw [validateEventData_eq_nil, truthy_string_iff, truthy_string_iff]
    constructor
    · rintro ⟨_, h2, h3, h4, h5, h6⟩
      exact ⟨h2, h3, h4, h5, h6⟩
    · rintro ⟨h2, h3, h4, h5, h6⟩
      exact ⟨truthy_of_isValidType _ h2, h2, h3, h4, h5, h6⟩
  · rw [postEvents_of_errors toDateString dateValue connections s now e h]
    exact ⟨List.length_pos.mpr h, rfl, rfl, rfl⟩

/-- A body without session id gets an error and is answered 400; the store stays empty. -/
theorem validateEventData_rule_witness :
    validateEventData exampleDate { goodBody with sessionId := .undefined } ≠ [] ∧
    (postEvents utcDay exampleDate none (store0) 5
      { goodBody with sessionId := .undefined }).status = 400 ∧
    (postEvents utcDay exampleDate none (store0) 5
      { goodBody with sessionId := .undefined }).store = store0 :=
  ⟨by decide,
    ((validateEventData_rule utcDay exampleDate none store0 5
      { goodBody with sessionId := .undefined }).2.1 (by decide)).2.1,
    ((validateEventData_rule utcDay exampleDate none store0 5
      { goodBody with sessionId := .undefined }).2.1 (by decide)).2.2.2⟩

end AnalyticsRoutes
